import Mathlib

/-!
# Page data of `posts/2020/Vue3 模板编译优化_props.js`

The module exports one record: the pre-rendered data of a blog page (paths,
markup fragments, front matter, and the `blog` listing with its category and
tag indexes).  The record is embedded below field by field; the only
expression of the module that computes anything is the object spread that
builds `config`.
-/

namespace Pagic

/-- An element created with `dangerouslySetInnerHTML`: its type and the `__html` string. -/
structure RawElement where
  type : String
  html : String

/-- An element created with plain props and text children. -/
structure Element where
  type : String
  props : List (String × String)
  children : List String

/-- One entry of `blog.posts`. -/
structure PostSummary where
  pagePath : String
  title : String
  link : String
  date : String
  updated : Option String
  author : String
  contributors : List String
  categories : List String
  tags : List String
  excerpt : String
  cover : Option String
  deriving DecidableEq

/-- One entry of `blog.categories` or `blog.tags`. -/
structure IndexEntry where
  name : String
  count : Nat
  deriving DecidableEq

/-- The `blog` object. -/
structure Blog where
  isPost : Bool
  posts : List PostSummary
  categories : List IndexEntry
  tags : List IndexEntry

/-! ## JavaScript values and the object spread -/

/-- JavaScript data values; `num` carries the integer-valued numbers only. -/
inductive JSValue where
  | undefined
  | null
  | bool (b : Bool)
  | num (n : Int)
  | str (s : String)
  | obj (props : List (String × JSValue))

/-- A plain object: its own enumerable string-keyed properties, in insertion order. -/
abbrev JSObject := List (String × JSValue)

/-- Own property keys of an object, in order. -/
def keys (o : JSObject) : List String := o.map Prod.fst

/-- Property read `o[k]`; `none` when `o` has no own property `k`. -/
def getProp : JSObject → String → Option JSValue
  | [], _ => none
  | (k1, v1) :: rest, k => if k = k1 then some v1 else getProp rest k

/-- Property definition: an existing key keeps its position and takes the new value, a new key is appended. -/
def setProp : JSObject → String → JSValue → JSObject
  | [], k, v => [(k, v)]
  | (k1, v1) :: rest, k, v => if k = k1 then (k1, v) :: rest else (k1, v1) :: setProp rest k v

/-- Spread `...src` inside an object literal: every own property of `src` is defined on the target, in order. -/
def spread (target src : JSObject) : JSObject :=
  src.foldl (fun o kv => setProp o kv.1 kv.2) target

/-- The properties a spread copies from an arbitrary value: none from `undefined`, `null`,
booleans and numbers, the indexed characters of a string, the own properties of an object. -/
def spreadSource : JSValue → JSObject
  | .obj props => props
  | .str s => (List.range s.data.length).zip s.data |>.map
      (fun ic => (toString ic.1, JSValue.str (String.mk [ic.2])))
  | _ => []

/-- Field `config` (source line 3): `{ "root": "/", ...projectConfig }`. -/
def config (projectConfig : JSObject) : JSObject :=
  spread (setProp [] "root" (.str "/")) projectConfig

/-- Errors an assembler could signal while building `config`. -/
inductive ConfigError where
  | ConfigMergeError
  | ContentResolutionError

/-- Evaluation of the `config` expression for an arbitrary imported `projectConfig` value.
The object literal and the spread have no failing path. -/
def evalConfig (projectConfig : JSValue) : Except ConfigError JSObject :=
  .ok (config (spreadSource projectConfig))

/-- The value is a JavaScript string. -/
def JSValue.isStr : JSValue → Bool
  | .str _ => true
  | _ => false

/-- Field `pagePath` (source line 4). -/
def pagePath : String := "posts/2020/Vue3 模板编译优化.md"

/-- Field `layoutPath` (source line 5). -/
def layoutPath : String := "posts/_layout.tsx"

/-- Field `outputPath` (source line 6). -/
def outputPath : String := "posts/2020/Vue3 模板编译优化.html"

/-- Field `title` (source line 7). -/
def title : String := "Vue3 模板编译优化"

/-- Field `content` (source lines 8-10): an `article` element whose inner HTML is the whole rendered page. -/
def content : RawElement :=
  ⟨"article", "<h1>Vue3 模板编译优化</h1>\n<p>Vue3 正式发布已经有一段时间了，前段时间写了一篇文章（<a href=\"https://blog.shenfq.com/2020/vue-%E6%A8%A1%E6%9D%BF%E7%BC%96%E8%AF%91%E5%8E%9F%E7%90%86/\">《Vue 模板编译原理》</a>）分析 Vue 的模板编译原理。今天的文章打算学习下 Vue3 下的模板编译与 Vue2 下的差异，以及 VDOM 下 Diff 算法的优化。</p>\n<h2 id=\"%E7%BC%96%E8%AF%91%E5%85%A5%E5%8F%A3\">编译入口<a class=\"anchor\" href=\"#%E7%BC%96%E8%AF%91%E5%85%A5%E5%8F%A3\">§</a></h2>\n<p>了解过 Vue3 的同学肯定知道 Vue3 引入了新的组合 Api，在组件 <code>mount</code> 阶段会调用 <code>setup</code> 方法，之后会判断 <code>render</code> 方法是否存在，如果不存在会调用 <code>compile</code> 方法将 <code>template</code> 转化为 <code>render</code>。</p>\n<pre class=\"language-js\"><code class=\"language-js\"><span class=\"token comment\">// packages/runtime-core/src/renderer.ts</span>\n<span class=\"token keyword\">const</span> <span class=\"token function-variable function\">mountComponent</span> <span class=\"token operator\">=</span> <span class=\"token punctuation\">(</span><span class=\"token parameter\">initialVNode<span class=\"token punctuation\">,</span> container</span><span class=\"token punctuation\">)</span> <span class=\"token arrow operator\">=></span> <span class=\"token punctuation\">\x7b</span>\n  <span class=\"token keyword\">const</span> instance <span class=\"token operator\">=</span> <span class=\"token punctuation\">(</span>\n    initialVNode<span class=\"token punctuation\">.</span><span class=\"token property-access\">component</span> <span class=\"token operator\">=</span> <span class=\"token function\">createComponentInstance</span><span class=\"token punctuation\">(</span>\n      <span class=\"token comment\">// ...params</span>\n    <span class=\"token punctuation\">)</span>\n  <span class=\"token punctuation\">)</span>\n  <span class=\"token comment\">// 调用 setup</span>\n  <span class=\"token function\">setupComponent</span><span class=\"token punctuation\">(</span>instance<span class=\"token punctuation\">)</span>\n<span class=\"token punctuation\">\x7d</span>\n\n<span class=\"token comment\">// packages/runtime-core/src/component.ts</span>\n<span class=\"token keyword\">let</span> compile\n<span class=\"token keyword module\">export</span> <span class=\"token keyword\">function</span> <span class=\"token function\">registerRuntimeCompiler</span><span class=\"token punctuation\">(</span><span class=\"token parameter\">_compile</span><span class=\"token punctuation\">)</span> <span class=\"token punctuation\">\x7b</span>\n  compile <span class=\"token operator\">=</span> _compile\n<span class=\"token punctuation\">\x7d</span>\n<span class=\"token keyword module\">export</span> <span class=\"token keyword\">function</span> <span class=\"token function\">setupComponent</span><span class=\"token punctuation\">(</span><span class=\"token parameter\">instance</span><span class=\"token punctuation\">)</span> <span class=\"token punctuation\">\x7b</span>\n  <span class=\"token keyword\">const</span> <span class=\"token maybe-class-name\">Component</span> <span class=\"token operator\">=</span> instance<span class=\"token punctuation\">.</span><span class=\"token property-access\">type</span>\n  <span class=\"token keyword\">const</span> <span class=\"token punctuation\">\x7b</span> setup <span class=\"token punctuation\">\x7d</span> <span class=\"token operator\">=</span> <span class=\"token maybe-class-name\">Component</span>\n  <span class=\"token keyword control-flow\">if</span> <span class=\"token punctuation\">(</span>setup<span class=\"token punctuation\">)</span> <span class=\"token punctuation\">\x7b</span>\n    <span class=\"token comment\">// ...调用 setup</span>\n  <span class=\"token punctuation\">\x7d</span>\n  <span class=\"token keyword control-flow\">if</span> <span class=\"token punctuation\">(</span>compile <span class=\"token operator\">&amp;&amp;</span> <span class=\"token maybe-class-name\">Component</span><span class=\"token punctuation\">.</span><span class=\"token property-access\">template</span> <span class=\"token operator\">&amp;&amp;</span> <span class=\"token operator\">!</span><span class=\"token maybe-class-name\">Component</span><span class=\"token punctuation\">.</span><span class=\"token property-access\">render</span><span class=\"token punctuation\">)</span> <span class=\"token punctuation\">\x7b</span>\n    <span class=\"token comment\">// 如果没有 render 方法</span>\n    <span class=\"token comment\">// 调用 compile 将 template 转为 render 方法</span>\n    <span class=\"token maybe-class-name\">Component</span><span class=\"token punctuation\">.</span><span class=\"token property-access\">render</span> <span class=\"token operator\">=</span> <span class=\"token function\">compile</span><span class=\"token punctuation\">(</span><span class=\"token maybe-class-name\">Component</span><span class=\"token punctuation\">.</span><span class=\"token property-access\">template</span><span class=\"token punctuation\">,</span> <span class=\"token punctuation\">\x7b</span><span class=\"token spread operator\">...</span><span class=\"token punctuation\">\x7d</span><span class=\"token punctuation\">)</span>\n  <span class=\"token punctuation\">\x7d</span>\n<span class=\"token punctuation\">\x7d</span>\n</code></pre>\n<p>这部分都是 runtime-core 中的代码，之前的文章有讲过 Vue 分为完整版和 runtime 版本。如果使用 <code>vue-loader</code> 处理 <code>.vue</code> 文件，一般都会将 <code>.vue</code> 文件中的 <code>template</code> 直接处理成 <code>render</code> 方法。</p>\n<pre class=\"language-js\"><code class=\"language-js\"><span class=\"token comment\">//  需要编译器</span>\n<span class=\"token maybe-class-name\">Vue</span><span class=\"token punctuation\">.</span><span class=\"token method function property-access\">createApp</span><span class=\"token punctuation\">(</span><span class=\"token punctuation\">\x7b</span>\n  template<span class=\"token operator\">:</span> <span class=\"token string\">\x27&lt;div>\x7b\x7b hi \x7d\x7d&lt;/div>\x27</span>\n<span class=\"token punctuation\">\x7d</span><span class=\"token punctuation\">)</span>\n\n<span class=\"token comment\">// 不需要</span>\n<span class=\"token maybe-class-name\">Vue</span><span class=\"token punctuation\">.</span><span class=\"token method function property-access\">createApp</span><span class=\"token punctuation\">(</span><span class=\"token punctuation\">\x7b</span>\n  <span class=\"token function\">render</span><span class=\"token punctuation\">(</span><span class=\"token punctuation\">)</span> <span class=\"token punctuation\">\x7b</span>\n    <span class=\"token keyword control-flow\">return</span> <span class=\"token maybe-class-name\">Vue</span><span class=\"token punctuation\">.</span><span class=\"token method function property-access\">h</span><span class=\"token punctuation\">(</span><span class=\"token string\">\x27div\x27</span><span class=\"token punctuation\">,</span> <span class=\"token punctuation\">\x7b</span><span class=\"token punctuation\">\x7d</span><span class=\"token punctuation\">,</span> <span class=\"token keyword\">this</span><span class=\"token punctuation\">.</span><span class=\"token property-access\">hi</span><span class=\"token punctuation\">)</span>\n  <span class=\"token punctuation\">\x7d</span>\n<span class=\"token punctuation\">\x7d</span><span class=\"token punctuation\">)</span>\n</code></pre>\n<p>完整版与 runtime 版的差异就是，完整版会引入 <code>compile</code> 方法，如果是 vue-cli 生成的项目就会抹去这部分代码，将 compile 过程都放到打包的阶段，以此优化性能。runtime-dom 中提供了 <code>registerRuntimeCompiler</code> 方法用于注入 <code>compile</code> 方法。</p>\n<p><img src=\"https://file.shenfq.com/pic/20201109144930.png\" alt=\"\"></p>\n<h2 id=\"%E4%B8%BB%E6%B5%81%E7%A8%8B\">主流程<a class=\"anchor\" href=\"#%E4%B8%BB%E6%B5%81%E7%A8%8B\">§</a></h2>\n<p>在完整版的 <code>index.js</code> 中，调用了  <code>registerRuntimeCompiler</code> 将 <code>compile</code> 进行注入，接下来我们看看注入的 <code>compile</code> 方法主要做了什么。</p>\n<pre class=\"language-js\"><code class=\"language-js\"><span class=\"token comment\">// packages/vue/src/index.ts</span>\n<span class=\"token keyword module\">import</span> <span class=\"token imports\"><span class=\"token punctuation\">\x7b</span> compile <span class=\"token punctuation\">\x7d</span></span> <span class=\"token keyword module\">from</span> <span class=\"token string\">\x27@vue/compiler-dom\x27</span>\n\n<span class=\"token comment\">// 编译缓存</span>\n<span class=\"token keyword\">const</span> compileCache <span class=\"token operator\">=</span> <span class=\"token known-class-name class-name\">Object</span><span class=\"token punctuation\">.</span><span class=\"token method function property-access\">create</span><span class=\"token punctuation\">(</span><span class=\"token keyword null nil\">null</span><span class=\"token punctuation\">)</span>\n\n<span class=\"token comment\">// 注入 compile 方法</span>\n<span class=\"token keyword\">function</span> <span class=\"token function\">compileToFunction</span><span class=\"token punctuation\">(</span>\n  <span class=\"token comment\">// 模板</span>\n  template<span class=\"token operator\">:</span> string <span class=\"token operator\">|</span> <span class=\"token maybe-class-name\">HTMLElement</span><span class=\"token punctuation\">,</span>\n  <span class=\"token comment\">// 编译配置</span>\n  options<span class=\"token operator\">?</span><span class=\"token operator\">:</span> <span class=\"token maybe-class-name\">CompilerOptions</span>\n<span class=\"token punctuation\">)</span><span class=\"token operator\">:</span> <span class=\"token maybe-class-name\">RenderFunction</span> <span class=\"token punctuation\">\x7b</span>\n  <span class=\"token keyword control-flow\">if</span> <span class=\"token punctuation\">(</span><span class=\"token operator\">!</span><span class=\"token function\">isString</span><span class=\"token punctuation\">(</span>template<span class=\"token punctuation\">)</span><span class=\"token punctuation\">)</span> <span class=\"token punctuation\">\x7b</span>\n    <span class=\"token comment\">// 如果 template 不是字符串</span>\n    <span class=\"token comment\">// 则认为是一个 DOM 节点，获取 innerHTML</span>\n    <span class=\"token keyword control-flow\">if</span> <span class=\"token punctuation\">(</span>template<span class=\"token punctuation\">.</span><span class=\"token property-access\">nodeType</span><span class=\"token punctuation\">)</span> <span class=\"token punctuation\">\x7b</span>\n      template <span class=\"token operator\">=</span> template<span class=\"token punctuation\">.</span><span class=\"token property-access\">innerHTML</span>\n    <span class=\"token punctuation\">\x7d</span> <span class=\"token keyword control-flow\">else</span> <span class=\"token punctuation\">\x7b</span>\n      <span class=\"token keyword control-flow\">return</span> <span class=\"token constant\">NOOP</span>\n    <span class=\"token punctuation\">\x7d</span>\n  <span class=\"token punctuation\">\x7d</span>\n\n  <span class=\"token comment\">// 如果缓存中存在，直接从缓存中获取</span>\n  <span class=\"token keyword\">const</span> key <span class=\"token operator\">=</span> template\n  <span class=\"token keyword\">const</span> cached <span class=\"token operator\">=</span> compileCache<span class=\"token punctuation\">[</span>key<span class=\"token punctuation\">]</span>\n  <span class=\"token keyword control-flow\">if</span> <span class=\"token punctuation\">(</span>cached<span class=\"token punctuation\">)</span> <span class=\"token punctuation\">\x7b</span>\n    <span class=\"token keyword control-flow\">return</span> cached\n  <span class=\"token punctuation\">\x7d</span>\n\n  <span class=\"token comment\">// 如果是 ID 选择器，这获取 DOM 元素后，取 innerHTML</span>\n  <span class=\"token keyword control-flow\">if</span> <span class=\"token punctuation\">(</span>template<span class=\"token punctuation\">[</span><span class=\"token number\">0</span><span class=\"token punctuation\">]</span> <span class=\"token operator\">===</span> <span class=\"token string\">\x27#\x27</span><span class=\"token punctuation\">)</span> <span class=\"token punctuation\">\x7b</span>\n    <span class=\"token keyword\">const</span> el <span class=\"token operator\">=</span> <span class=\"token dom variable\">document</span><span class=\"token punctuation\">.</span><span class=\"token method function property-access\">querySelector</span><span class=\"token punctuation\">(</span>template<span class=\"token punctuation\">)</span>\n    template <span class=\"token operator\">=</span> el <span class=\"token operator\">?</span> el<span class=\"token punctuation\">.</span><span class=\"token property-access\">innerHTML</span> <span class=\"token operator\">:</span> <span class=\"token string\">\x27\x27</span>\n  <span class=\"token punctuation\">\x7d</span>\n\n  <span class=\"token comment\">// 调用 compile 获取 render code</span>\n  <span class=\"token keyword\">const</span> <span class=\"token punctuation\">\x7b</span> code <span class=\"token punctuation\">\x7d</span> <span class=\"token operator\">=</span> <span class=\"token function\">compile</span><span class=\"token punctuation\">(</span>\n    template<span class=\"token punctuation\">,</span>\n    options\n  <span class=\"token punctuation\">)</span>\n\n  <span class=\"token comment\">// 将 render code 转化为 function</span>\n  <span class=\"token keyword\">const</span> render <span class=\"token operator\">=</span> <span class=\"token keyword\">new</span> <span class=\"token class-name\">Function</span><span class=\"token punctuation\">(</span>code<span class=\"token punctuation\">)</span><span class=\"token punctuation\">(</span><span class=\"token punctuation\">)</span><span class=\"token punctuation\">;</span>\n\n  <span class=\"token comment\">// 返回 render 方法的同时，将其放入缓存</span>\n  <span class=\"token keyword control-flow\">return</span> <span class=\"token punctuation\">(</span>compileCache<span class=\"token punctuation\">[</span>key<span class=\"token punctuation\">]</span> <span class=\"token operator\">=</span> render<span class=\"token punctuation\">)</span>\n<span class=\"token punctuation\">\x7d</span>\n\n<span class=\"token comment\">// 注入 compile</span>\n<span class=\"token function\">registerRuntimeCompiler</span><span class=\"token punctuation\">(</span>compileToFunction<span class=\"token punctuation\">)</span>\n</code></pre>\n<p>在讲 Vue2 模板编译的时候已经讲过，<code>compile</code> 方法主要分为三步，Vue3 的逻辑类似：</p>\n<ol>\n<li>模板编译，将模板代码转化为 AST；</li>\n<li>优化 AST，方便后续虚拟 DOM 更新；</li>\n<li>生成代码，将 AST 转化为可执行的代码；</li>\n</ol>\n<pre class=\"language-js\"><code class=\"language-js\"><span class=\"token comment\">// packages/compiler-dom/src/index.ts</span>\n<span class=\"token keyword module\">import</span> <span class=\"token imports\"><span class=\"token punctuation\">\x7b</span> baseCompile<span class=\"token punctuation\">,</span> baseParse <span class=\"token punctuation\">\x7d</span></span> <span class=\"token keyword module\">from</span> <span class=\"token string\">\x27@vue/compiler-core\x27</span>\n<span class=\"token keyword module\">export</span> <span class=\"token keyword\">function</span> <span class=\"token function\">compile</span><span class=\"token punctuation\">(</span><span class=\"token parameter\">template<span class=\"token punctuation\">,</span> options</span><span class=\"token punctuation\">)</span> <span class=\"token punctuation\">\x7b</span>\n  <span class=\"token keyword control-flow\">return</span> <span class=\"token function\">baseCompile</span><span class=\"token punctuation\">(</span>template<span class=\"token punctuation\">,</span> options<span class=\"token punctuation\">)</span>\n<span class=\"token punctuation\">\x7d</span>\n\n<span class=\"token comment\">// packages/compiler-core/src/compile.ts</span>\n<span class=\"token keyword module\">import</span> <span class=\"token imports\"><span class=\"token punctuation\">\x7b</span> baseParse <span class=\"token punctuation\">\x7d</span></span> <span class=\"token keyword module\">from</span> <span class=\"token string\">\x27./parse\x27</span>\n<span class=\"token keyword module\">import</span> <span class=\"token imports\"><span class=\"token punctuation\">\x7b</span> transform <span class=\"token punctuation\">\x7d</span></span> <span class=\"token keyword module\">from</span> <span class=\"token string\">\x27./transform\x27</span>\n\n<span class=\"token keyword module\">import</span> <span class=\"token imports\"><span class=\"token punctuation\">\x7b</span> transformIf <span class=\"token punctuation\">\x7d</span></span> <span class=\"token keyword module\">from</span> <span class=\"token string\">\x27./transforms/vIf\x27</span>\n<span class=\"token keyword module\">import</span> <span class=\"token imports\"><span class=\"token punctuation\">\x7b</span> transformFor <span class=\"token punctuation\">\x7d</span></span> <span class=\"token keyword module\">from</span> <span class=\"token string\">\x27./transforms/vFor\x27</span>\n<span class=\"token keyword module\">import</span> <span class=\"token imports\"><span class=\"token punctuation\">\x7b</span> transformText <span class=\"token punctuation\">\x7d</span></span> <span class=\"token keyword module\">from</span> <span class=\"token string\">\x27./transforms/transformText\x27</span>\n<span class=\"token keyword module\">import</span> <span class=\"token imports\"><span class=\"token punctuation\">\x7b</span> transformElement <span class=\"token punctuation\">\x7d</span></span> <span class=\"token keyword module\">from</span> <span class=\"token string\">\x27./transforms/transformElement\x27</span>\n\n<span class=\"token keyword module\">import</span> <span class=\"token imports\"><span class=\"token punctuation\">\x7b</span> transformOn <span class=\"token punctuation\">\x7d</span></span> <span class=\"token keyword module\">from</span> <span class=\"token string\">\x27./transforms/vOn\x27</span>\n<span class=\"token keyword module\">import</span> <span class=\"token imports\"><span class=\"token punctuation\">\x7b</span> transformBind <span class=\"token punctuation\">\x7d</span></span> <span class=\"token keyword module\">from</span> <span class=\"token string\">\x27./transforms/vBind\x27</span>\n<span class=\"token keyword module\">import</span> <span class=\"token imports\"><span class=\"token punctuation\">\x7b</span> transformModel <span class=\"token punctuation\">\x7d</span></span> <span class=\"token keyword module\">from</span> <span class=\"token string\">\x27./transforms/vModel\x27</span>\n\n<span class=\"token keyword module\">export</span> <span class=\"token keyword\">function</span> <span class=\"token function\">baseCompile</span><span class=\"token punctuation\">(</span><span class=\"token parameter\">template<span class=\"token punctuation\">,</span> options</span><span class=\"token punctuation\">)</span> <span class=\"token punctuation\">\x7b</span>\n  <span class=\"token comment\">// 解析 html，转化为 ast</span>\n  <span class=\"token keyword\">const</span> ast <span class=\"token operator\">=</span> <span class=\"token function\">baseParse</span><span class=\"token punctuation\">(</span>template<span class=\"token punctuation\">,</span> options<span class=\"token punctuation\">)</span>\n  <span class=\"token comment\">// 优化 ast，标记静态节点</span>\n  <span class=\"token function\">transform</span><span class=\"token punctuation\">(</span>ast<span class=\"token punctuation\">,</span> <span class=\"token punctuation\">\x7b</span>\n    <span class=\"token spread operator\">...</span>options<span class=\"token punctuation\">,</span>\n    nodeTransforms<span class=\"token operator\">:</span> <span class=\"token punctuation\">[</span>\n      transformIf<span class=\"token punctuation\">,</span>\n      transformFor<span class=\"token punctuation\">,</span>\n      transformText<span class=\"token punctuation\">,</span>\n      transformElement<span class=\"token punctuation\">,</span>\n      <span class=\"token comment\">// ... 省略了部分 transform</span>\n    <span class=\"token punctuation\">]</span><span class=\"token punctuation\">,</span>\n    directiveTransforms<span class=\"token operator\">:</span> <span class=\"token punctuation\">\x7b</span>\n      on<span class=\"token operator\">:</span> transformOn<span class=\"token punctuation\">,</span>\n      bind<span class=\"token operator\">:</span> transformBind<span class=\"token punctuation\">,</span>\n      model<span class=\"token operator\">:</span> transformModel\n    <span class=\"token punctuation\">\x7d</span>\n  <span class=\"token punctuation\">\x7d</span><span class=\"token punctuation\">)</span>\n  <span class=\"token comment\">// 将 ast 转化为可执行代码</span>\n  <span class=\"token keyword control-flow\">return</span> <span class=\"token function\">generate</span><span class=\"token punctuation\">(</span>ast<span class=\"token punctuation\">,</span> options<span class=\"token punctuation\">)</span>\n<span class=\"token punctuation\">\x7d</span>\n</code></pre>\n<h2 id=\"%E8%AE%A1%E7%AE%97-patchflag\">计算 PatchFlag<a class=\"anchor\" href=\"#%E8%AE%A1%E7%AE%97-patchflag\">§</a></h2>\n<p>这里大致的逻辑与之前的并没有多大的差异，主要是 <code>optimize</code> 方法变成了  <code>transform</code> 方法，而且默认会对一些模板语法进行 <code>transform</code>。这些 <code>transform</code> 就是后续虚拟 DOM 优化的关键，我们先看看 <code>transform</code> 的代码 。</p>\n<pre class=\"language-js\"><code class=\"language-js\"><span class=\"token comment\">// packages/compiler-core/src/transform.ts</span>\n<span class=\"token keyword module\">export</span> <span class=\"token keyword\">function</span> <span class=\"token function\">transform</span><span class=\"token punctuation\">(</span><span class=\"token parameter\">root<span class=\"token punctuation\">,</span> options</span><span class=\"token punctuation\">)</span> <span class=\"token punctuation\">\x7b</span>\n  <span class=\"token keyword\">const</span> context <span class=\"token operator\">=</span> <span class=\"token function\">createTransformContext</span><span class=\"token punctuation\">(</span>root<span class=\"token punctuation\">,</span> options<span class=\"token punctuation\">)</span>\n  <span class=\"token function\">traverseNode</span><span class=\"token punctuation\">(</span>root<span class=\"token punctuation\">,</span> context<span class=\"token punctuation\">)</span>\n<span class=\"token punctuation\">\x7d</span>\n<span class=\"token keyword module\">export</span> <span class=\"token keyword\">function</span> <span class=\"token function\">traverseNode</span><span class=\"token punctuation\">(</span><span class=\"token parameter\">node<span class=\"token punctuation\">,</span> context</span><span class=\"token punctuation\">)</span> <span class=\"token punctuation\">\x7b</span>\n  context<span class=\"token punctuation\">.</span><span class=\"token property-access\">currentNode</span> <span class=\"token operator\">=</span> node\n  <span class=\"token keyword\">const</span> <span class=\"token punctuation\">\x7b</span> nodeTransforms <span class=\"token punctuation\">\x7d</span> <span class=\"token operator\">=</span> context\n  <span class=\"token keyword\">const</span> exitFns <span class=\"token operator\">=</span> <span class=\"token punctuation\">[</span><span class=\"token punctuation\">]</span>\n  <span class=\"token keyword control-flow\">for</span> <span class=\"token punctuation\">(</span><span class=\"token keyword\">let</span> i <span class=\"token operator\">=</span> <span class=\"token number\">0</span><span class=\"token punctuation\">;</span> i <span class=\"token operator\">&lt;</span> nodeTransforms<span class=\"token punctuation\">.</span><span class=\"token property-access\">length</span><span class=\"token punctuation\">;</span> i<span class=\"token operator\">++</span><span class=\"token punctuation\">)</span> <span class=\"token punctuation\">\x7b</span>\n    <span class=\"token comment\">// Transform 会返回一个退出函数，在处理完所有的子节点后再执行</span>\n    <span class=\"token keyword\">const</span> onExit <span class=\"token operator\">=</span> nodeTransforms<span class=\"token punctuation\">[</span>i<span class=\"token punctuation\">]</span><span class=\"token punctuation\">(</span>node<span class=\"token punctuation\">,</span> context<span class=\"token punctuation\">)</span>\n    <span class=\"token keyword control-flow\">if</span> <span class=\"token punctuation\">(</span>onExit<span class=\"token punctuation\">)</span> <span class=\"token punctuation\">\x7b</span>\n      <span class=\"token keyword control-flow\">if</span> <span class=\"token punctuation\">(</span><span class=\"token function\">isArray</span><span class=\"token punctuation\">(</span>onExit<span class=\"token punctuation\">)</span><span class=\"token punctuation\">)</span> <span class=\"token punctuation\">\x7b</span>\n        exitFns<span class=\"token punctuation\">.</span><span class=\"token method function property-access\">push</span><span class=\"token punctuation\">(</span><span class=\"token spread operator\">...</span>onExit<span class=\"token punctuation\">)</span>\n      <span class=\"token punctuation\">\x7d</span> <span class=\"token keyword control-flow\">else</span> <span class=\"token punctuation\">\x7b</span>\n        exitFns<span class=\"token punctuation\">.</span><span class=\"token method function property-access\">push</span><span class=\"token punctuation\">(</span>onExit<span class=\"token punctuation\">)</span>\n      <span class=\"token punctuation\">\x7d</span>\n    <span class=\"token punctuation\">\x7d</span>\n  <span class=\"token punctuation\">\x7d</span>\n  <span class=\"token function\">traverseChildren</span><span class=\"token punctuation\">(</span>node<span class=\"token punctuation\">,</span> context<span class=\"token punctuation\">)</span>\n  context<span class=\"token punctuation\">.</span><span class=\"token property-access\">currentNode</span> <span class=\"token operator\">=</span> node\n  <span class=\"token comment\">// 执行所以 Transform 的退出函数</span>\n  <span class=\"token keyword\">let</span> i <span class=\"token operator\">=</span> exitFns<span class=\"token punctuation\">.</span><span class=\"token property-access\">length</span>\n  <span class=\"token keyword control-flow\">while</span> <span class=\"token punctuation\">(</span>i<span class=\"token operator\">--</span><span class=\"token punctuation\">)</span> <span class=\"token punctuation\">\x7b</span>\n    exitFns<span class=\"token punctuation\">[</span>i<span class=\"token punctuation\">]</span><span class=\"token punctuation\">(</span><span class=\"token punctuation\">)</span>\n  <span class=\"token punctuation\">\x7d</span>\n<span class=\"token punctuation\">\x7d</span>\n</code></pre>\n<p>我们重点看一下 <code>transformElement</code> 的逻辑：</p>\n<pre class=\"language-js\"><code class=\"language-js\"><span class=\"token comment\">// packages/compiler-core/src/transforms/transformElement.ts</span>\n<span class=\"token keyword module\">export</span> <span class=\"token keyword\">const</span> transformElement<span class=\"token operator\">:</span> <span class=\"token function-variable function\"><span class=\"token maybe-class-name\">NodeTransform</span></span> <span class=\"token operator\">=</span> <span class=\"token punctuation\">(</span><span class=\"token parameter\">node<span class=\"token punctuation\">,</span> context</span><span class=\"token punctuation\">)</span> <span class=\"token arrow operator\">=></span> <span class=\"token punctuation\">\x7b</span>\n  <span class=\"token comment\">// transformElement 没有执行任何逻辑，而是直接返回了一个退出函数</span>\n  <span class=\"token comment\">// 说明 transformElement 需要等所有的子节点处理完后才执行</span>\n  <span class=\"token keyword control-flow\">return</span> <span class=\"token keyword\">function</span> <span class=\"token function\">postTransformElement</span><span class=\"token punctuation\">(</span><span class=\"token punctuation\">)</span> <span class=\"token punctuation\">\x7b</span>\n    <span class=\"token keyword\">const</span> <span class=\"token punctuation\">\x7b</span> tag<span class=\"token punctuation\">,</span> props <span class=\"token punctuation\">\x7d</span> <span class=\"token operator\">=</span> node\n\n    <span class=\"token keyword\">let</span> vnodeProps\n    <span class=\"token keyword\">let</span> vnodePatchFlag\n    <span class=\"token keyword\">const</span> vnodeTag <span class=\"token operator\">=</span> node<span class=\"token punctuation\">.</span><span class=\"token property-access\">tagType</span> <span class=\"token operator\">===</span> <span class=\"token maybe-class-name\">ElementTypes</span><span class=\"token punctuation\">.</span><span class=\"token constant\">COMPONENT</span>\n      <span class=\"token operator\">?</span> <span class=\"token function\">resolveComponentType</span><span class=\"token punctuation\">(</span>node<span class=\"token punctuation\">,</span> context<span class=\"token punctuation\">)</span>\n      <span class=\"token operator\">:</span> <span class=\"token template-string\"><span class=\"token template-punctuation string\">\x60</span><span class=\"token string\">\"</span><span class=\"token interpolation\"><span class=\"token interpolation-punctuation punctuation\">$\x7b</span>tag<span class=\"token interpolation-punctuation punctuation\">\x7d</span></span><span class=\"token string\">\"</span><span class=\"token template-punctuation string\">\x60</span></span>\n    \n    <span class=\"token keyword\">let</span> patchFlag <span class=\"token operator\">=</span> <span class=\"token number\">0</span>\n    <span class=\"token comment\">// 检测节点属性</span>\n    <span class=\"token keyword control-flow\">if</span> <span class=\"token punctuation\">(</span>props<span class=\"token punctuation\">.</span><span class=\"token property-access\">length</span> <span class=\"token operator\">></span> <span class=\"token number\">0</span><span class=\"token punctuation\">)</span> <span class=\"token punctuation\">\x7b</span>\n      <span class=\"token comment\">// 检测节点属性的动态部分</span>\n      <span class=\"token keyword\">const</span> propsBuildResult <span class=\"token operator\">=</span> <span class=\"token function\">buildProps</span><span class=\"token punctuation\">(</span>node<span class=\"token punctuation\">,</span> context<span class=\"token punctuation\">)</span>\n      vnodeProps <span class=\"token operator\">=</span> propsBuildResult<span class=\"token punctuation\">.</span><span class=\"token property-access\">props</span>\n      patchFlag <span class=\"token operator\">=</span> propsBuildResult<span class=\"token punctuation\">.</span><span class=\"token property-access\">patchFlag</span>\n    <span class=\"token punctuation\">\x7d</span>\n\n    <span class=\"token comment\">// 检测子节点</span>\n    <span class=\"token keyword control-flow\">if</span> <span class=\"token punctuation\">(</span>node<span class=\"token punctuation\">.</span><span class=\"token property-access\">children</span><span class=\"token punctuation\">.</span><span class=\"token property-access\">length</span> <span class=\"token operator\">></span> <span class=\"token number\">0</span><span class=\"token punctuation\">)</span> <span class=\"token punctuation\">\x7b</span>\n      <span class=\"token keyword control-flow\">if</span> <span class=\"token punctuation\">(</span>node<span class=\"token punctuation\">.</span><span class=\"token property-access\">children</span><span class=\"token punctuation\">.</span><span class=\"token property-access\">length</span> <span class=\"token operator\">===</span> <span class=\"token number\">1</span><span class=\"token punctuation\">)</span> <span class=\"token punctuation\">\x7b</span>\n        <span class=\"token keyword\">const</span> child <span class=\"token operator\">=</span> node<span class=\"token punctuation\">.</span><span class=\"token property-access\">children</span><span class=\"token punctuation\">[</span><span class=\"token number\">0</span><span class=\"token punctuation\">]</span>\n        <span class=\"token comment\">// 检测子节点是否为动态文本</span>\n        <span class=\"token keyword control-flow\">if</span> <span class=\"token punctuation\">(</span><span class=\"token operator\">!</span><span class=\"token function\">getStaticType</span><span class=\"token punctuation\">(</span>child<span class=\"token punctuation\">)</span><span class=\"token punctuation\">)</span> <span class=\"token punctuation\">\x7b</span>\n          patchFlag <span class=\"token operator\">|=</span> <span class=\"token maybe-class-name\">PatchFlags</span><span class=\"token punctuation\">.</span><span class=\"token constant\">TEXT</span>\n        <span class=\"token punctuation\">\x7d</span>\n      <span class=\"token punctuation\">\x7d</span>\n    <span class=\"token punctuation\">\x7d</span>\n\n    <span class=\"token comment\">// 格式化 patchFlag</span>\n    <span class=\"token keyword control-flow\">if</span> <span class=\"token punctuation\">(</span>patchFlag <span class=\"token operator\">!==</span> <span class=\"token number\">0</span><span class=\"token punctuation\">)</span> <span class=\"token punctuation\">\x7b</span>\n        vnodePatchFlag <span class=\"token operator\">=</span> <span class=\"token known-class-name class-name\">String</span><span class=\"token punctuation\">(</span>patchFlag<span class=\"token punctuation\">)</span>\n    <span class=\"token punctuation\">\x7d</span>\n\n    node<span class=\"token punctuation\">.</span><span class=\"token property-access\">codegenNode</span> <span class=\"token operator\">=</span> <span class=\"token function\">createVNodeCall</span><span class=\"token punctuation\">(</span>\n      context<span class=\"token punctuation\">,</span>\n      vnodeTag<span class=\"token punctuation\">,</span>\n      vnodeProps<span class=\"token punctuation\">,</span>\n      vnodeChildren<span class=\"token punctuation\">,</span>\n      vnodePatchFlag\n    <span class=\"token punctuation\">)</span>\n  <span class=\"token punctuation\">\x7d</span>\n<span class=\"token punctuation\">\x7d</span>\n</code></pre>\n<p><code>buildProps</code> 会对节点的属性进行一次遍历，由于内部源码涉及很多其他的细节，这里的代码是经过简化之后的，只保留了 <code>patchFlag</code> 相关的逻辑。</p>\n<pre class=\"language-js\"><code class=\"language-js\"><span class=\"token keyword module\">export</span> <span class=\"token keyword\">function</span> <span class=\"token function\">buildProps</span><span class=\"token punctuation\">(</span>\n  node<span class=\"token operator\">:</span> <span class=\"token maybe-class-name\">ElementNode</span><span class=\"token punctuation\">,</span>\n  context<span class=\"token operator\">:</span> <span class=\"token maybe-class-name\">TransformContext</span><span class=\"token punctuation\">,</span>\n  props<span class=\"token operator\">:</span> <span class=\"token maybe-class-name\">ElementNode</span><span class=\"token punctuation\">[</span><span class=\"token string\">\x27props\x27</span><span class=\"token punctuation\">]</span> <span class=\"token operator\">=</span> node<span class=\"token punctuation\">.</span><span class=\"token property-access\">props</span>\n<span class=\"token punctuation\">)</span> <span class=\"token punctuation\">\x7b</span>\n  <span class=\"token keyword\">let</span> patchFlag <span class=\"token operator\">=</span> <span class=\"token number\">0</span>\n  <span class=\"token keyword control-flow\">for</span> <span class=\"token punctuation\">(</span><span class=\"token keyword\">let</span> i <span class=\"token operator\">=</span> <span class=\"token number\">0</span><span class=\"token punctuation\">;</span> i <span class=\"token operator\">&lt;</span> props<span class=\"token punctuation\">.</span><span class=\"token property-access\">length</span><span class=\"token punctuation\">;</span> i<span class=\"token operator\">++</span><span class=\"token punctuation\">)</span> <span class=\"token punctuation\">\x7b</span>\n    <span class=\"token keyword\">const</span> prop <span class=\"token operator\">=</span> props<span class=\"token punctuation\">[</span>i<span class=\"token punctuation\">]</span>\n    <span class=\"token keyword\">const</span> <span class=\"token punctuation\">[</span>key<span class=\"token punctuation\">,</span> name<span class=\"token punctuation\">]</span> <span class=\"token operator\">=</span> prop<span class=\"token punctuation\">.</span><span class=\"token property-access\">name</span><span class=\"token punctuation\">.</span><span class=\"token method function property-access\">split</span><span class=\"token punctuation\">(</span><span class=\"token string\">\x27:\x27</span><span class=\"token punctuation\">)</span>\n    <span class=\"token keyword control-flow\">if</span> <span class=\"token punctuation\">(</span>key <span class=\"token operator\">===</span> <span class=\"token string\">\x27v-bind\x27</span> <span class=\"token operator\">||</span> key <span class=\"token operator\">===</span> <span class=\"token string\">\x27\x27</span><span class=\"token punctuation\">)</span> <span class=\"token punctuation\">\x7b</span>\n      <span class=\"token keyword control-flow\">if</span> <span class=\"token punctuation\">(</span>name <span class=\"token operator\">===</span> <span class=\"token string\">\x27class\x27</span><span class=\"token punctuation\">)</span> <span class=\"token punctuation\">\x7b</span>\n        <span class=\"token comment\">// 如果包含 :class 属性，patchFlag | CLASS</span>\n        patchFlag <span class=\"token operator\">|=</span> <span class=\"token maybe-class-name\">PatchFlags</span><span class=\"token punctuation\">.</span><span class=\"token constant\">CLASS</span>\n      <span class=\"token punctuation\">\x7d</span> <span class=\"token keyword control-flow\">else</span> <span class=\"token keyword control-flow\">if</span> <span class=\"token punctuation\">(</span>name <span class=\"token operator\">===</span> <span class=\"token string\">\x27style\x27</span><span class=\"token punctuation\">)</span> <span class=\"token punctuation\">\x7b</span>\n        <span class=\"token comment\">// 如果包含 :style 属性，patchFlag | STYLE</span>\n        patchFlag <span class=\"token operator\">|=</span> <span class=\"token maybe-class-name\">PatchFlags</span><span class=\"token punctuation\">.</span><span class=\"token constant\">STYLE</span>\n      <span class=\"token punctuation\">\x7d</span>\n    <span class=\"token punctuation\">\x7d</span>\n  <span class=\"token punctuation\">\x7d</span>\n\n  <span class=\"token keyword control-flow\">return</span> <span class=\"token punctuation\">\x7b</span>\n    patchFlag\n  <span class=\"token punctuation\">\x7d</span>\n<span class=\"token punctuation\">\x7d</span>\n</code></pre>\n<p>上面的代码只展示了三种 <code>patchFlag</code> 的类型：</p>\n<ul>\n<li><strong>节点只有一个文本子节点，且该文本包含动态的数据</strong>（<code>TEXT = 1</code>）</li>\n</ul>\n<pre class=\"language-html\"><code class=\"language-html\"><span class=\"token tag\"><span class=\"token tag\"><span class=\"token punctuation\">&lt;</span>p</span><span class=\"token punctuation\">></span></span>name: \x7b\x7bname\x7d\x7d<span class=\"token tag\"><span class=\"token tag\"><span class=\"token punctuation\">&lt;/</span>p</span><span class=\"token punctuation\">></span></span>\n</code></pre>\n<ul>\n<li><strong>节点包含可变的 class 属性</strong>（<code>CLASS = 1 &lt;&lt; 1</code>）</li>\n</ul>\n<pre class=\"language-html\"><code class=\"language-html\"><span class=\"token tag\"><span class=\"token tag\"><span class=\"token punctuation\">&lt;</span>div</span> <span class=\"token attr-name\">:class</span><span class=\"token attr-value\"><span class=\"token punctuation attr-equals\">=</span><span class=\"token punctuation\">\"</span>\x7b active: isActive \x7d<span class=\"token punctuation\">\"</span></span><span class=\"token punctuation\">></span></span><span class=\"token tag\"><span class=\"token tag\"><span class=\"token punctuation\">&lt;/</span>div</span><span class=\"token punctuation\">></span></span>\n</code></pre>\n<ul>\n<li><strong>节点包含可变的 style 属性</strong>（<code>STYLE = 1 &lt;&lt; 2</code>）</li>\n</ul>\n<pre class=\"language-html\"><code class=\"language-html\"><span class=\"token tag\"><span class=\"token tag\"><span class=\"token punctuation\">&lt;</span>div</span> <span class=\"token attr-name\">:</span><span class=\"token style-attr language-css\"><span class=\"token attr-name\"><span class=\"token attr-name\">style</span></span><span class=\"token punctuation\">=\"</span><span class=\"token attr-value\"><span class=\"token punctuation\">\x7b</span> <span class=\"token property\">color</span><span class=\"token punctuation\">:</span> color <span class=\"token punctuation\">\x7d</span></span><span class=\"token punctuation\">\"</span></span><span class=\"token punctuation\">></span></span><span class=\"token tag\"><span class=\"token tag\"><span class=\"token punctuation\">&lt;/</span>div</span><span class=\"token punctuation\">></span></span>\n</code></pre>\n<p>可以看到 PatchFlags 都是数字 <code>1</code> 经过 <strong>左移操作符</strong> 计算得到的。</p>\n<pre class=\"language-js\"><code class=\"language-js\"><span class=\"token keyword module\">export</span> <span class=\"token keyword\">const</span> <span class=\"token keyword\">enum</span> <span class=\"token maybe-class-name\">PatchFlags</span> <span class=\"token punctuation\">\x7b</span>\n  <span class=\"token constant\">TEXT</span> <span class=\"token operator\">=</span> <span class=\"token number\">1</span><span class=\"token punctuation\">,</span>             <span class=\"token comment\">// 1, 二进制 0000 0001</span>\n  <span class=\"token constant\">CLASS</span> <span class=\"token operator\">=</span> <span class=\"token number\">1</span> <span class=\"token operator\">&lt;&lt;</span> <span class=\"token number\">1</span><span class=\"token punctuation\">,</span>       <span class=\"token comment\">// 2, 二进制 0000 0010</span>\n  <span class=\"token constant\">STYLE</span> <span class=\"token operator\">=</span> <span class=\"token number\">1</span> <span class=\"token operator\">&lt;&lt;</span> <span class=\"token number\">2</span><span class=\"token punctuation\">,</span>       <span class=\"token comment\">// 4, 二进制 0000 0100</span>\n  <span class=\"token constant\">PROPS</span> <span class=\"token operator\">=</span> <span class=\"token number\">1</span> <span class=\"token operator\">&lt;&lt;</span> <span class=\"token number\">3</span><span class=\"token punctuation\">,</span>       <span class=\"token comment\">// 8, 二进制 0000 1000</span>\n  <span class=\"token spread operator\">...</span>\n<span class=\"token punctuation\">\x7d</span>\n</code></pre>\n<p>从上面的代码能看出来，<code>patchFlag</code> 的初始值为 0，每次对 <code>patchFlag</code> 都是执行 <code>|</code> （或）操作。如果当前节点是一个只有动态文本子节点且同时具有动态 style 属性，最后得到的 <code>patchFlag</code> 为 5（<code>二进制：0000 0101</code>）。</p>\n<pre class=\"language-js\"><code class=\"language-js\"><span class=\"token operator\">&lt;</span>p <span class=\"token operator\">:</span>style<span class=\"token operator\">=</span><span class=\"token string\">\"\x7b color: color \x7d\"</span><span class=\"token operator\">></span>name<span class=\"token operator\">:</span> <span class=\"token punctuation\">\x7b</span><span class=\"token punctuation\">\x7b</span>name<span class=\"token punctuation\">\x7d</span><span class=\"token punctuation\">\x7d</span><span class=\"token operator\">&lt;</span><span class=\"token operator\">/</span>p<span class=\"token operator\">></span>\n</code></pre>\n<pre class=\"language-js\"><code class=\"language-js\">patchFlag <span class=\"token operator\">=</span> <span class=\"token number\">0</span>\npatchFlag <span class=\"token operator\">|=</span> <span class=\"token maybe-class-name\">PatchFlags</span><span class=\"token punctuation\">.</span><span class=\"token constant\">STYLE</span>\npatchFlag <span class=\"token operator\">|=</span> <span class=\"token maybe-class-name\">PatchFlags</span><span class=\"token punctuation\">.</span><span class=\"token constant\">TEXT</span>\n<span class=\"token comment\">// 或运算：两个对应的二进制位中只要一个是1，结果对应位就是1。</span>\n<span class=\"token comment\">// 0000 0001</span>\n<span class=\"token comment\">// 0000 0100</span>\n<span class=\"token comment\">// ------------</span>\n<span class=\"token comment\">// 0000 0101  =>  十进制 5</span>\n</code></pre>\n<p><img src=\"https://file.shenfq.com/pic/20201111135121.png\" alt=\"patchFlag\"></p>\n<p>我们将上面的代码放到 Vue3 中运行：</p>\n<pre class=\"language-js\"><code class=\"language-js\"><span class=\"token keyword\">const</span> app <span class=\"token operator\">=</span> <span class=\"token maybe-class-name\">Vue</span><span class=\"token punctuation\">.</span><span class=\"token method function property-access\">createApp</span><span class=\"token punctuation\">(</span><span class=\"token punctuation\">\x7b</span>\n  <span class=\"token function\">data</span><span class=\"token punctuation\">(</span><span class=\"token punctuation\">)</span> <span class=\"token punctuation\">\x7b</span>\n    <span class=\"token keyword control-flow\">return</span> <span class=\"token punctuation\">\x7b</span>\n      color<span class=\"token operator\">:</span> <span class=\"token string\">\x27red\x27</span><span class=\"token punctuation\">,</span>\n      name<span class=\"token operator\">:</span> <span class=\"token string\">\x27shenfq\x27</span>\n    <span class=\"token punctuation\">\x7d</span>\n  <span class=\"token punctuation\">\x7d</span><span class=\"token punctuation\">,</span>\n  template<span class=\"token operator\">:</span> <span class=\"token template-string\"><span class=\"token template-punctuation string\">\x60</span><span class=\"token string\">&lt;div>\n    &lt;p :style=\"\x7b color: color \x7d\">name: \x7b\x7bname\x7d\x7d&lt;/p>\n  &lt;/div></span><span class=\"token template-punctuation string\">\x60</span></span>\n<span class=\"token punctuation\">\x7d</span><span class=\"token punctuation\">)</span>\n\napp<span class=\"token punctuation\">.</span><span class=\"token method function property-access\">mount</span><span class=\"token punctuation\">(</span><span class=\"token string\">\x27#app\x27</span><span class=\"token punctuation\">)</span>\n</code></pre>\n<p>最后生成的 <code>render</code> 方法如下，和我们之前的描述基本一致。</p>\n<p><img src=\"https://file.shenfq.com/pic/20201111135707.png\" alt=\"function render() \x7b\x7d\"></p>\n<h2 id=\"render-%E4%BC%98%E5%8C%96\">render 优化<a class=\"anchor\" href=\"#render-%E4%BC%98%E5%8C%96\">§</a></h2>\n<p>Vue3 在虚拟 DOM Diff 时，会取出 <code>patchFlag</code> 和需要进行的 diff 类型进行 <code>&amp;</code>（与）操作，如果结果为 true 才进入对应的 diff。</p>\n<p><img src=\"https://file.shenfq.com/pic/20201111140613.png\" alt=\"patchFlag 判断\"></p>\n<p>还是拿之前的模板举例：</p>\n<pre class=\"language-html\"><code class=\"language-html\"><span class=\"token tag\"><span class=\"token tag\"><span class=\"token punctuation\">&lt;</span>p</span> <span class=\"token attr-name\">:</span><span class=\"token style-attr language-css\"><span class=\"token attr-name\"><span class=\"token attr-name\">style</span></span><span class=\"token punctuation\">=\"</span><span class=\"token attr-value\"><span class=\"token punctuation\">\x7b</span> <span class=\"token property\">color</span><span class=\"token punctuation\">:</span> color <span class=\"token punctuation\">\x7d</span></span><span class=\"token punctuation\">\"</span></span><span class=\"token punctuation\">></span></span>name: \x7b\x7bname\x7d\x7d<span class=\"token tag\"><span class=\"token tag\"><span class=\"token punctuation\">&lt;/</span>p</span><span class=\"token punctuation\">></span></span>\n</code></pre>\n<p>如果此时的 name 发生了修改，p 节点进入了 diff 阶段，此时会将判断 <code>patchFlag &amp; PatchFlags.TEXT</code> ，这个时候结果为真，表明 p 节点存在文本修改的情况。</p>\n<p><img src=\"https://file.shenfq.com/pic/20201111141501.png\" alt=\"patchFlag\"></p>\n<pre class=\"language-js\"><code class=\"language-js\">patchFlag <span class=\"token operator\">=</span> <span class=\"token number\">5</span>\npatchFlag <span class=\"token operator\">&amp;</span> <span class=\"token maybe-class-name\">PatchFlags</span><span class=\"token punctuation\">.</span><span class=\"token constant\">TEXT</span>\n<span class=\"token comment\">// 或运算：只有对应的两个二进位都为1时，结果位才为1。</span>\n<span class=\"token comment\">// 0000 0101</span>\n<span class=\"token comment\">// 0000 0001</span>\n<span class=\"token comment\">// ------------</span>\n<span class=\"token comment\">// 0000 0001  =>  十进制 1</span>\n</code></pre>\n<pre class=\"language-js\"><code class=\"language-js\"><span class=\"token keyword control-flow\">if</span> <span class=\"token punctuation\">(</span>patchFlag <span class=\"token operator\">&amp;</span> <span class=\"token maybe-class-name\">PatchFlags</span><span class=\"token punctuation\">.</span><span class=\"token constant\">TEXT</span><span class=\"token punctuation\">)</span> <span class=\"token punctuation\">\x7b</span>\n  <span class=\"token keyword control-flow\">if</span> <span class=\"token punctuation\">(</span>oldNode<span class=\"token punctuation\">.</span><span class=\"token property-access\">children</span> <span class=\"token operator\">!==</span> newNode<span class=\"token punctuation\">.</span><span class=\"token property-access\">children</span><span class=\"token punctuation\">)</span> <span class=\"token punctuation\">\x7b</span>\n    <span class=\"token comment\">// 修改文本</span>\n    <span class=\"token function\">hostSetElementText</span><span class=\"token punctuation\">(</span>el<span class=\"token punctuation\">,</span> newNode<span class=\"token punctuation\">.</span><span class=\"token property-access\">children</span><span class=\"token punctuation\">)</span>\n  <span class=\"token punctuation\">\x7d</span>\n<span class=\"token punctuation\">\x7d</span>\n</code></pre>\n<p>但是进行  <code>patchFlag &amp; PatchFlags.CLASS</code> 判断时，由于节点并没有动态 Class，返回值为 0，所以就不会对该节点的 class 属性进行 diff，以此来优化性能。</p>\n<p><img src=\"https://file.shenfq.com/pic/20201111141957.png\" alt=\"patchFlag\"></p>\n<pre class=\"language-js\"><code class=\"language-js\">patchFlag <span class=\"token operator\">=</span> <span class=\"token number\">5</span>\npatchFlag <span class=\"token operator\">&amp;</span> <span class=\"token maybe-class-name\">PatchFlags</span><span class=\"token punctuation\">.</span><span class=\"token constant\">CLASS</span>\n<span class=\"token comment\">// 或运算：只有对应的两个二进位都为1时，结果位才为1。</span>\n<span class=\"token comment\">// 0000 0101</span>\n<span class=\"token comment\">// 0000 0010</span>\n<span class=\"token comment\">// ------------</span>\n<span class=\"token comment\">// 0000 0000  =>  十进制 0</span>\n</code></pre>\n<h2 id=\"%E6%80%BB%E7%BB%93\">总结<a class=\"anchor\" href=\"#%E6%80%BB%E7%BB%93\">§</a></h2>\n<p>其实 Vue3 相关的性能优化有很多，这里只单独将 patchFlag 的十分之一的内容拿出来讲了，Vue3 还没正式发布的时候就有看到说 Diff 过程会通过 patchFlag 来进行性能优化，所以打算看看他的优化逻辑，总的来说还是有所收获。</p>"⟩

/-- Field `head` (source lines 11-12): the children of the fragment, in order. -/
def head : List Element := [
  ⟨"link", [("crossOrigin", "anonymous"), ("href", "https://cdn.jsdelivr.net/npm/katex@0.12.0/dist/katex.min.css"), ("integrity", "sha384-AfEj0r4/OFrOo5t7NnNe46zW/tFgW6x/bCJG8FqQCEo3+Aro6EYUG4+cU+KJWu/X"), ("rel", "stylesheet")], []⟩]

/-- Field `script` (source lines 13-16): the children of the fragment, in order. -/
def script : List Element := [
  ⟨"script", [("src", "https://cdn.pagic.org/react@16.13.1/umd/react.production.min.js")], []⟩,
  ⟨"script", [("src", "https://cdn.pagic.org/react-dom@16.13.1/umd/react-dom.production.min.js")], []⟩,
  ⟨"script", [("src", "/index.js"), ("type", "module")], []⟩]

/-- Field `contentTitle` (source line 17); the text child is the string the literal with its `\u` escapes denotes. -/
def contentTitle : Element :=
  ⟨"h1", [("key", "0")], ["Vue3 模板编译优化"]⟩

/-- Field `contentBody` (source lines 18-20): an `article` element whose inner HTML is the rendered body. -/
def contentBody : RawElement :=
  ⟨"article", "<p>Vue3 正式发布已经有一段时间了，前段时间写了一篇文章（<a href=\"https://blog.shenfq.com/2020/vue-%E6%A8%A1%E6%9D%BF%E7%BC%96%E8%AF%91%E5%8E%9F%E7%90%86/\">《Vue 模板编译原理》</a>）分析 Vue 的模板编译原理。今天的文章打算学习下 Vue3 下的模板编译与 Vue2 下的差异，以及 VDOM 下 Diff 算法的优化。</p>\n<h2 id=\"%E7%BC%96%E8%AF%91%E5%85%A5%E5%8F%A3\">编译入口<a class=\"anchor\" href=\"#%E7%BC%96%E8%AF%91%E5%85%A5%E5%8F%A3\">§</a></h2>\n<p>了解过 Vue3 的同学肯定知道 Vue3 引入了新的组合 Api，在组件 <code>mount</code> 阶段会调用 <code>setup</code> 方法，之后会判断 <code>render</code> 方法是否存在，如果不存在会调用 <code>compile</code> 方法将 <code>template</code> 转化为 <code>render</code>。</p>\n<pre class=\"language-js\"><code class=\"language-js\"><span class=\"token comment\">// packages/runtime-core/src/renderer.ts</span>\n<span class=\"token keyword\">const</span> <span class=\"token function-variable function\">mountComponent</span> <span class=\"token operator\">=</span> <span class=\"token punctuation\">(</span><span class=\"token parameter\">initialVNode<span class=\"token punctuation\">,</span> container</span><span class=\"token punctuation\">)</span> <span class=\"token arrow operator\">=></span> <span class=\"token punctuation\">\x7b</span>\n  <span class=\"token keyword\">const</span> instance <span class=\"token operator\">=</span> <span class=\"token punctuation\">(</span>\n    initialVNode<span class=\"token punctuation\">.</span><span class=\"token property-access\">component</span> <span class=\"token operator\">=</span> <span class=\"token function\">createComponentInstance</span><span class=\"token punctuation\">(</span>\n      <span class=\"token comment\">// ...params</span>\n    <span class=\"token punctuation\">)</span>\n  <span class=\"token punctuation\">)</span>\n  <span class=\"token comment\">// 调用 setup</span>\n  <span class=\"token function\">setupComponent</span><span class=\"token punctuation\">(</span>instance<span class=\"token punctuation\">)</span>\n<span class=\"token punctuation\">\x7d</span>\n\n<span class=\"token comment\">// packages/runtime-core/src/component.ts</span>\n<span class=\"token keyword\">let</span> compile\n<span class=\"token keyword module\">export</span> <span class=\"token keyword\">function</span> <span class=\"token function\">registerRuntimeCompiler</span><span class=\"token punctuation\">(</span><span class=\"token parameter\">_compile</span><span class=\"token punctuation\">)</span> <span class=\"token punctuation\">\x7b</span>\n  compile <span class=\"token operator\">=</span> _compile\n<span class=\"token punctuation\">\x7d</span>\n<span class=\"token keyword module\">export</span> <span class=\"token keyword\">function</span> <span class=\"token function\">setupComponent</span><span class=\"token punctuation\">(</span><span class=\"token parameter\">instance</span><span class=\"token punctuation\">)</span> <span class=\"token punctuation\">\x7b</span>\n  <span class=\"token keyword\">const</span> <span class=\"token maybe-class-name\">Component</span> <span class=\"token operator\">=</span> instance<span class=\"token punctuation\">.</span><span class=\"token property-access\">type</span>\n  <span class=\"token keyword\">const</span> <span class=\"token punctuation\">\x7b</span> setup <span class=\"token punctuation\">\x7d</span> <span class=\"token operator\">=</span> <span class=\"token maybe-class-name\">Component</span>\n  <span class=\"token keyword control-flow\">if</span> <span class=\"token punctuation\">(</span>setup<span class=\"token punctuation\">)</span> <span class=\"token punctuation\">\x7b</span>\n    <span class=\"token comment\">// ...调用 setup</span>\n  <span class=\"token punctuation\">\x7d</span>\n  <span class=\"token keyword control-flow\">if</span> <span class=\"token punctuation\">(</span>compile <span class=\"token operator\">&amp;&amp;</span> <span class=\"token maybe-class-name\">Component</span><span class=\"token punctuation\">.</span><span class=\"token property-access\">template</span> <span class=\"token operator\">&amp;&amp;</span> <span class=\"token operator\">!</span><span class=\"token maybe-class-name\">Component</span><span class=\"token punctuation\">.</span><span class=\"token property-access\">render</span><span class=\"token punctuation\">)</span> <span class=\"token punctuation\">\x7b</span>\n    <span class=\"token comment\">// 如果没有 render 方法</span>\n    <span class=\"token comment\">// 调用 compile 将 template 转为 render 方法</span>\n    <span class=\"token maybe-class-name\">Component</span><span class=\"token punctuation\">.</span><span class=\"token property-access\">render</span> <span class=\"token operator\">=</span> <span class=\"token function\">compile</span><span class=\"token punctuation\">(</span><span class=\"token maybe-class-name\">Component</span><span class=\"token punctuation\">.</span><span class=\"token property-access\">template</span><span class=\"token punctuation\">,</span> <span class=\"token punctuation\">\x7b</span><span class=\"token spread operator\">...</span><span class=\"token punctuation\">\x7d</span><span class=\"token punctuation\">)</span>\n  <span class=\"token punctuation\">\x7d</span>\n<span class=\"token punctuation\">\x7d</span>\n</code></pre>\n<p>这部分都是 runtime-core 中的代码，之前的文章有讲过 Vue 分为完整版和 runtime 版本。如果使用 <code>vue-loader</code> 处理 <code>.vue</code> 文件，一般都会将 <code>.vue</code> 文件中的 <code>template</code> 直接处理成 <code>render</code> 方法。</p>\n<pre class=\"language-js\"><code class=\"language-js\"><span class=\"token comment\">//  需要编译器</span>\n<span class=\"token maybe-class-name\">Vue</span><span class=\"token punctuation\">.</span><span class=\"token method function property-access\">createApp</span><span class=\"token punctuation\">(</span><span class=\"token punctuation\">\x7b</span>\n  template<span class=\"token operator\">:</span> <span class=\"token string\">\x27&lt;div>\x7b\x7b hi \x7d\x7d&lt;/div>\x27</span>\n<span class=\"token punctuation\">\x7d</span><span class=\"token punctuation\">)</span>\n\n<span class=\"token comment\">// 不需要</span>\n<span class=\"token maybe-class-name\">Vue</span><span class=\"token punctuation\">.</span><span class=\"token method function property-access\">createApp</span><span class=\"token punctuation\">(</span><span class=\"token punctuation\">\x7b</span>\n  <span class=\"token function\">render</span><span class=\"token punctuation\">(</span><span class=\"token punctuation\">)</span> <span class=\"token punctuation\">\x7b</span>\n    <span class=\"token keyword control-flow\">return</span> <span class=\"token maybe-class-name\">Vue</span><span class=\"token punctuation\">.</span><span class=\"token method function property-access\">h</span><span class=\"token punctuation\">(</span><span class=\"token string\">\x27div\x27</span><span class=\"token punctuation\">,</span> <span class=\"token punctuation\">\x7b</span><span class=\"token punctuation\">\x7d</span><span class=\"token punctuation\">,</span> <span class=\"token keyword\">this</span><span class=\"token punctuation\">.</span><span class=\"token property-access\">hi</span><span class=\"token punctuation\">)</span>\n  <span class=\"token punctuation\">\x7d</span>\n<span class=\"token punctuation\">\x7d</span><span class=\"token punctuation\">)</span>\n</code></pre>\n<p>完整版与 runtime 版的差异就是，完整版会引入 <code>compile</code> 方法，如果是 vue-cli 生成的项目就会抹去这部分代码，将 compile 过程都放到打包的阶段，以此优化性能。runtime-dom 中提供了 <code>registerRuntimeCompiler</code> 方法用于注入 <code>compile</code> 方法。</p>\n<p><img src=\"https://file.shenfq.com/pic/20201109144930.png\" alt=\"\"></p>\n<h2 id=\"%E4%B8%BB%E6%B5%81%E7%A8%8B\">主流程<a class=\"anchor\" href=\"#%E4%B8%BB%E6%B5%81%E7%A8%8B\">§</a></h2>\n<p>在完整版的 <code>index.js</code> 中，调用了  <code>registerRuntimeCompiler</code> 将 <code>compile</code> 进行注入，接下来我们看看注入的 <code>compile</code> 方法主要做了什么。</p>\n<pre class=\"language-js\"><code class=\"language-js\"><span class=\"token comment\">// packages/vue/src/index.ts</span>\n<span class=\"token keyword module\">import</span> <span class=\"token imports\"><span class=\"token punctuation\">\x7b</span> compile <span class=\"token punctuation\">\x7d</span></span> <span class=\"token keyword module\">from</span> <span class=\"token string\">\x27@vue/compiler-dom\x27</span>\n\n<span class=\"token comment\">// 编译缓存</span>\n<span class=\"token keyword\">const</span> compileCache <span class=\"token operator\">=</span> <span class=\"token known-class-name class-name\">Object</span><span class=\"token punctuation\">.</span><span class=\"token method function property-access\">create</span><span class=\"token punctuation\">(</span><span class=\"token keyword null nil\">null</span><span class=\"token punctuation\">)</span>\n\n<span class=\"token comment\">// 注入 compile 方法</span>\n<span class=\"token keyword\">function</span> <span class=\"token function\">compileToFunction</span><span class=\"token punctuation\">(</span>\n  <span class=\"token comment\">// 模板</span>\n  template<span class=\"token operator\">:</span> string <span class=\"token operator\">|</span> <span class=\"token maybe-class-name\">HTMLElement</span><span class=\"token punctuation\">,</span>\n  <span class=\"token comment\">// 编译配置</span>\n  options<span class=\"token operator\">?</span><span class=\"token operator\">:</span> <span class=\"token maybe-class-name\">CompilerOptions</span>\n<span class=\"token punctuation\">)</span><span class=\"token operator\">:</span> <span class=\"token maybe-class-name\">RenderFunction</span> <span class=\"token punctuation\">\x7b</span>\n  <span class=\"token keyword control-flow\">if</span> <span class=\"token punctuation\">(</span><span class=\"token operator\">!</span><span class=\"token function\">isString</span><span class=\"token punctuation\">(</span>template<span class=\"token punctuation\">)</span><span class=\"token punctuation\">)</span> <span class=\"token punctuation\">\x7b</span>\n    <span class=\"token comment\">// 如果 template 不是字符串</span>\n    <span class=\"token comment\">// 则认为是一个 DOM 节点，获取 innerHTML</span>\n    <span class=\"token keyword control-flow\">if</span> <span class=\"token punctuation\">(</span>template<span class=\"token punctuation\">.</span><span class=\"token property-access\">nodeType</span><span class=\"token punctuation\">)</span> <span class=\"token punctuation\">\x7b</span>\n      template <span class=\"token operator\">=</span> template<span class=\"token punctuation\">.</span><span class=\"token property-access\">innerHTML</span>\n    <span class=\"token punctuation\">\x7d</span> <span class=\"token keyword control-flow\">else</span> <span class=\"token punctuation\">\x7b</span>\n      <span class=\"token keyword control-flow\">return</span> <span class=\"token constant\">NOOP</span>\n    <span class=\"token punctuation\">\x7d</span>\n  <span class=\"token punctuation\">\x7d</span>\n\n  <span class=\"token comment\">// 如果缓存中存在，直接从缓存中获取</span>\n  <span class=\"token keyword\">const</span> key <span class=\"token operator\">=</span> template\n  <span class=\"token keyword\">const</span> cached <span class=\"token operator\">=</span> compileCache<span class=\"token punctuation\">[</span>key<span class=\"token punctuation\">]</span>\n  <span class=\"token keyword control-flow\">if</span> <span class=\"token punctuation\">(</span>cached<span class=\"token punctuation\">)</span> <span class=\"token punctuation\">\x7b</span>\n    <span class=\"token keyword control-flow\">return</span> cached\n  <span class=\"token punctuation\">\x7d</span>\n\n  <span class=\"token comment\">// 如果是 ID 选择器，这获取 DOM 元素后，取 innerHTML</span>\n  <span class=\"token keyword control-flow\">if</span> <span class=\"token punctuation\">(</span>template<span class=\"token punctuation\">[</span><span class=\"token number\">0</span><span class=\"token punctuation\">]</span> <span class=\"token operator\">===</span> <span class=\"token string\">\x27#\x27</span><span class=\"token punctuation\">)</span> <span class=\"token punctuation\">\x7b</span>\n    <span class=\"token keyword\">const</span> el <span class=\"token operator\">=</span> <span class=\"token dom variable\">document</span><span class=\"token punctuation\">.</span><span class=\"token method function property-access\">querySelector</span><span class=\"token punctuation\">(</span>template<span class=\"token punctuation\">)</span>\n    template <span class=\"token operator\">=</span> el <span class=\"token operator\">?</span> el<span class=\"token punctuation\">.</span><span class=\"token property-access\">innerHTML</span> <span class=\"token operator\">:</span> <span class=\"token string\">\x27\x27</span>\n  <span class=\"token punctuation\">\x7d</span>\n\n  <span class=\"token comment\">// 调用 compile 获取 render code</span>\n  <span class=\"token keyword\">const</span> <span class=\"token punctuation\">\x7b</span> code <span class=\"token punctuation\">\x7d</span> <span class=\"token operator\">=</span> <span class=\"token function\">compile</span><span class=\"token punctuation\">(</span>\n    template<span class=\"token punctuation\">,</span>\n    options\n  <span class=\"token punctuation\">)</span>\n\n  <span class=\"token comment\">// 将 render code 转化为 function</span>\n  <span class=\"token keyword\">const</span> render <span class=\"token operator\">=</span> <span class=\"token keyword\">new</span> <span class=\"token class-name\">Function</span><span class=\"token punctuation\">(</span>code<span class=\"token punctuation\">)</span><span class=\"token punctuation\">(</span><span class=\"token punctuation\">)</span><span class=\"token punctuation\">;</span>\n\n  <span class=\"token comment\">// 返回 render 方法的同时，将其放入缓存</span>\n  <span class=\"token keyword control-flow\">return</span> <span class=\"token punctuation\">(</span>compileCache<span class=\"token punctuation\">[</span>key<span class=\"token punctuation\">]</span> <span class=\"token operator\">=</span> render<span class=\"token punctuation\">)</span>\n<span class=\"token punctuation\">\x7d</span>\n\n<span class=\"token comment\">// 注入 compile</span>\n<span class=\"token function\">registerRuntimeCompiler</span><span class=\"token punctuation\">(</span>compileToFunction<span class=\"token punctuation\">)</span>\n</code></pre>\n<p>在讲 Vue2 模板编译的时候已经讲过，<code>compile</code> 方法主要分为三步，Vue3 的逻辑类似：</p>\n<ol>\n<li>模板编译，将模板代码转化为 AST；</li>\n<li>优化 AST，方便后续虚拟 DOM 更新；</li>\n<li>生成代码，将 AST 转化为可执行的代码；</li>\n</ol>\n<pre class=\"language-js\"><code class=\"language-js\"><span class=\"token comment\">// packages/compiler-dom/src/index.ts</span>\n<span class=\"token keyword module\">import</span> <span class=\"token imports\"><span class=\"token punctuation\">\x7b</span> baseCompile<span class=\"token punctuation\">,</span> baseParse <span class=\"token punctuation\">\x7d</span></span> <span class=\"token keyword module\">from</span> <span class=\"token string\">\x27@vue/compiler-core\x27</span>\n<span class=\"token keyword module\">export</span> <span class=\"token keyword\">function</span> <span class=\"token function\">compile</span><span class=\"token punctuation\">(</span><span class=\"token parameter\">template<span class=\"token punctuation\">,</span> options</span><span class=\"token punctuation\">)</span> <span class=\"token punctuation\">\x7b</span>\n  <span class=\"token keyword control-flow\">return</span> <span class=\"token function\">baseCompile</span><span class=\"token punctuation\">(</span>template<span class=\"token punctuation\">,</span> options<span class=\"token punctuation\">)</span>\n<span class=\"token punctuation\">\x7d</span>\n\n<span class=\"token comment\">// packages/compiler-core/src/compile.ts</span>\n<span class=\"token keyword module\">import</span> <span class=\"token imports\"><span class=\"token punctuation\">\x7b</span> baseParse <span class=\"token punctuation\">\x7d</span></span> <span class=\"token keyword module\">from</span> <span class=\"token string\">\x27./parse\x27</span>\n<span class=\"token keyword module\">import</span> <span class=\"token imports\"><span class=\"token punctuation\">\x7b</span> transform <span class=\"token punctuation\">\x7d</span></span> <span class=\"token keyword module\">from</span> <span class=\"token string\">\x27./transform\x27</span>\n\n<span class=\"token keyword module\">import</span> <span class=\"token imports\"><span class=\"token punctuation\">\x7b</span> transformIf <span class=\"token punctuation\">\x7d</span></span> <span class=\"token keyword module\">from</span> <span class=\"token string\">\x27./transforms/vIf\x27</span>\n<span class=\"token keyword module\">import</span> <span class=\"token imports\"><span class=\"token punctuation\">\x7b</span> transformFor <span class=\"token punctuation\">\x7d</span></span> <span class=\"token keyword module\">from</span> <span class=\"token string\">\x27./transforms/vFor\x27</span>\n<span class=\"token keyword module\">import</span> <span class=\"token imports\"><span class=\"token punctuation\">\x7b</span> transformText <span class=\"token punctuation\">\x7d</span></span> <span class=\"token keyword module\">from</span> <span class=\"token string\">\x27./transforms/transformText\x27</span>\n<span class=\"token keyword module\">import</span> <span class=\"token imports\"><span class=\"token punctuation\">\x7b</span> transformElement <span class=\"token punctuation\">\x7d</span></span> <span class=\"token keyword module\">from</span> <span class=\"token string\">\x27./transforms/transformElement\x27</span>\n\n<span class=\"token keyword module\">import</span> <span class=\"token imports\"><span class=\"token punctuation\">\x7b</span> transformOn <span class=\"token punctuation\">\x7d</span></span> <span class=\"token keyword module\">from</span> <span class=\"token string\">\x27./transforms/vOn\x27</span>\n<span class=\"token keyword module\">import</span> <span class=\"token imports\"><span class=\"token punctuation\">\x7b</span> transformBind <span class=\"token punctuation\">\x7d</span></span> <span class=\"token keyword module\">from</span> <span class=\"token string\">\x27./transforms/vBind\x27</span>\n<span class=\"token keyword module\">import</span> <span class=\"token imports\"><span class=\"token punctuation\">\x7b</span> transformModel <span class=\"token punctuation\">\x7d</span></span> <span class=\"token keyword module\">from</span> <span class=\"token string\">\x27./transforms/vModel\x27</span>\n\n<span class=\"token keyword module\">export</span> <span class=\"token keyword\">function</span> <span class=\"token function\">baseCompile</span><span class=\"token punctuation\">(</span><span class=\"token parameter\">template<span class=\"token punctuation\">,</span> options</span><span class=\"token punctuation\">)</span> <span class=\"token punctuation\">\x7b</span>\n  <span class=\"token comment\">// 解析 html，转化为 ast</span>\n  <span class=\"token keyword\">const</span> ast <span class=\"token operator\">=</span> <span class=\"token function\">baseParse</span><span class=\"token punctuation\">(</span>template<span class=\"token punctuation\">,</span> options<span class=\"token punctuation\">)</span>\n  <span class=\"token comment\">// 优化 ast，标记静态节点</span>\n  <span class=\"token function\">transform</span><span class=\"token punctuation\">(</span>ast<span class=\"token punctuation\">,</span> <span class=\"token punctuation\">\x7b</span>\n    <span class=\"token spread operator\">...</span>options<span class=\"token punctuation\">,</span>\n    nodeTransforms<span class=\"token operator\">:</span> <span class=\"token punctuation\">[</span>\n      transformIf<span class=\"token punctuation\">,</span>\n      transformFor<span class=\"token punctuation\">,</span>\n      transformText<span class=\"token punctuation\">,</span>\n      transformElement<span class=\"token punctuation\">,</span>\n      <span class=\"token comment\">// ... 省略了部分 transform</span>\n    <span class=\"token punctuation\">]</span><span class=\"token punctuation\">,</span>\n    directiveTransforms<span class=\"token operator\">:</span> <span class=\"token punctuation\">\x7b</span>\n      on<span class=\"token operator\">:</span> transformOn<span class=\"token punctuation\">,</span>\n      bind<span class=\"token operator\">:</span> transformBind<span class=\"token punctuation\">,</span>\n      model<span class=\"token operator\">:</span> transformModel\n    <span class=\"token punctuation\">\x7d</span>\n  <span class=\"token punctuation\">\x7d</span><span class=\"token punctuation\">)</span>\n  <span class=\"token comment\">// 将 ast 转化为可执行代码</span>\n  <span class=\"token keyword control-flow\">return</span> <span class=\"token function\">generate</span><span class=\"token punctuation\">(</span>ast<span class=\"token punctuation\">,</span> options<span class=\"token punctuation\">)</span>\n<span class=\"token punctuation\">\x7d</span>\n</code></pre>\n<h2 id=\"%E8%AE%A1%E7%AE%97-patchflag\">计算 PatchFlag<a class=\"anchor\" href=\"#%E8%AE%A1%E7%AE%97-patchflag\">§</a></h2>\n<p>这里大致的逻辑与之前的并没有多大的差异，主要是 <code>optimize</code> 方法变成了  <code>transform</code> 方法，而且默认会对一些模板语法进行 <code>transform</code>。这些 <code>transform</code> 就是后续虚拟 DOM 优化的关键，我们先看看 <code>transform</code> 的代码 。</p>\n<pre class=\"language-js\"><code class=\"language-js\"><span class=\"token comment\">// packages/compiler-core/src/transform.ts</span>\n<span class=\"token keyword module\">export</span> <span class=\"token keyword\">function</span> <span class=\"token function\">transform</span><span class=\"token punctuation\">(</span><span class=\"token parameter\">root<span class=\"token punctuation\">,</span> options</span><span class=\"token punctuation\">)</span> <span class=\"token punctuation\">\x7b</span>\n  <span class=\"token keyword\">const</span> context <span class=\"token operator\">=</span> <span class=\"token function\">createTransformContext</span><span class=\"token punctuation\">(</span>root<span class=\"token punctuation\">,</span> options<span class=\"token punctuation\">)</span>\n  <span class=\"token function\">traverseNode</span><span class=\"token punctuation\">(</span>root<span class=\"token punctuation\">,</span> context<span class=\"token punctuation\">)</span>\n<span class=\"token punctuation\">\x7d</span>\n<span class=\"token keyword module\">export</span> <span class=\"token keyword\">function</span> <span class=\"token function\">traverseNode</span><span class=\"token punctuation\">(</span><span class=\"token parameter\">node<span class=\"token punctuation\">,</span> context</span><span class=\"token punctuation\">)</span> <span class=\"token punctuation\">\x7b</span>\n  context<span class=\"token punctuation\">.</span><span class=\"token property-access\">currentNode</span> <span class=\"token operator\">=</span> node\n  <span class=\"token keyword\">const</span> <span class=\"token punctuation\">\x7b</span> nodeTransforms <span class=\"token punctuation\">\x7d</span> <span class=\"token operator\">=</span> context\n  <span class=\"token keyword\">const</span> exitFns <span class=\"token operator\">=</span> <span class=\"token punctuation\">[</span><span class=\"token punctuation\">]</span>\n  <span class=\"token keyword control-flow\">for</span> <span class=\"token punctuation\">(</span><span class=\"token keyword\">let</span> i <span class=\"token operator\">=</span> <span class=\"token number\">0</span><span class=\"token punctuation\">;</span> i <span class=\"token operator\">&lt;</span> nodeTransforms<span class=\"token punctuation\">.</span><span class=\"token property-access\">length</span><span class=\"token punctuation\">;</span> i<span class=\"token operator\">++</span><span class=\"token punctuation\">)</span> <span class=\"token punctuation\">\x7b</span>\n    <span class=\"token comment\">// Transform 会返回一个退出函数，在处理完所有的子节点后再执行</span>\n    <span class=\"token keyword\">const</span> onExit <span class=\"token operator\">=</span> nodeTransforms<span class=\"token punctuation\">[</span>i<span class=\"token punctuation\">]</span><span class=\"token punctuation\">(</span>node<span class=\"token punctuation\">,</span> context<span class=\"token punctuation\">)</span>\n    <span class=\"token keyword control-flow\">if</span> <span class=\"token punctuation\">(</span>onExit<span class=\"token punctuation\">)</span> <span class=\"token punctuation\">\x7b</span>\n      <span class=\"token keyword control-flow\">if</span> <span class=\"token punctuation\">(</span><span class=\"token function\">isArray</span><span class=\"token punctuation\">(</span>onExit<span class=\"token punctuation\">)</span><span class=\"token punctuation\">)</span> <span class=\"token punctuation\">\x7b</span>\n        exitFns<span class=\"token punctuation\">.</span><span class=\"token method function property-access\">push</span><span class=\"token punctuation\">(</span><span class=\"token spread operator\">...</span>onExit<span class=\"token punctuation\">)</span>\n      <span class=\"token punctuation\">\x7d</span> <span class=\"token keyword control-flow\">else</span> <span class=\"token punctuation\">\x7b</span>\n        exitFns<span class=\"token punctuation\">.</span><span class=\"token method function property-access\">push</span><span class=\"token punctuation\">(</span>onExit<span class=\"token punctuation\">)</span>\n      <span class=\"token punctuation\">\x7d</span>\n    <span class=\"token punctuation\">\x7d</span>\n  <span class=\"token punctuation\">\x7d</span>\n  <span class=\"token function\">traverseChildren</span><span class=\"token punctuation\">(</span>node<span class=\"token punctuation\">,</span> context<span class=\"token punctuation\">)</span>\n  context<span class=\"token punctuation\">.</span><span class=\"token property-access\">currentNode</span> <span class=\"token operator\">=</span> node\n  <span class=\"token comment\">// 执行所以 Transform 的退出函数</span>\n  <span class=\"token keyword\">let</span> i <span class=\"token operator\">=</span> exitFns<span class=\"token punctuation\">.</span><span class=\"token property-access\">length</span>\n  <span class=\"token keyword control-flow\">while</span> <span class=\"token punctuation\">(</span>i<span class=\"token operator\">--</span><span class=\"token punctuation\">)</span> <span class=\"token punctuation\">\x7b</span>\n    exitFns<span class=\"token punctuation\">[</span>i<span class=\"token punctuation\">]</span><span class=\"token punctuation\">(</span><span class=\"token punctuation\">)</span>\n  <span class=\"token punctuation\">\x7d</span>\n<span class=\"token punctuation\">\x7d</span>\n</code></pre>\n<p>我们重点看一下 <code>transformElement</code> 的逻辑：</p>\n<pre class=\"language-js\"><code class=\"language-js\"><span class=\"token comment\">// packages/compiler-core/src/transforms/transformElement.ts</span>\n<span class=\"token keyword module\">export</span> <span class=\"token keyword\">const</span> transformElement<span class=\"token operator\">:</span> <span class=\"token function-variable function\"><span class=\"token maybe-class-name\">NodeTransform</span></span> <span class=\"token operator\">=</span> <span class=\"token punctuation\">(</span><span class=\"token parameter\">node<span class=\"token punctuation\">,</span> context</span><span class=\"token punctuation\">)</span> <span class=\"token arrow operator\">=></span> <span class=\"token punctuation\">\x7b</span>\n  <span class=\"token comment\">// transformElement 没有执行任何逻辑，而是直接返回了一个退出函数</span>\n  <span class=\"token comment\">// 说明 transformElement 需要等所有的子节点处理完后才执行</span>\n  <span class=\"token keyword control-flow\">return</span> <span class=\"token keyword\">function</span> <span class=\"token function\">postTransformElement</span><span class=\"token punctuation\">(</span><span class=\"token punctuation\">)</span> <span class=\"token punctuation\">\x7b</span>\n    <span class=\"token keyword\">const</span> <span class=\"token punctuation\">\x7b</span> tag<span class=\"token punctuation\">,</span> props <span class=\"token punctuation\">\x7d</span> <span class=\"token operator\">=</span> node\n\n    <span class=\"token keyword\">let</span> vnodeProps\n    <span class=\"token keyword\">let</span> vnodePatchFlag\n    <span class=\"token keyword\">const</span> vnodeTag <span class=\"token operator\">=</span> node<span class=\"token punctuation\">.</span><span class=\"token property-access\">tagType</span> <span class=\"token operator\">===</span> <span class=\"token maybe-class-name\">ElementTypes</span><span class=\"token punctuation\">.</span><span class=\"token constant\">COMPONENT</span>\n      <span class=\"token operator\">?</span> <span class=\"token function\">resolveComponentType</span><span class=\"token punctuation\">(</span>node<span class=\"token punctuation\">,</span> context<span class=\"token punctuation\">)</span>\n      <span class=\"token operator\">:</span> <span class=\"token template-string\"><span class=\"token template-punctuation string\">\x60</span><span class=\"token string\">\"</span><span class=\"token interpolation\"><span class=\"token interpolation-punctuation punctuation\">$\x7b</span>tag<span class=\"token interpolation-punctuation punctuation\">\x7d</span></span><span class=\"token string\">\"</span><span class=\"token template-punctuation string\">\x60</span></span>\n    \n    <span class=\"token keyword\">let</span> patchFlag <span class=\"token operator\">=</span> <span class=\"token number\">0</span>\n    <span class=\"token comment\">// 检测节点属性</span>\n    <span class=\"token keyword control-flow\">if</span> <span class=\"token punctuation\">(</span>props<span class=\"token punctuation\">.</span><span class=\"token property-access\">length</span> <span class=\"token operator\">></span> <span class=\"token number\">0</span><span class=\"token punctuation\">)</span> <span class=\"token punctuation\">\x7b</span>\n      <span class=\"token comment\">// 检测节点属性的动态部分</span>\n      <span class=\"token keyword\">const</span> propsBuildResult <span class=\"token operator\">=</span> <span class=\"token function\">buildProps</span><span class=\"token punctuation\">(</span>node<span class=\"token punctuation\">,</span> context<span class=\"token punctuation\">)</span>\n      vnodeProps <span class=\"token operator\">=</span> propsBuildResult<span class=\"token punctuation\">.</span><span class=\"token property-access\">props</span>\n      patchFlag <span class=\"token operator\">=</span> propsBuildResult<span class=\"token punctuation\">.</span><span class=\"token property-access\">patchFlag</span>\n    <span class=\"token punctuation\">\x7d</span>\n\n    <span class=\"token comment\">// 检测子节点</span>\n    <span class=\"token keyword control-flow\">if</span> <span class=\"token punctuation\">(</span>node<span class=\"token punctuation\">.</span><span class=\"token property-access\">children</span><span class=\"token punctuation\">.</span><span class=\"token property-access\">length</span> <span class=\"token operator\">></span> <span class=\"token number\">0</span><span class=\"token punctuation\">)</span> <span class=\"token punctuation\">\x7b</span>\n      <span class=\"token keyword control-flow\">if</span> <span class=\"token punctuation\">(</span>node<span class=\"token punctuation\">.</span><span class=\"token property-access\">children</span><span class=\"token punctuation\">.</span><span class=\"token property-access\">length</span> <span class=\"token operator\">===</span> <span class=\"token number\">1</span><span class=\"token punctuation\">)</span> <span class=\"token punctuation\">\x7b</span>\n        <span class=\"token keyword\">const</span> child <span class=\"token operator\">=</span> node<span class=\"token punctuation\">.</span><span class=\"token property-access\">children</span><span class=\"token punctuation\">[</span><span class=\"token number\">0</span><span class=\"token punctuation\">]</span>\n        <span class=\"token comment\">// 检测子节点是否为动态文本</span>\n        <span class=\"token keyword control-flow\">if</span> <span class=\"token punctuation\">(</span><span class=\"token operator\">!</span><span class=\"token function\">getStaticType</span><span class=\"token punctuation\">(</span>child<span class=\"token punctuation\">)</span><span class=\"token punctuation\">)</span> <span class=\"token punctuation\">\x7b</span>\n          patchFlag <span class=\"token operator\">|=</span> <span class=\"token maybe-class-name\">PatchFlags</span><span class=\"token punctuation\">.</span><span class=\"token constant\">TEXT</span>\n        <span class=\"token punctuation\">\x7d</span>\n      <span class=\"token punctuation\">\x7d</span>\n    <span class=\"token punctuation\">\x7d</span>\n\n    <span class=\"token comment\">// 格式化 patchFlag</span>\n    <span class=\"token keyword control-flow\">if</span> <span class=\"token punctuation\">(</span>patchFlag <span class=\"token operator\">!==</span> <span class=\"token number\">0</span><span class=\"token punctuation\">)</span> <span class=\"token punctuation\">\x7b</span>\n        vnodePatchFlag <span class=\"token operator\">=</span> <span class=\"token known-class-name class-name\">String</span><span class=\"token punctuation\">(</span>patchFlag<span class=\"token punctuation\">)</span>\n    <span class=\"token punctuation\">\x7d</span>\n\n    node<span class=\"token punctuation\">.</span><span class=\"token property-access\">codegenNode</span> <span class=\"token operator\">=</span> <span class=\"token function\">createVNodeCall</span><span class=\"token punctuation\">(</span>\n      context<span class=\"token punctuation\">,</span>\n      vnodeTag<span class=\"token punctuation\">,</span>\n      vnodeProps<span class=\"token punctuation\">,</span>\n      vnodeChildren<span class=\"token punctuation\">,</span>\n      vnodePatchFlag\n    <span class=\"token punctuation\">)</span>\n  <span class=\"token punctuation\">\x7d</span>\n<span class=\"token punctuation\">\x7d</span>\n</code></pre>\n<p><code>buildProps</code> 会对节点的属性进行一次遍历，由于内部源码涉及很多其他的细节，这里的代码是经过简化之后的，只保留了 <code>patchFlag</code> 相关的逻辑。</p>\n<pre class=\"language-js\"><code class=\"language-js\"><span class=\"token keyword module\">export</span> <span class=\"token keyword\">function</span> <span class=\"token function\">buildProps</span><span class=\"token punctuation\">(</span>\n  node<span class=\"token operator\">:</span> <span class=\"token maybe-class-name\">ElementNode</span><span class=\"token punctuation\">,</span>\n  context<span class=\"token operator\">:</span> <span class=\"token maybe-class-name\">TransformContext</span><span class=\"token punctuation\">,</span>\n  props<span class=\"token operator\">:</span> <span class=\"token maybe-class-name\">ElementNode</span><span class=\"token punctuation\">[</span><span class=\"token string\">\x27props\x27</span><span class=\"token punctuation\">]</span> <span class=\"token operator\">=</span> node<span class=\"token punctuation\">.</span><span class=\"token property-access\">props</span>\n<span class=\"token punctuation\">)</span> <span class=\"token punctuation\">\x7b</span>\n  <span class=\"token keyword\">let</span> patchFlag <span class=\"token operator\">=</span> <span class=\"token number\">0</span>\n  <span class=\"token keyword control-flow\">for</span> <span class=\"token punctuation\">(</span><span class=\"token keyword\">let</span> i <span class=\"token operator\">=</span> <span class=\"token number\">0</span><span class=\"token punctuation\">;</span> i <span class=\"token operator\">&lt;</span> props<span class=\"token punctuation\">.</span><span class=\"token property-access\">length</span><span class=\"token punctuation\">;</span> i<span class=\"token operator\">++</span><span class=\"token punctuation\">)</span> <span class=\"token punctuation\">\x7b</span>\n    <span class=\"token keyword\">const</span> prop <span class=\"token operator\">=</span> props<span class=\"token punctuation\">[</span>i<span class=\"token punctuation\">]</span>\n    <span class=\"token keyword\">const</span> <span class=\"token punctuation\">[</span>key<span class=\"token punctuation\">,</span> name<span class=\"token punctuation\">]</span> <span class=\"token operator\">=</span> prop<span class=\"token punctuation\">.</span><span class=\"token property-access\">name</span><span class=\"token punctuation\">.</span><span class=\"token method function property-access\">split</span><span class=\"token punctuation\">(</span><span class=\"token string\">\x27:\x27</span><span class=\"token punctuation\">)</span>\n    <span class=\"token keyword control-flow\">if</span> <span class=\"token punctuation\">(</span>key <span class=\"token operator\">===</span> <span class=\"token string\">\x27v-bind\x27</span> <span class=\"token operator\">||</span> key <span class=\"token operator\">===</span> <span class=\"token string\">\x27\x27</span><span class=\"token punctuation\">)</span> <span class=\"token punctuation\">\x7b</span>\n      <span class=\"token keyword control-flow\">if</span> <span class=\"token punctuation\">(</span>name <span class=\"token operator\">===</span> <span class=\"token string\">\x27class\x27</span><span class=\"token punctuation\">)</span> <span class=\"token punctuation\">\x7b</span>\n        <span class=\"token comment\">// 如果包含 :class 属性，patchFlag | CLASS</span>\n        patchFlag <span class=\"token operator\">|=</span> <span class=\"token maybe-class-name\">PatchFlags</span><span class=\"token punctuation\">.</span><span class=\"token constant\">CLASS</span>\n      <span class=\"token punctuation\">\x7d</span> <span class=\"token keyword control-flow\">else</span> <span class=\"token keyword control-flow\">if</span> <span class=\"token punctuation\">(</span>name <span class=\"token operator\">===</span> <span class=\"token string\">\x27style\x27</span><span class=\"token punctuation\">)</span> <span class=\"token punctuation\">\x7b</span>\n        <span class=\"token comment\">// 如果包含 :style 属性，patchFlag | STYLE</span>\n        patchFlag <span class=\"token operator\">|=</span> <span class=\"token maybe-class-name\">PatchFlags</span><span class=\"token punctuation\">.</span><span class=\"token constant\">STYLE</span>\n      <span class=\"token punctuation\">\x7d</span>\n    <span class=\"token punctuation\">\x7d</span>\n  <span class=\"token punctuation\">\x7d</span>\n\n  <span class=\"token keyword control-flow\">return</span> <span class=\"token punctuation\">\x7b</span>\n    patchFlag\n  <span class=\"token punctuation\">\x7d</span>\n<span class=\"token punctuation\">\x7d</span>\n</code></pre>\n<p>上面的代码只展示了三种 <code>patchFlag</code> 的类型：</p>\n<ul>\n<li><strong>节点只有一个文本子节点，且该文本包含动态的数据</strong>（<code>TEXT = 1</code>）</li>\n</ul>\n<pre class=\"language-html\"><code class=\"language-html\"><span class=\"token tag\"><span class=\"token tag\"><span class=\"token punctuation\">&lt;</span>p</span><span class=\"token punctuation\">></span></span>name: \x7b\x7bname\x7d\x7d<span class=\"token tag\"><span class=\"token tag\"><span class=\"token punctuation\">&lt;/</span>p</span><span class=\"token punctuation\">></span></span>\n</code></pre>\n<ul>\n<li><strong>节点包含可变的 class 属性</strong>（<code>CLASS = 1 &lt;&lt; 1</code>）</li>\n</ul>\n<pre class=\"language-html\"><code class=\"language-html\"><span class=\"token tag\"><span class=\"token tag\"><span class=\"token punctuation\">&lt;</span>div</span> <span class=\"token attr-name\">:class</span><span class=\"token attr-value\"><span class=\"token punctuation attr-equals\">=</span><span class=\"token punctuation\">\"</span>\x7b active: isActive \x7d<span class=\"token punctuation\">\"</span></span><span class=\"token punctuation\">></span></span><span class=\"token tag\"><span class=\"token tag\"><span class=\"token punctuation\">&lt;/</span>div</span><span class=\"token punctuation\">></span></span>\n</code></pre>\n<ul>\n<li><strong>节点包含可变的 style 属性</strong>（<code>STYLE = 1 &lt;&lt; 2</code>）</li>\n</ul>\n<pre class=\"language-html\"><code class=\"language-html\"><span class=\"token tag\"><span class=\"token tag\"><span class=\"token punctuation\">&lt;</span>div</span> <span class=\"token attr-name\">:</span><span class=\"token style-attr language-css\"><span class=\"token attr-name\"><span class=\"token attr-name\">style</span></span><span class=\"token punctuation\">=\"</span><span class=\"token attr-value\"><span class=\"token punctuation\">\x7b</span> <span class=\"token property\">color</span><span class=\"token punctuation\">:</span> color <span class=\"token punctuation\">\x7d</span></span><span class=\"token punctuation\">\"</span></span><span class=\"token punctuation\">></span></span><span class=\"token tag\"><span class=\"token tag\"><span class=\"token punctuation\">&lt;/</span>div</span><span class=\"token punctuation\">></span></span>\n</code></pre>\n<p>可以看到 PatchFlags 都是数字 <code>1</code> 经过 <strong>左移操作符</strong> 计算得到的。</p>\n<pre class=\"language-js\"><code class=\"language-js\"><span class=\"token keyword module\">export</span> <span class=\"token keyword\">const</span> <span class=\"token keyword\">enum</span> <span class=\"token maybe-class-name\">PatchFlags</span> <span class=\"token punctuation\">\x7b</span>\n  <span class=\"token constant\">TEXT</span> <span class=\"token operator\">=</span> <span class=\"token number\">1</span><span class=\"token punctuation\">,</span>             <span class=\"token comment\">// 1, 二进制 0000 0001</span>\n  <span class=\"token constant\">CLASS</span> <span class=\"token operator\">=</span> <span class=\"token number\">1</span> <span class=\"token operator\">&lt;&lt;</span> <span class=\"token number\">1</span><span class=\"token punctuation\">,</span>       <span class=\"token comment\">// 2, 二进制 0000 0010</span>\n  <span class=\"token constant\">STYLE</span> <span class=\"token operator\">=</span> <span class=\"token number\">1</span> <span class=\"token operator\">&lt;&lt;</span> <span class=\"token number\">2</span><span class=\"token punctuation\">,</span>       <span class=\"token comment\">// 4, 二进制 0000 0100</span>\n  <span class=\"token constant\">PROPS</span> <span class=\"token operator\">=</span> <span class=\"token number\">1</span> <span class=\"token operator\">&lt;&lt;</span> <span class=\"token number\">3</span><span class=\"token punctuation\">,</span>       <span class=\"token comment\">// 8, 二进制 0000 1000</span>\n  <span class=\"token spread operator\">...</span>\n<span class=\"token punctuation\">\x7d</span>\n</code></pre>\n<p>从上面的代码能看出来，<code>patchFlag</code> 的初始值为 0，每次对 <code>patchFlag</code> 都是执行 <code>|</code> （或）操作。如果当前节点是一个只有动态文本子节点且同时具有动态 style 属性，最后得到的 <code>patchFlag</code> 为 5（<code>二进制：0000 0101</code>）。</p>\n<pre class=\"language-js\"><code class=\"language-js\"><span class=\"token operator\">&lt;</span>p <span class=\"token operator\">:</span>style<span class=\"token operator\">=</span><span class=\"token string\">\"\x7b color: color \x7d\"</span><span class=\"token operator\">></span>name<span class=\"token operator\">:</span> <span class=\"token punctuation\">\x7b</span><span class=\"token punctuation\">\x7b</span>name<span class=\"token punctuation\">\x7d</span><span class=\"token punctuation\">\x7d</span><span class=\"token operator\">&lt;</span><span class=\"token operator\">/</span>p<span class=\"token operator\">></span>\n</code></pre>\n<pre class=\"language-js\"><code class=\"language-js\">patchFlag <span class=\"token operator\">=</span> <span class=\"token number\">0</span>\npatchFlag <span class=\"token operator\">|=</span> <span class=\"token maybe-class-name\">PatchFlags</span><span class=\"token punctuation\">.</span><span class=\"token constant\">STYLE</span>\npatchFlag <span class=\"token operator\">|=</span> <span class=\"token maybe-class-name\">PatchFlags</span><span class=\"token punctuation\">.</span><span class=\"token constant\">TEXT</span>\n<span class=\"token comment\">// 或运算：两个对应的二进制位中只要一个是1，结果对应位就是1。</span>\n<span class=\"token comment\">// 0000 0001</span>\n<span class=\"token comment\">// 0000 0100</span>\n<span class=\"token comment\">// ------------</span>\n<span class=\"token comment\">// 0000 0101  =>  十进制 5</span>\n</code></pre>\n<p><img src=\"https://file.shenfq.com/pic/20201111135121.png\" alt=\"patchFlag\"></p>\n<p>我们将上面的代码放到 Vue3 中运行：</p>\n<pre class=\"language-js\"><code class=\"language-js\"><span class=\"token keyword\">const</span> app <span class=\"token operator\">=</span> <span class=\"token maybe-class-name\">Vue</span><span class=\"token punctuation\">.</span><span class=\"token method function property-access\">createApp</span><span class=\"token punctuation\">(</span><span class=\"token punctuation\">\x7b</span>\n  <span class=\"token function\">data</span><span class=\"token punctuation\">(</span><span class=\"token punctuation\">)</span> <span class=\"token punctuation\">\x7b</span>\n    <span class=\"token keyword control-flow\">return</span> <span class=\"token punctuation\">\x7b</span>\n      color<span class=\"token operator\">:</span> <span class=\"token string\">\x27red\x27</span><span class=\"token punctuation\">,</span>\n      name<span class=\"token operator\">:</span> <span class=\"token string\">\x27shenfq\x27</span>\n    <span class=\"token punctuation\">\x7d</span>\n  <span class=\"token punctuation\">\x7d</span><span class=\"token punctuation\">,</span>\n  template<span class=\"token operator\">:</span> <span class=\"token template-string\"><span class=\"token template-punctuation string\">\x60</span><span class=\"token string\">&lt;div>\n    &lt;p :style=\"\x7b color: color \x7d\">name: \x7b\x7bname\x7d\x7d&lt;/p>\n  &lt;/div></span><span class=\"token template-punctuation string\">\x60</span></span>\n<span class=\"token punctuation\">\x7d</span><span class=\"token punctuation\">)</span>\n\napp<span class=\"token punctuation\">.</span><span class=\"token method function property-access\">mount</span><span class=\"token punctuation\">(</span><span class=\"token string\">\x27#app\x27</span><span class=\"token punctuation\">)</span>\n</code></pre>\n<p>最后生成的 <code>render</code> 方法如下，和我们之前的描述基本一致。</p>\n<p><img src=\"https://file.shenfq.com/pic/20201111135707.png\" alt=\"function render() \x7b\x7d\"></p>\n<h2 id=\"render-%E4%BC%98%E5%8C%96\">render 优化<a class=\"anchor\" href=\"#render-%E4%BC%98%E5%8C%96\">§</a></h2>\n<p>Vue3 在虚拟 DOM Diff 时，会取出 <code>patchFlag</code> 和需要进行的 diff 类型进行 <code>&amp;</code>（与）操作，如果结果为 true 才进入对应的 diff。</p>\n<p><img src=\"https://file.shenfq.com/pic/20201111140613.png\" alt=\"patchFlag 判断\"></p>\n<p>还是拿之前的模板举例：</p>\n<pre class=\"language-html\"><code class=\"language-html\"><span class=\"token tag\"><span class=\"token tag\"><span class=\"token punctuation\">&lt;</span>p</span> <span class=\"token attr-name\">:</span><span class=\"token style-attr language-css\"><span class=\"token attr-name\"><span class=\"token attr-name\">style</span></span><span class=\"token punctuation\">=\"</span><span class=\"token attr-value\"><span class=\"token punctuation\">\x7b</span> <span class=\"token property\">color</span><span class=\"token punctuation\">:</span> color <span class=\"token punctuation\">\x7d</span></span><span class=\"token punctuation\">\"</span></span><span class=\"token punctuation\">></span></span>name: \x7b\x7bname\x7d\x7d<span class=\"token tag\"><span class=\"token tag\"><span class=\"token punctuation\">&lt;/</span>p</span><span class=\"token punctuation\">></span></span>\n</code></pre>\n<p>如果此时的 name 发生了修改，p 节点进入了 diff 阶段，此时会将判断 <code>patchFlag &amp; PatchFlags.TEXT</code> ，这个时候结果为真，表明 p 节点存在文本修改的情况。</p>\n<p><img src=\"https://file.shenfq.com/pic/20201111141501.png\" alt=\"patchFlag\"></p>\n<pre class=\"language-js\"><code class=\"language-js\">patchFlag <span class=\"token operator\">=</span> <span class=\"token number\">5</span>\npatchFlag <span class=\"token operator\">&amp;</span> <span class=\"token maybe-class-name\">PatchFlags</span><span class=\"token punctuation\">.</span><span class=\"token constant\">TEXT</span>\n<span class=\"token comment\">// 或运算：只有对应的两个二进位都为1时，结果位才为1。</span>\n<span class=\"token comment\">// 0000 0101</span>\n<span class=\"token comment\">// 0000 0001</span>\n<span class=\"token comment\">// ------------</span>\n<span class=\"token comment\">// 0000 0001  =>  十进制 1</span>\n</code></pre>\n<pre class=\"language-js\"><code class=\"language-js\"><span class=\"token keyword control-flow\">if</span> <span class=\"token punctuation\">(</span>patchFlag <span class=\"token operator\">&amp;</span> <span class=\"token maybe-class-name\">PatchFlags</span><span class=\"token punctuation\">.</span><span class=\"token constant\">TEXT</span><span class=\"token punctuation\">)</span> <span class=\"token punctuation\">\x7b</span>\n  <span class=\"token keyword control-flow\">if</span> <span class=\"token punctuation\">(</span>oldNode<span class=\"token punctuation\">.</span><span class=\"token property-access\">children</span> <span class=\"token operator\">!==</span> newNode<span class=\"token punctuation\">.</span><span class=\"token property-access\">children</span><span class=\"token punctuation\">)</span> <span class=\"token punctuation\">\x7b</span>\n    <span class=\"token comment\">// 修改文本</span>\n    <span class=\"token function\">hostSetElementText</span><span class=\"token punctuation\">(</span>el<span class=\"token punctuation\">,</span> newNode<span class=\"token punctuation\">.</span><span class=\"token property-access\">children</span><span class=\"token punctuation\">)</span>\n  <span class=\"token punctuation\">\x7d</span>\n<span class=\"token punctuation\">\x7d</span>\n</code></pre>\n<p>但是进行  <code>patchFlag &amp; PatchFlags.CLASS</code> 判断时，由于节点并没有动态 Class，返回值为 0，所以就不会对该节点的 class 属性进行 diff，以此来优化性能。</p>\n<p><img src=\"https://file.shenfq.com/pic/20201111141957.png\" alt=\"patchFlag\"></p>\n<pre class=\"language-js\"><code class=\"language-js\">patchFlag <span class=\"token operator\">=</span> <span class=\"token number\">5</span>\npatchFlag <span class=\"token operator\">&amp;</span> <span class=\"token maybe-class-name\">PatchFlags</span><span class=\"token punctuation\">.</span><span class=\"token constant\">CLASS</span>\n<span class=\"token comment\">// 或运算：只有对应的两个二进位都为1时，结果位才为1。</span>\n<span class=\"token comment\">// 0000 0101</span>\n<span class=\"token comment\">// 0000 0010</span>\n<span class=\"token comment\">// ------------</span>\n<span class=\"token comment\">// 0000 0000  =>  十进制 0</span>\n</code></pre>\n<h2 id=\"%E6%80%BB%E7%BB%93\">总结<a class=\"anchor\" href=\"#%E6%80%BB%E7%BB%93\">§</a></h2>\n<p>其实 Vue3 相关的性能优化有很多，这里只单独将 patchFlag 的十分之一的内容拿出来讲了，Vue3 还没正式发布的时候就有看到说 Diff 过程会通过 patchFlag 来进行性能优化，所以打算看看他的优化逻辑，总的来说还是有所收获。</p>"⟩

/-- Field `toc` (source lines 21-23): an `aside` element whose inner HTML is the navigation fragment. -/
def toc : RawElement :=
  ⟨"aside", "<nav class=\"toc\"><ol><li><a href=\"#%E7%BC%96%E8%AF%91%E5%85%A5%E5%8F%A3\">编译入口</a></li><li><a href=\"#%E4%B8%BB%E6%B5%81%E7%A8%8B\">主流程</a></li><li><a href=\"#%E8%AE%A1%E7%AE%97-patchflag\">计算 PatchFlag</a></li><li><a href=\"#render-%E4%BC%98%E5%8C%96\">render 优化</a></li><li><a href=\"#%E6%80%BB%E7%BB%93\">总结</a></li></ol></nav>"⟩

/-- Field `author` (source line 24). -/
def author : String := "shenfq"

/-- Field `contributors` (source lines 25-27). -/
def contributors : List String := ["Shenfq"]

/-- Field `date` (source line 28). -/
def date : String := "2020/11/11"

/-- Field `updated` (source line 29), `null` in the source. -/
def updated : Option String := none

/-- Field `excerpt` (source line 30). -/
def excerpt : String := "Vue3 正式发布已经有一段时间了，前段时间写了一篇文章（《Vue 模板编译原理》）分析 Vue 的模板编译原理。今天的文章打算学习下 Vue3 下的模板编译与 Vue2 下的差异，以及 VDOM 下 Diff 算法的优化。 编译入口 了解过 Vue3 的..."

/-- Field `cover` (source line 31). -/
def cover : Option String := (some "https://file.shenfq.com/pic/20201109144930.png")

/-- Field `categories` (source lines 32-34). -/
def categories : List String := ["前端"]

/-- Field `tags` (source lines 35-40). -/
def tags : List String := ["前端框架", "Vue.js", "编译", "模板"]

/-- The list `blog.posts` (source lines 43-1128), in source order; an entry without a `cover` key has `cover := none`. -/
def blogPosts : List PostSummary := [
  { pagePath := "posts/2020/Node.js 服务性能翻倍的秘密（一）.md",
    title := "Node.js 服务性能翻倍的秘密（一）",
    link := "posts/2020/Node.js 服务性能翻倍的秘密（一）.html",
    date := "2020/12/13",
    updated := none,
    author := "shenfq",
    contributors := ["Shenfq"],
    categories := ["Node.js"],
    tags := ["性能", "Node", "JSON", "fastify"],
    excerpt := "前言 用过 Node.js 开发过的同学肯定都上手过 koa，因为他简单优雅的写法，再加上丰富的社区生态，而且现存的许多 Node.js 框架都是基于 koa 进行二次封装的。但是说到性能，就不得不提到一个知名框架： fastify ，听名字就知道...",
    cover := (some "https://file.shenfq.com/pic/20201213162826.png") },
  { pagePath := "posts/2020/我是怎么读源码的.md",
    title := "我是如何阅读源码的",
    link := "posts/2020/我是怎么读源码的.html",
    date := "2020/12/7",
    updated := none,
    author := "shenfq",
    contributors := ["Shenfq"],
    categories := ["前端"],
    tags := ["React", "Vue.js", "前端"],
    excerpt := "最近写了很多源码分析相关的文章，React、Vue 都有，想把我阅读源码的一些心得分享给大家。 React： - React 架构的演变 - 从同步到异步 - React 架构的演变 - 从递归到循环 - React 架构的演变 - 更新机制 - React 架构的演变...",
    cover := (some "https://file.shenfq.com/pic/20201205210806.png") },
  { pagePath := "posts/2020/Vue3 Teleport 组件的实践及原理.md",
    title := "Vue3 Teleport 组件的实践及原理",
    link := "posts/2020/Vue3 Teleport 组件的实践及原理.html",
    date := "2020/12/1",
    updated := none,
    author := "shenfq",
    contributors := ["Shenfq"],
    categories := ["前端"],
    tags := ["前端框架", "Vue.js", "组件"],
    excerpt := "Vue3 的组合式 API 以及基于 Proxy 响应式原理已经有很多文章介绍过了，除了这些比较亮眼的更新，Vue3 还新增了一个内置组件：Teleport。这个组件的作用主要用来将模板内的 DOM 元素移动到其他位置。 使用场景 业务开发的过程中...",
    cover := (some "https://file.shenfq.com/pic/20201128210914.png") },
  { pagePath := "posts/2020/【翻译】CommonJS 是如何导致打包体积增大的？.md",
    title := "【翻译】CommonJS 是如何导致打包后体积增大的？",
    link := "posts/2020/【翻译】CommonJS 是如何导致打包体积增大的？.html",
    date := "2020/11/18",
    updated := none,
    author := "shenfq",
    contributors := ["Shenfq"],
    categories := ["前端工程"],
    tags := ["前端", "翻译", "模块化", "前端工程化", "Webpack"],
    excerpt := "今天的文章，将介绍什么是 CommonJS，以及它为什么会导致我们打包后的文件体积增大。 什么是 CommonJS？ CommonJS 是 2009 年发布的 JavaScript模块化的一项标准，最初它只打算在浏览器之外的场景使用，主要用于服务器端的应用...",
    cover := none },
  { pagePath := "posts/2020/Vue3 模板编译优化.md",
    title := "Vue3 模板编译优化",
    link := "posts/2020/Vue3 模板编译优化.html",
    date := "2020/11/11",
    updated := none,
    author := "shenfq",
    contributors := ["Shenfq"],
    categories := ["前端"],
    tags := ["前端框架", "Vue.js", "编译", "模板"],
    excerpt := "Vue3 正式发布已经有一段时间了，前段时间写了一篇文章（《Vue 模板编译原理》）分析 Vue 的模板编译原理。今天的文章打算学习下 Vue3 下的模板编译与 Vue2 下的差异，以及 VDOM 下 Diff 算法的优化。 编译入口 了解过 Vue3 的...",
    cover := (some "https://file.shenfq.com/pic/20201109144930.png") },
  { pagePath := "posts/2020/小程序依赖分析.md",
    title := "小程序依赖分析",
    link := "posts/2020/小程序依赖分析.html",
    date := "2020/11/02",
    updated := none,
    author := "shenfq",
    contributors := ["Shenfq"],
    categories := ["微信小程序"],
    tags := ["小程序", "微信小程序", "依赖分析"],
    excerpt := "用过 webpack 的同学肯定知道 webpack-bundle-analyzer ，可以用来分析当前项目 js 文件的依赖关系。 因为最近一直在做小程序业务，而且小程序对包体大小特别敏感，所以就想着能不能做一个类似的工具，用来查看当前小程序各个主...",
    cover := (some "https://file.shenfq.com/pic/20201030230741.png") },
  { pagePath := "posts/2020/React 架构的演变 - Hooks 的实现.md",
    title := "React 架构的演变 - Hooks 的实现",
    link := "posts/2020/React 架构的演变 - Hooks 的实现.html",
    date := "2020/10/27",
    updated := none,
    author := "shenfq",
    contributors := ["Shenfq"],
    categories := ["前端"],
    tags := ["前端框架", "JavaScript", "React"],
    excerpt := "React Hooks 可以说完全颠覆了之前 Class Component 的写法，进一步增强了状态复用的能力，让 Function Component 也具有了内部状态，对于我个人来说，更加喜欢 Hooks 的写法。当然如果你是一个使用 Class Component 的老手，初...",
    cover := (some "https://file.shenfq.com/pic/20201026173627.png") },
  { pagePath := "posts/2020/Vue 3 的组合 API 如何请求数据？.md",
    title := "Vue 3 的组合 API 如何请求数据？",
    link := "posts/2020/Vue 3 的组合 API 如何请求数据？.html",
    date := "2020/10/20",
    updated := none,
    author := "shenfq",
    contributors := ["Shenfq"],
    categories := ["前端"],
    tags := ["前端", "前端框架", "Vue.js"],
    excerpt := "前言 之前在学习 React Hooks 的过程中，看到一篇外网文章，通过 Hooks 来请求数据，并将这段逻辑抽象成一个新的 Hooks 给其他组件复用，我也在我的博客里翻译了一下：《在 React Hooks 中如何请求数据？》，感兴趣可以看看。虽...",
    cover := (some "https://file.shenfq.com/pic/20201019144935.png") },
  { pagePath := "posts/2020/React 架构的演变 - 更新机制.md",
    title := "React 架构的演变 - 更新机制",
    link := "posts/2020/React 架构的演变 - 更新机制.html",
    date := "2020/10/12",
    updated := none,
    author := "shenfq",
    contributors := ["Shenfq"],
    categories := ["前端"],
    tags := ["前端框架", "JavaScript", "React"],
    excerpt := "前面的文章分析了 Concurrent 模式下异步更新的逻辑，以及 Fiber 架构是如何进行时间分片的，更新过程中的很多内容都省略了，评论区也收到了一些同学对更新过程的疑惑，今天的文章就来讲解下 React Fiber 架构的更新机制。 Fib...",
    cover := (some "https://file.shenfq.com/pic/20201009143621.png") },
  { pagePath := "posts/2020/React 架构的演变 - 从递归到循环.md",
    title := "React 架构的演变 - 从递归到循环",
    link := "posts/2020/React 架构的演变 - 从递归到循环.html",
    date := "2020/09/29",
    updated := none,
    author := "shenfq",
    contributors := ["Shenfq"],
    categories := ["前端"],
    tags := ["前端框架", "JavaScript", "React"],
    excerpt := "这篇文章是 React 架构演变的第二篇，上一篇主要介绍了更新机制从同步修改为异步，这一篇重点介绍 Fiber 架构下通过循环遍历更新的过程，之所以要使用循环遍历的方式，是因为递归更新过程一旦开始就不能暂停，只能不断向下，直...",
    cover := (some "https://file.shenfq.com/pic/20200926153531.png") },
  { pagePath := "posts/2020/React 架构的演变 - 从同步到异步.md",
    title := "React 架构的演变 - 从同步到异步",
    link := "posts/2020/React 架构的演变 - 从同步到异步.html",
    date := "2020/09/23",
    updated := none,
    author := "shenfq",
    contributors := ["Shenfq"],
    categories := ["前端"],
    tags := ["前端框架", "JavaScript", "React"],
    excerpt := "写这篇文章的目的，主要是想弄懂 React 最新的 fiber 架构到底是什么东西，但是看了网上的很多文章，要不模棱两可，要不就是一顿复制粘贴，根本看不懂，于是开始认真钻研源码。钻研过程中，发现我想得太简单了，React 源码的复...",
    cover := (some "https://file.shenfq.com/ipic/2020-09-22-064122.png") },
  { pagePath := "posts/2020/Webpack5 Module Federation.md",
    title := "Webpack5 跨应用代码共享-Module Federation",
    link := "posts/2020/Webpack5 Module Federation.html",
    date := "2020/09/14",
    updated := none,
    author := "shenfq",
    contributors := ["Shenfq"],
    categories := ["前端工程"],
    tags := ["前端", "模块化", "前端工程化", "webpack"],
    excerpt := "Webpack 5 的消息尽管已经出来了许久，但是正式版一直还未发布。Webpack 5 的 ChangeLog 中，除了常规的性能优化、编译提速之外，有一个比较让人期待的功能就是 Module Federation。有些文件将 Module Federation 强行翻译成「...",
    cover := (some "https://file.shenfq.com/ipic/2020-09-14-040807.png") },
  { pagePath := "posts/2020/面向未来的前端构建工具-vite.md",
    title := "面向未来的前端构建工具-vite",
    link := "posts/2020/面向未来的前端构建工具-vite.html",
    date := "2020/09/07",
    updated := none,
    author := "shenfq",
    contributors := ["Shenfq"],
    categories := ["前端工程"],
    tags := ["前端", "模块化", "前端工程化", "Vue.js", "JavaScript"],
    excerpt := "前言 如果近期你有关注 Vue 的动态，就能发现 Vue 作者最近一直在捣鼓的新工具 vite。vite 1.0 目前已经进入了 rc 版本，马上就要正式发布 1.0 的版本了。几个月前，尤雨溪就已经在微博介绍过了 vite ，是一个基于浏览器原生 E...",
    cover := (some "https://file.shenfq.com/ipic/2020-09-06-031703.png") },
  { pagePath := "posts/2020/手把手教你实现 Promise .md",
    title := "手把手教你实现 Promise",
    link := "posts/2020/手把手教你实现 Promise .html",
    date := "2020/09/01",
    updated := none,
    author := "shenfq",
    contributors := ["Shenfq"],
    categories := ["Promise"],
    tags := ["前端", "Promise", "JavaScript"],
    excerpt := "前言 很多 JavaScript 的初学者都曾感受过被回调地狱支配的恐惧，直至掌握了 Promise 语法才算解脱。虽然很多语言都早已内置了 Promise ，但是 JavaScript 中真正将其发扬光大的还是 jQuery 1.5 对 $.ajax 的重构，支持了 Prom...",
    cover := (some "https://file.shenfq.com/ipic/2020-08-31-120006.png") },
  { pagePath := "posts/2020/你不知道的 TypeScript 高级类型.md",
    title := "你不知道的 TypeScript 高级类型",
    link := "posts/2020/你不知道的 TypeScript 高级类型.html",
    date := "2020/08/28",
    updated := none,
    author := "shenfq",
    contributors := ["Shenfq"],
    categories := ["前端"],
    tags := ["JavaScript", "TypeScript", "类型系统", "泛型"],
    excerpt := "前言 对于有 JavaScript 基础的同学来说，入门 TypeScript 其实很容易，只需要简单掌握其基础的类型系统就可以逐步将 JS 应用过渡到 TS 应用。 // js const double = (num) => 2 * num // ts const double = (num: number): nu...",
    cover := (some "https://file.shenfq.com/ipic/2020-08-26-135150.png") },
  { pagePath := "posts/2020/从零开始实现VS Code基金插件.md",
    title := "从零开始实现 VS Code 基金插件",
    link := "posts/2020/从零开始实现VS Code基金插件.html",
    date := "2020/08/24",
    updated := none,
    author := "shenfq",
    contributors := ["Shenfq"],
    categories := ["VSCode"],
    tags := ["VSCode"],
    excerpt := "写在前面 随着7月一波牛市行情，越来越多的人投身A股行列，但是股市的风险巨大，有人一夜暴富，也有人血本无归，所以对于普通人来说基金定投是个不错的选择，本人也是基金定投的一枚小韭菜。 上班的时候经常心理痒痒，想看看今...",
    cover := (some "https://file.shenfq.com/ipic/2020-08-22-050614.png") },
  { pagePath := "posts/2020/Vue模板编译原理.md",
    title := "Vue 模板编译原理",
    link := "posts/2020/Vue模板编译原理.html",
    date := "2020/08/20",
    updated := none,
    author := "shenfq",
    contributors := ["Shenfq"],
    categories := ["前端"],
    tags := ["前端框架", "Vue.js", "编译", "模板"],
    excerpt := "写在开头 写过 Vue 的同学肯定体验过， .vue 这种单文件组件有多么方便。但是我们也知道，Vue 底层是通过虚拟 DOM 来进行渲染的，那么 .vue 文件的模板到底是怎么转换成虚拟 DOM 的呢？这一块对我来说一直是个黑盒，之前也没有...",
    cover := (some "https://file.shenfq.com/ipic/2020-08-19-032238.jpg") },
  { pagePath := "posts/2020/小程序自动化测试.md",
    title := "小程序自动化测试",
    link := "posts/2020/小程序自动化测试.html",
    date := "2020/08/09",
    updated := none,
    author := "shenfq",
    contributors := ["Shenfq"],
    categories := ["微信小程序"],
    tags := ["小程序", "微信小程序", "自动化测试"],
    excerpt := "背景 近期团队打算做一个小程序自动化测试的工具，期望能够做到业务人员操作一遍小程序后，自动还原之前的操作路径，并且捕获操作过程中发生的异常，以此来判断这次发布是否会影响小程序的基础功能。 上述描述看似简单，但是中...",
    cover := (some "https://file.shenfq.com/ipic/2020-08-09-072710.png") },
  { pagePath := "posts/2020/Node.js 与二进制数据流.md",
    title := "Node.js 与二进制数据流",
    link := "posts/2020/Node.js 与二进制数据流.html",
    date := "2020/06/30",
    updated := none,
    author := "shenfq",
    contributors := ["Shenfq"],
    categories := ["Node.js"],
    tags := ["Node", "Buffer", "Stream", "二进制"],
    excerpt := "认识二进制数据 二进制数据就像上图一样，由0和1来存储数据。普通的十进制数转化成二进制数一般采用\"除2取余，逆序排列\"法，用2整除十进制整数，可以得到一个商和余数；再用2去除商，又会得到一个商和余数，如此进行，直到商为...",
    cover := (some "https://file.shenfq.com/ipic/2020-04-16-040056.jpg") },
  { pagePath := "posts/2020/【翻译】Node.js CLI 工具最佳实践.md",
    title := "【翻译】Node.js CLI 工具最佳实践",
    link := "posts/2020/【翻译】Node.js CLI 工具最佳实践.html",
    date := "2020/02/22",
    updated := none,
    author := "shenfq",
    contributors := ["Shenfq"],
    categories := ["Node.js"],
    tags := ["前端", "翻译", "Node"],
    excerpt := "这是一个关于如何构建成功的、可移植的、对用户友好的Node.js 命令行工具（CLI）最佳实践的集合。 为什么写这篇文章？ 一个糟糕的 CLI 工具会让用户觉得难用，而构建一个成功的 CLI 需要密切关注很多细节，同时需要站在用户的角...",
    cover := none },
  { pagePath := "posts/2020/2019年终总结.md",
    title := "2019年终总结",
    link := "posts/2020/2019年终总结.html",
    date := "2020/01/17",
    updated := none,
    author := "shenfq",
    contributors := ["Shenfq"],
    categories := ["年终总结"],
    tags := ["工作", "感悟", "总结"],
    excerpt := "GoodBye 2019 2019 已经结束，是时候开始回忆下自己的 2019 了。年终总结好像是 2017 年开始写的，还是毕业的第一个年头，一晃已经毕业两年多了。一年过去，总得记点流水账吧。 工作上 工作上，去年还在感叹自己进入鹅厂多么不...",
    cover := (some "https://file.shenfq.com/ezdlm.png") },
  { pagePath := "posts/2019/前端模块化的今生.md",
    title := "前端模块化的今生",
    link := "posts/2019/前端模块化的今生.html",
    date := "2019/11/30",
    updated := none,
    author := "shenfq",
    contributors := ["Shenfq"],
    categories := ["模块化"],
    tags := ["前端", "前端工程化", "前端模块化", "CommonJS", "ES Module"],
    excerpt := "背景 众所周知，早期 JavaScript 原生并不支持模块化，直到 2015 年，TC39 发布 ES6，其中有一个规范就是 ES modules（为了方便表述，后面统一简称 ESM）。但是在 ES6 规范提出前，就已经存在了一些模块化方案，比如 CommonJS（...",
    cover := (some "https://file.shenfq.com/zbsq0.png") },
  { pagePath := "posts/2019/前端模块化的前世.md",
    title := "前端模块化的前世",
    link := "posts/2019/前端模块化的前世.html",
    date := "2019/10/08",
    updated := none,
    author := "shenfq",
    contributors := ["Shenfq"],
    categories := ["模块化"],
    tags := ["前端", "前端工程化", "前端模块化", "AMD", "CMD", "CommonJS"],
    excerpt := "随着前端项目的越来越庞大，组件化的前端框架，前端路由等技术的发展，模块化已经成为现代前端工程师的一项必备技能。无论是什么语言一旦发展到一定地步，其工程化能力和可维护性势必得到相应的发展。 模块化这件事，无论在哪个...",
    cover := (some "https://file.shenfq.com/20191008214141.png") },
  { pagePath := "posts/2019/深入理解 ESLint.md",
    title := "深入理解 ESLint",
    link := "posts/2019/深入理解 ESLint.html",
    date := "2019/07/28",
    updated := none,
    author := "shenfq",
    contributors := ["Shenfq"],
    categories := ["前端工程"],
    tags := ["前端", "前端工程化", "前端工具", "ESLint", "代码格式化"],
    excerpt := "前言 小沈是一个刚刚开始工作的前端实习生，第一次进行团队开发，难免有些紧张。在导师的安排下，拿到了项目的 git 权限，开始进行 clone。 $ git clone git@github.com:company/project.git 小沈开始细细品味着同事们的代码，...",
    cover := (some "https://file.shenfq.com/20190727153755.png") },
  { pagePath := "posts/2019/USB.md",
    title := "USB 科普",
    link := "posts/2019/USB.html",
    date := "2019/06/28",
    updated := none,
    author := "shenfq",
    contributors := ["Shenfq"],
    categories := ["其他"],
    tags := ["USB"],
    excerpt := "什么是 USB？ 维基百科的解释： 在几年前，市面上常见的 USB 数据线都使用如下结构，一边 USB Type-A（主要用于连接电脑或充电器）, 一边 USB Micro-B（主要用来连接手机或其他手持设备），主要还是因为安卓手机普遍使用这种类...",
    cover := (some "https://file.shenfq.com/FpXvpHY5rIYID72c1rOVAowxtW42.png") },
  { pagePath := "posts/2019/虚拟DOM到底是什么？.md",
    title := "虚拟DOM到底是什么？",
    link := "posts/2019/虚拟DOM到底是什么？.html",
    date := "2019/06/18",
    updated := none,
    author := "shenfq",
    contributors := ["Shenfq"],
    categories := ["前端"],
    tags := ["虚拟DOM"],
    excerpt := "是什么？ 虚拟 DOM （Virtual DOM ）这个概念相信大家都不陌生，从 React 到 Vue ，虚拟 DOM 为这两个框架都带来了跨平台的能力（React-Native 和 Weex）。因为很多人是在学习 React 的过程中接触到的虚拟 DOM ，所以为先入为主...",
    cover := (some "https://file.shenfq.com/FtpWFfOrYBe4E2sI3_MyVvWYYijx.png") },
  { pagePath := "posts/2019/【翻译】基于虚拟DOM库(Snabbdom)的迷你React.md",
    title := "【翻译】基于虚拟DOM库(Snabbdom)的迷你React",
    link := "posts/2019/【翻译】基于虚拟DOM库(Snabbdom)的迷你React.html",
    date := "2019/05/01",
    updated := none,
    author := "shenfq",
    contributors := ["Shenfq"],
    categories := ["前端"],
    tags := ["前端框架", "react", "virtual dom", "虚拟 DOM", "Snabbdom", "翻译"],
    excerpt := "React 是 JavaScript 社区的新成员，尽管 JSX （在 JavaScript 中使用 HTML 语法）存在一定的争议，但是对于虚拟 DOM 人们有不一样的看法。 对于不熟悉的人来说，虚拟 DOM 可以描述为某个时刻真实DOM的简单表示。其思想是：每次...",
    cover := (some "https://file.shenfq.com/FvyObN9fMncD7cMXJYfZOFQJFQ--.png") },
  { pagePath := "posts/2019/【翻译】Vue.js 的注意事项与技巧.md",
    title := "【翻译】Vue.js 的注意事项与技巧",
    link := "posts/2019/【翻译】Vue.js 的注意事项与技巧.html",
    date := "2019/03/31",
    updated := none,
    author := "shenfq",
    contributors := ["Shenfq"],
    categories := ["前端"],
    tags := ["前端框架", "Vue.js", "翻译"],
    excerpt := "原文链接：Vue.js — Considerations and Tricks Vue.js 是一个很棒的框架。然而，当你开始构建一个大型 JavaScript 项目的时候，你将对 Vue.js 感到一些困惑。这些困惑并不是来自框架本身，相反 Vue.js 团队会经常调整一些重要...",
    cover := (some "https://file.shenfq.com/FjFxhMxwH4RWxzhXmnKlhcxjQ2Ap.png") },
  { pagePath := "posts/2019/【翻译】在 React Hooks 中如何请求数据？.md",
    title := "【翻译】在 React Hooks 中如何请求数据？",
    link := "posts/2019/【翻译】在 React Hooks 中如何请求数据？.html",
    date := "2019/03/25",
    updated := none,
    author := "shenfq",
    contributors := ["Shenfq"],
    categories := ["前端"],
    tags := ["前端框架", "react", "fetch", "react hooks", "翻译"],
    excerpt := "通过这个教程，我想告诉你在 React 中如何使用 state 和 effect 这两种 hooks 去请求数据。我们将使用总所周知的 Hacker News API 来获取一些热门文章。你将定义属于你自己的数据请求的 Hooks ，并且可以在你所有的应用中复用，...",
    cover := (some "https://file.shenfq.com/Fp4SkemaUMnmloPIN3eWDZ9o6qZd.png") },
  { pagePath := "posts/2019/深度神经网络原理与实践.md",
    title := "深度神经网络原理与实践",
    link := "posts/2019/深度神经网络原理与实践.html",
    date := "2019/03/17",
    updated := none,
    author := "shenfq",
    contributors := ["Shenfq"],
    categories := ["机器学习"],
    tags := ["机器学习", "深度学习", "神经网络"],
    excerpt := "理论基础 什么是神经网络 我们知道深度学习是机器学习的一个分支，是一种以人工神经网络为架构，对数据进行表征学习的算法。而深度神经网络又是深度学习的一个分支，它在 wikipedia 上的解释如下： 首先我们可以知道，深度神经...",
    cover := (some "https://file.shenfq.com/Fjw7fiWg-n1qXji4aX9DUz10Nrqa.png") },
  { pagePath := "posts/2019/工作两年的迷茫.md",
    title := "工作两年的迷茫",
    link := "posts/2019/工作两年的迷茫.html",
    date := "2019/02/20",
    updated := none,
    author := "shenfq",
    contributors := ["Shenfq"],
    categories := ["随便写写"],
    tags := ["工作", "感悟", "总结"],
    excerpt := "2019年着实是迷茫的一年，各大公司传来了裁员消息，再加上前段时间部门业务调整，工作开始有些闲置，调整完后，现在的业务方向与自己期望的有些偏差。工作近两年，照理来说应该还是个职场新手，却有种已经工作四五年的感觉，突...",
    cover := none },
  { pagePath := "posts/2019/推荐系统入门.md",
    title := "推荐系统入门",
    link := "posts/2019/推荐系统入门.html",
    date := "2019/01/30",
    updated := none,
    author := "shenfq",
    contributors := ["Shenfq"],
    categories := ["机器学习"],
    tags := ["机器学习", "推荐系统", "算法", "数学"],
    excerpt := "什么是推荐系统 维基百科定义如下： 首先推荐系统是一个过滤系统，这里对“物品”的定义很宽泛，物品可以是人、消费品、服务、信息等等，不同的业务场景的“物品”是不同的。 e.g. - 电商业务（淘宝、京东）的推荐系统中物品指...",
    cover := (some "https://file.shenfq.com/FscTeCfJB7rKcLbcWjC3KMh-_b6R.png") },
  { pagePath := "posts/2019/梯度下降与线性回归.md",
    title := "梯度下降与线性回归",
    link := "posts/2019/梯度下降与线性回归.html",
    date := "2019/01/28",
    updated := none,
    author := "shenfq",
    contributors := ["Shenfq"],
    categories := ["机器学习"],
    tags := ["机器学习", "算法", "数学"],
    excerpt := "基本概念 梯度下降法是机器学习中最常用的优化方法之一，主要作用是求解目标函数的极小值。基本原理就是让目标函数沿着某个方向去搜索极小值，而这个方向就是梯度下降的方向，如果搜索极大值，就是沿着梯度上升方向。 什么是梯...",
    cover := (some "https://file.shenfq.com/19-01-28/1.png") },
  { pagePath := "posts/2019/2018年终总结.md",
    title := "2018年终总结",
    link := "posts/2019/2018年终总结.html",
    date := "2019/01/09",
    updated := none,
    author := "shenfq",
    contributors := ["Shenfq"],
    categories := ["年终总结"],
    tags := ["工作", "感悟", "总结"],
    excerpt := "总觉得2018年过得非常快，快到以为现在还是2018，写日期的时候才反应过来现在已经到了2019。2018对我来说是圆满的一年，入职鹅厂，认识晴子，一切都显得那幸运。 工作经历 2018年算是迈入工作的的第二个年头，一月份刚好有个鹅...",
    cover := (some "https://file.shenfq.com/19-01-09/25450020.jpg") },
  { pagePath := "posts/2018/Node.js的进程管理.md",
    title := "Node.js的进程管理",
    link := "posts/2018/Node.js的进程管理.html",
    date := "2018/12/28",
    updated := none,
    author := "shenfq",
    contributors := ["Shenfq"],
    categories := ["Node.js"],
    tags := ["前端", "Node", "多进程", "cluster", "负载均衡"],
    excerpt := "众所周知Node基于V8，而在V8中JavaScript是单线程运行的，这里的单线程不是指Node启动的时候就只有一个线程，而是说运行JavaScript代码是在单线程上，Node还有其他线程，比如进行异步IO操作的IO线程。这种单线程模型带来的好处...",
    cover := (some "https://file.shenfq.com/19-1-9/37414156.jpg") },
  { pagePath := "posts/2018/koa-router源码解析.md",
    title := "koa-router源码解析",
    link := "posts/2018/koa-router源码解析.html",
    date := "2018/12/07",
    updated := none,
    author := "shenfq",
    contributors := ["Shenfq"],
    categories := ["Node.js"],
    tags := ["Node", "Koa", "router", "路由"],
    excerpt := "koa-router koa-router应该是最常使用的koa的路由库，其源码比较简单，而且有十分详细的注释与使用案例。使用方式也比tj大神的koa-route要简洁。 如何使用koa-router 按照惯例，先看看koa-router的使用方法。 var Koa = requir...",
    cover := (some "https://file.shenfq.com/18-12-19/41366075.jpg") },
  { pagePath := "posts/2018/koa2源码解析.md",
    title := "koa2源码解析",
    link := "posts/2018/koa2源码解析.html",
    date := "2018/11/27",
    updated := none,
    author := "shenfq",
    contributors := ["Shenfq"],
    categories := ["Node.js"],
    tags := ["Node", "Koa", "中间件"],
    excerpt := "如何使用koa 在看koa2的源码之前，按照惯例先看看koa2的hello world的写法。 const Koa = require(\x27koa\x27); const app = new Koa(); // response app.use(ctx => \x7b ctx.body = \x27Hello Koa\x27; \x7d); app.listen(3000); 一开始就通过...",
    cover := (some "https://file.shenfq.com/18-12-19/81578504.jpg") },
  { pagePath := "posts/2018/前端业务组件化实践.md",
    title := "前端业务组件化实践",
    link := "posts/2018/前端业务组件化实践.html",
    date := "2018/10/23",
    updated := none,
    author := "shenfq",
    contributors := ["Shenfq"],
    categories := ["前端"],
    tags := ["前端", "组件化"],
    excerpt := "最近一直在做管理端相关的需求，管理端不比h5每天都有高流量，需要不断地做性能上的优化，以及适配不同设备兼容性。但是管理端也面临着自己的挑战，因为项目越来越大，可配置化的东西就越来越多，管理端的页面也就越多，同时面...",
    cover := (some "https://file.shenfq.com/18-12-19/84472576.jpg") },
  { pagePath := "posts/2018/ElementUI的构建流程.md",
    title := "ElementUI的构建流程",
    link := "posts/2018/ElementUI的构建流程.html",
    date := "2018/09/17",
    updated := none,
    author := "shenfq",
    contributors := ["Shenfq"],
    categories := ["前端"],
    tags := ["前端", "组件化", "工程化"],
    excerpt := "背景 最近一直在着手做一个与业务强相关的组件库，一直在思考要从哪里下手，怎么来设计这个组件库，因为业务上一直在使用ElementUI（以下简称Element），于是想参考了一下Element组件库的设计，看看Element构建方式，并且总结成...",
    cover := (some "https://file.shenfq.com/18-9-14/48784910.jpg") },
  { pagePath := "posts/2018/seajs源码解读.md",
    title := "seajs源码解读",
    link := "posts/2018/seajs源码解读.html",
    date := "2018/08/15",
    updated := none,
    author := "shenfq",
    contributors := ["Shenfq"],
    categories := ["模块化"],
    tags := ["模块化", "前端", "前端工程化"],
    excerpt := "近几年前端工程化越来越完善，打包工具也已经是前端标配了，像seajs这种老古董早已停止维护，而且使用的人估计也几个了。但这并不能阻止好奇的我，为了了解当年的前端前辈们是如何在浏览器进行代码模块化的，我鼓起勇气翻开了S...",
    cover := (some "https://file.shenfq.com/18-8-13/86590747.jpg") },
  { pagePath := "posts/2018/使用ESLint+Prettier来统一前端代码风格.md",
    title := "使用ESLint+Prettier来统一前端代码风格",
    link := "posts/2018/使用ESLint+Prettier来统一前端代码风格.html",
    date := "2018/06/18",
    updated := none,
    author := "shenfq",
    contributors := ["Shenfq"],
    categories := ["前端"],
    tags := ["前端", "代码格式化", "ESLint"],
    excerpt := "正文之前，先看个段子放松一下： 去死吧！你这个异教徒！ 想起自己刚入行的时候，从svn上把代码checkout下来，看到同事写的代码，大括号居然换行了。心中暗骂，这个人是不是个**，大括号为什么要换行？年轻气盛的我，居然满腔怒...",
    cover := (some "https://file.shenfq.com/18-6-18/90739745.jpg") },
  { pagePath := "posts/2018/webpack4初探.md",
    title := "webpack4初探",
    link := "posts/2018/webpack4初探.html",
    date := "2018/06/09",
    updated := none,
    author := "shenfq",
    contributors := ["Shenfq"],
    categories := ["前端工程"],
    tags := ["前端", "模块化", "前端工程化", "webpack"],
    excerpt := "一、前言 2018/2/25，webpack4正式发布，距离现在已经过去三个多月了，也逐渐趋于稳定，而且现在的最新版本都到了4.12.0（版本迭代快得真是让人害怕）。 很多人都说webpack复杂，难以理解，很大一部分原因是webpack是基于配置的...",
    cover := (some "//file.shenfq.com/18-6-9/66027398.jpg") },
  { pagePath := "posts/2018/git快速入门.md",
    title := "git快速入门",
    link := "posts/2018/git快速入门.html",
    date := "2018/04/17",
    updated := none,
    author := "shenfq",
    contributors := ["Shenfq"],
    categories := ["Git"],
    tags := ["git", "版本管理"],
    excerpt := "背景 git作为现在最为流行的版本管理系统，大部分公司都使用git进行版本控制， 并且最大同性交友网站github也是在git的基础上建立的。 很多人认为git难，在于它的一些概念与之前流行的集中化的版本管理系统有所出入， 只要通过...",
    cover := (some "//file.shenfq.com/18-4-14/34749597.jpg") },
  { pagePath := "posts/2018/RequireJS源码分析（下）.md",
    title := "RequireJS源码分析（下）",
    link := "posts/2018/RequireJS源码分析（下）.html",
    date := "2018/02/25",
    updated := none,
    author := "shenfq",
    contributors := ["Shenfq"],
    categories := ["模块化"],
    tags := ["模块化", "前端", "前端工程化"],
    excerpt := "这篇文章主要会讲述模块加载操作的主要流程，以及Module的主要功能。废话不多说，直接看代码吧。 模块加载使用方法： require.config(\x7b paths: \x7b jquery: \x27https://cdn.bootcss.com/jquery/3.2.1/jquery\x27 \x7d \x7d); require([\x27jque...",
    cover := none },
  { pagePath := "posts/2018/2017年终总结.md",
    title := "2017年终总结",
    link := "posts/2018/2017年终总结.html",
    date := "2018/01/07",
    updated := none,
    author := "shenfq",
    contributors := ["Shenfq"],
    categories := ["年终总结"],
    tags := ["生活", "工作", "感悟", "总结"],
    excerpt := "想想日子过得也快，2017年算是自己正式参加工作的一年。而且也是今年毕业，正式踏入社会。 17年2月来深圳找实习工作，碰壁也蛮多次，得到的结果都是基础很好，但是没经验，我们不要实习生，还有这简历不匹配工作年限直接就被刷...",
    cover := none },
  { pagePath := "posts/2017/RequireJS源码分析（上）.md",
    title := "RequireJS源码分析（上）",
    link := "posts/2017/RequireJS源码分析（上）.html",
    date := "2017/12/23",
    updated := none,
    author := "shenfq",
    contributors := ["Shenfq"],
    categories := ["模块化"],
    tags := ["模块化", "前端", "前端工程化"],
    excerpt := "requirejs作为AMD（Asynchronous Module Definition--异步的模块加载机制）规范的实现，还是有必要看看的。初识requirejs源码，必须先弄清楚requirejs的模块是如何定义的，并且要知道入口在哪个地方，如果清楚了调用方式，看源...",
    cover := (some "//file.shenfq.com/17-11-19/90660695.jpg") },
  { pagePath := "posts/2017/ES6模块.md",
    title := "【翻译】深入ES6模块",
    link := "posts/2017/ES6模块.html",
    date := "2017/11/13",
    updated := none,
    author := "shenfq",
    contributors := ["Shenfq"],
    categories := ["模块化"],
    tags := ["es6", "模块化", "前端"],
    excerpt := "回想2007年，那时候我刚加入Mozilla\x27s JavaScript团队，那时候的一个典型的JavaScript程序只需要一行代码，听起来像个笑话。 两年后，Google Maps发布。在这之前，JavaScript主要用来做表单的验证，你用来处理<input onchange=...",
    cover := none },
  { pagePath := "posts/2017/babel到底该如何配置？.md",
    title := "babel到底该如何配置？",
    link := "posts/2017/babel到底该如何配置？.html",
    date := "2017/10/22",
    updated := none,
    author := "shenfq",
    contributors := ["Shenfq"],
    categories := ["前端工程"],
    tags := ["es6", "babel", "前端"],
    excerpt := "背景 说起ES6，webpack，打包，模块化总是离不开babel，babel作为一个js的编译器已经被广泛使用。在babel的官网是这样介绍它的： 大家都知道js作为宿主语言，很依赖执行的环境（浏览器、node等），不同环境对js语法的支持不尽相...",
    cover := (some "//file.shenfq.com/17-10-16/10463136.jpg") },
  { pagePath := "posts/2017/JavaScript中this关键字.md",
    title := "JavaScript中this关键字",
    link := "posts/2017/JavaScript中this关键字.html",
    date := "2017/10/12",
    updated := none,
    author := "shenfq",
    contributors := ["Shenfq"],
    categories := ["前端"],
    tags := ["js基础", "this", "前端"],
    excerpt := "this一直是js中一个老生常谈的东西，但是我们究竟该如何来理解它呢？ 在《JavaScript高级程序设计》中，对this的解释是： 我们来逐字解读这句话： - this是一个对象 - this的产生与函数有关 - this与执行环境绑定 说通俗一点就...",
    cover := (some "//file.shenfq.com/17-10-12/25450020.jpg") },
  { pagePath := "posts/2017/linux下升级npm以及node.md",
    title := "linux下升级npm以及node",
    link := "posts/2017/linux下升级npm以及node.html",
    date := "2017/06/12",
    updated := none,
    author := "shenfq",
    contributors := ["Shenfq"],
    categories := ["Node.js"],
    tags := ["linux", "node", "npm", "前端"],
    excerpt := "npm升级 废话不多说，直接讲步骤。先从容易的开始，升级npm。 npm这款包管理工具虽然一直被人们诟病，很多人都推荐使用yarn，但其使用人数还是不见减少，况且npm都是随node同时安装好的，一时让我抛弃它，还是有点难做到。 npm...",
    cover := none },
  { pagePath := "posts/2017/Gulp入门指南.md",
    title := "Gulp入门指南",
    link := "posts/2017/Gulp入门指南.html",
    date := "2017/05/24",
    updated := none,
    author := "shenfq",
    contributors := ["Shenfq"],
    categories := ["前端工程"],
    tags := ["gulp", "前端构建工具", "前端"],
    excerpt := "为什么要写这篇博客？ 谈起为什么，其实就是想总结下这段时间做的工作。之前一直在用gulp，但是一直没有自己的思考，下了两个插件就开始了。这一次为公司的项目配置了一次gulp，尽可能多的考虑到了一些情况，比如本地开发调试时...",
    cover := none }]

/-- The index `blog.categories` (source lines 1129-1178), in source order. -/
def blogCategories : List IndexEntry := [
  ⟨"前端", 18⟩, ⟨"Node.js", 7⟩, ⟨"前端工程", 7⟩, ⟨"模块化", 6⟩,
  ⟨"年终总结", 3⟩, ⟨"机器学习", 3⟩, ⟨"微信小程序", 2⟩, ⟨"Git", 1⟩,
  ⟨"Promise", 1⟩, ⟨"VSCode", 1⟩, ⟨"其他", 1⟩, ⟨"随便写写", 1⟩]

/-- The index `blog.tags` (source lines 1179-1480), in source order. -/
def blogTags : List IndexEntry := [
  ⟨"前端", 23⟩, ⟨"前端框架", 11⟩, ⟨"前端工程化", 10⟩, ⟨"模块化", 8⟩,
  ⟨"JavaScript", 7⟩, ⟨"Vue.js", 7⟩, ⟨"Node", 6⟩, ⟨"React", 5⟩,
  ⟨"翻译", 5⟩, ⟨"工作", 4⟩, ⟨"总结", 4⟩, ⟨"感悟", 4⟩,
  ⟨"机器学习", 3⟩, ⟨"CommonJS", 2⟩, ⟨"es6", 2⟩, ⟨"ESLint", 2⟩,
  ⟨"Koa", 2⟩, ⟨"react", 2⟩, ⟨"webpack", 2⟩, ⟨"代码格式化", 2⟩,
  ⟨"前端模块化", 2⟩, ⟨"小程序", 2⟩, ⟨"微信小程序", 2⟩, ⟨"数学", 2⟩,
  ⟨"模板", 2⟩, ⟨"算法", 2⟩, ⟨"组件化", 2⟩, ⟨"编译", 2⟩,
  ⟨"AMD", 1⟩, ⟨"babel", 1⟩, ⟨"Buffer", 1⟩, ⟨"cluster", 1⟩,
  ⟨"CMD", 1⟩, ⟨"ES Module", 1⟩, ⟨"fastify", 1⟩, ⟨"fetch", 1⟩,
  ⟨"git", 1⟩, ⟨"gulp", 1⟩, ⟨"JSON", 1⟩, ⟨"js基础", 1⟩,
  ⟨"linux", 1⟩, ⟨"node", 1⟩, ⟨"npm", 1⟩, ⟨"Promise", 1⟩,
  ⟨"react hooks", 1⟩, ⟨"router", 1⟩, ⟨"Snabbdom", 1⟩, ⟨"Stream", 1⟩,
  ⟨"this", 1⟩, ⟨"TypeScript", 1⟩, ⟨"USB", 1⟩, ⟨"virtual dom", 1⟩,
  ⟨"VSCode", 1⟩, ⟨"Webpack", 1⟩, ⟨"中间件", 1⟩, ⟨"二进制", 1⟩,
  ⟨"依赖分析", 1⟩, ⟨"前端工具", 1⟩, ⟨"前端构建工具", 1⟩, ⟨"多进程", 1⟩,
  ⟨"工程化", 1⟩, ⟨"性能", 1⟩, ⟨"推荐系统", 1⟩, ⟨"泛型", 1⟩,
  ⟨"深度学习", 1⟩, ⟨"版本管理", 1⟩, ⟨"生活", 1⟩, ⟨"神经网络", 1⟩,
  ⟨"类型系统", 1⟩, ⟨"组件", 1⟩, ⟨"自动化测试", 1⟩, ⟨"虚拟 DOM", 1⟩,
  ⟨"虚拟DOM", 1⟩, ⟨"负载均衡", 1⟩, ⟨"路由", 1⟩]

/-- Field `blog` (source lines 41-1481). -/
def blog : Blog :=
  { isPost := true, posts := blogPosts, categories := blogCategories, tags := blogTags }

/-- The exported record. -/
structure PageRecord where
  config : JSObject
  pagePath : String
  layoutPath : String
  outputPath : String
  title : String
  content : RawElement
  head : List Element
  script : List Element
  contentTitle : Element
  contentBody : RawElement
  toc : RawElement
  author : String
  contributors : List String
  date : String
  updated : Option String
  excerpt : String
  cover : Option String
  categories : List String
  tags : List String
  blog : Blog

/-- The default export of the module, for the imported `projectConfig`. -/
def props (projectConfig : JSObject) : PageRecord :=
  { config := config projectConfig,
    pagePath := pagePath,
    layoutPath := layoutPath,
    outputPath := outputPath,
    title := title,
    content := content,
    head := head,
    script := script,
    contentTitle := contentTitle,
    contentBody := contentBody,
    toc := toc,
    author := author,
    contributors := contributors,
    date := date,
    updated := updated,
    excerpt := excerpt,
    cover := cover,
    categories := categories,
    tags := tags,
    blog := blog }

/-! ## Reading the record: paths, dates, markup -/

/-- The characters before a trailing `.md`; `none` when the text does not end in `.md`. -/
def stripMd : List Char → Option (List Char)
  | [] => none
  | c :: cs =>
    if c :: cs = ['.', 'm', 'd'] then some []
    else (stripMd cs).map (fun stem => c :: stem)

/-- The path with its trailing `.md` replaced by `.html`, every other character kept. -/
def htmlPathOf (path : String) : Option String :=
  (stripMd path.data).map (fun stem => String.mk (stem ++ ['.', 'h', 't', 'm', 'l']))

/-- Value of a decimal digit. -/
def digitVal (c : Char) : Option Nat :=
  if '0' ≤ c ∧ c ≤ '9' then some (c.toNat - '0'.toNat) else none

/-- Value of a run of decimal digits, most significant first, continuing from `acc`. -/
def digitsVal : List Char → Nat → Option Nat
  | [], acc => some acc
  | c :: cs, acc =>
    match digitVal c with
    | some d => digitsVal cs (10 * acc + d)
    | none => none

/-- A non-empty run of decimal digits read as a number; leading zeros are allowed. -/
def parseNat : List Char → Option Nat
  | [] => none
  | c :: cs => digitsVal (c :: cs) 0

/-- The parts of a text between its `/` separators. -/
def splitSlash : List Char → List (List Char)
  | [] => [[]]
  | c :: cs =>
    if c = '/' then [] :: splitSlash cs
    else
      match splitSlash cs with
      | [] => [[c]]
      | part :: parts => (c :: part) :: parts

/-- A calendar date as year, month, day. -/
structure CalDate where
  year : Nat
  month : Nat
  day : Nat
  deriving DecidableEq

/-- A date string `Y/M/D` read as three numbers. -/
def parseDate (s : String) : Option CalDate :=
  match splitSlash s.data with
  | [y, m, d] =>
    match parseNat y, parseNat m, parseNat d with
    | some yy, some mm, some dd => some ⟨yy, mm, dd⟩
    | _, _, _ => none
  | _ => none

/-- Calendar order: `a` is strictly before `b`. -/
def CalDate.before (a b : CalDate) : Bool :=
  decide (a.year < b.year ∨ (a.year = b.year ∧
    (a.month < b.month ∨ (a.month = b.month ∧ a.day < b.day))))

/-- Both strings are dates and the first is not before the second. -/
def dateNotBefore (s t : String) : Bool :=
  match parseDate s, parseDate t with
  | some a, some b => !(a.before b)
  | _, _ => false

/-- Every element stands in relation `r` to the element that follows it. -/
def adjacentAll {α : Type} (r : α → α → Bool) : List α → Bool
  | a :: b :: rest => r a b && adjacentAll r (b :: rest)
  | _ => true

/-- Text of an attribute value: the characters before the closing double quote. -/
def takeUntilQuote : List Char → List Char
  | [] => []
  | c :: cs => if c = '"' then [] else c :: takeUntilQuote cs

/-- The text after the prefix `pre`; `none` when the text does not start with `pre`. -/
def dropPrefix : List Char → List Char → Option (List Char)
  | [], cs => some cs
  | _ :: _, [] => none
  | p :: ps, c :: cs => if p = c then dropPrefix ps cs else none

/-- Value of the attribute `name="…"` in the rest of a start tag, read up to the closing `>`. -/
def tagAttr (name : List Char) : List Char → Option String
  | [] => none
  | c :: rest =>
    if c = '>' then none
    else if c = ' ' then
      match dropPrefix (name ++ ['=', '"']) rest with
      | some v => some (String.mk (takeUntilQuote v))
      | none => tagAttr name rest
    else tagAttr name rest

/-- The `id` of the heading start tag `<h1 …>` … `<h6 …>` that opens at the head of the text. -/
def headingIdAt : List Char → Option String
  | '<' :: 'h' :: n :: d :: tl =>
    if ('1' ≤ n ∧ n ≤ '6') ∧ (d = ' ' ∨ d = '>') then tagAttr ['i', 'd'] (d :: tl) else none
  | _ => none

/-- The `href` of the anchor start tag `<a …>` that opens at the head of the text. -/
def anchorHrefAt : List Char → Option String
  | '<' :: 'a' :: ' ' :: tl => tagAttr ['h', 'r', 'e', 'f'] (' ' :: tl)
  | _ => none

/-- The values `f` reads at the successive positions of a text, in document order. -/
def collect {α : Type} (f : List Char → Option α) : List Char → List α
  | [] => []
  | c :: rest =>
    match f (c :: rest) with
    | some v => v :: collect f rest
    | none => collect f rest

/-- The ids of the heading elements of a markup fragment, in document order. -/
def headingIds (e : RawElement) : List String := collect headingIdAt e.html.data

/-- The hrefs of the anchors of a markup fragment, in document order. -/
def anchorHrefs (e : RawElement) : List String := collect anchorHrefAt e.html.data

/-- The `x` of an href `#x`; `none` for an href that is not a fragment reference. -/
def fragmentOf (href : String) : Option String :=
  match href.data with
  | '#' :: x => some (String.mk x)
  | _ => none

/-- A bounded run of `collect`: reads at most `k` positions, pushing the values found on `acc`. -/
def collectChunk {α : Type} (f : List Char → Option α) :
    Nat → List Char → List α → List α × List Char
  | 0, cs, acc => (acc, cs)
  | _ + 1, [], acc => (acc, [])
  | k + 1, c :: rest, acc =>
    match f (c :: rest) with
    | some v => collectChunk f k rest (v :: acc)
    | none => collectChunk f k rest acc

/-- Runs `collect` in at most `n` chunks of `chunk` positions; `none` when the text is longer. -/
def collectChunks {α : Type} (f : List Char → Option α) (chunk : Nat) :
    Nat → List Char → List α → Option (List α)
  | 0, _, _ => none
  | n + 1, cs, acc =>
    match collectChunk f chunk cs acc with
    | (acc1, []) => some acc1.reverse
    | (acc1, c :: rest) => collectChunks f chunk n (c :: rest) acc1

/-! ## Reading the record: validity, elements, escapes -/

/-- Leap years of the Gregorian calendar. -/
def isLeapYear (y : Nat) : Bool :=
  (y % 4 == 0 && y % 100 != 0) || y % 400 == 0

/-- Number of days of a month of a year; `0` for a month outside 1..12. -/
def daysInMonth (y m : Nat) : Nat :=
  if m = 2 then (if isLeapYear y then 29 else 28)
  else if m = 4 ∨ m = 6 ∨ m = 9 ∨ m = 11 then 30
  else if 1 ≤ m ∧ m ≤ 12 then 31
  else 0

/-- The date names a day of the calendar. -/
def CalDate.valid (d : CalDate) : Bool :=
  decide (1 ≤ d.month ∧ d.month ≤ 12 ∧ 1 ≤ d.day ∧ d.day ≤ daysInMonth d.year d.month)

/-- The `updated` value is `null`, or a valid date string that is not before `date`. -/
def updatedOk (date : String) (updated : Option String) : Bool :=
  match updated with
  | none => true
  | some u =>
    match parseDate u, parseDate date with
    | some a, some b => a.valid && !(a.before b)
    | _, _ => false

/-- The path is not the empty string and does not begin with `/`. -/
def isRelativePath (path : String) : Bool :=
  match path.data with
  | [] => false
  | c :: _ => c != '/'

/-- Value of the prop `name` of an element. -/
def Element.attr (e : Element) (name : String) : Option String :=
  match e.props.find? (fun kv => kv.1 == name) with
  | some kv => some kv.2
  | none => none

/-- The reduction of the page record to a listing entry: `link` is the record's `outputPath`,
the other fields are the record's fields of the same name. -/
def summaryOfPage : PostSummary :=
  { pagePath := pagePath,
    title := title,
    link := outputPath,
    date := date,
    updated := updated,
    author := author,
    contributors := contributors,
    categories := categories,
    tags := tags,
    excerpt := excerpt,
    cover := cover }

/-- The text child of `contentTitle` as spelled in the source (line 17), escapes not decoded. -/
def contentTitleSource : String :=
  "Vue3 \\u6A21\\u677F\\u7F16\\u8BD1\\u4F18\\u5316"

/-- Value of a hexadecimal digit. -/
def hexVal (c : Char) : Option Nat :=
  if '0' ≤ c ∧ c ≤ '9' then some (c.toNat - '0'.toNat)
  else if 'a' ≤ c ∧ c ≤ 'f' then some (c.toNat - 'a'.toNat + 10)
  else if 'A' ≤ c ∧ c ≤ 'F' then some (c.toNat - 'A'.toNat + 10)
  else none

/-- The character a four-digit escape names. -/
def escapedChar (a b c d : Char) : Option Char :=
  match hexVal a, hexVal b, hexVal c, hexVal d with
  | some x, some y, some z, some w => some (Char.ofNat (4096 * x + 256 * y + 16 * z + w))
  | _, _, _, _ => none

/-- The character named by a `\uXXXX` escape that opens at the head of the text. -/
def escapeAt : List Char → Option Char
  | '\\' :: 'u' :: x :: y :: z :: w :: _ => escapedChar x y z w
  | _ => none

/-- Decodes a text after skipping `skip` characters, the rest of an escape already read. -/
def decodeFrom : Nat → List Char → List Char
  | _, [] => []
  | skip + 1, _ :: rest => decodeFrom skip rest
  | 0, c :: rest =>
    match escapeAt (c :: rest) with
    | some ch => ch :: decodeFrom 5 rest
    | none => c :: decodeFrom 0 rest

/-- Decodes the `\uXXXX` escapes of a text; every other character is kept. -/
def decodeEscapes (cs : List Char) : List Char := decodeFrom 0 cs

/-- The text after the first `>`: what follows the start tag the text is in. -/
def afterGt : List Char → List Char
  | [] => []
  | c :: rest => if c = '>' then rest else afterGt rest

/-- The text before the first occurrence of `close`. -/
def innerUntil (close : List Char) : List Char → List Char
  | [] => []
  | c :: rest =>
    match dropPrefix close (c :: rest) with
    | some _ => []
    | none => c :: innerUntil close rest

/-- The href and the link text of the anchor `<a … href="…">text</a>` that opens at the head
of the text. -/
def anchorAt : List Char → Option (String × String)
  | '<' :: 'a' :: ' ' :: tl =>
    match tagAttr ['h', 'r', 'e', 'f'] (' ' :: tl) with
    | some h => some (h, String.mk (innerUntil ['<', '/', 'a', '>'] (afterGt tl)))
    | none => none
  | _ => none

/-- An `h2` heading that carries an id: the id, the heading text (the text before the first
nested tag), and the markup between that text and `</h2>`. -/
structure Heading where
  id : String
  text : String
  rest : String
  deriving DecidableEq

/-- The `h2` heading with an id that opens at the head of the text. -/
def h2At : List Char → Option Heading
  | '<' :: 'h' :: '2' :: d :: tl =>
    if d = ' ' ∨ d = '>' then
      match tagAttr ['i', 'd'] (d :: tl) with
      | some i =>
        some ⟨i,
          String.mk ((innerUntil ['<', '/', 'h', '2', '>'] (afterGt (d :: tl))).takeWhile
            (fun c => c != '<')),
          String.mk ((innerUntil ['<', '/', 'h', '2', '>'] (afterGt (d :: tl))).dropWhile
            (fun c => c != '<'))⟩
      | none => none
    else none
  | _ => none

/-- The (href, link text) pairs of the anchors of a markup fragment, in document order. -/
def anchors (e : RawElement) : List (String × String) := collect anchorAt e.html.data

/-- The `h2` headings with an id of a markup fragment, in document order. -/
def h2Headings (e : RawElement) : List Heading := collect h2At e.html.data

/-- The permalink anchor that ends a rendered heading with the given id. -/
def permalink (id : String) : String :=
  "<a class=\"anchor\" href=\"#" ++ id ++ "\">§</a>"

/-- The characters of a list of pieces, one piece after the other. -/
def joinPieces : List String → List Char
  | [] => []
  | p :: ps => p.data ++ joinPieces ps

/-- The text is made of the given pieces, in order, and nothing more. -/
def matchPieces : List String → List Char → Bool
  | [], [] => true
  | [], _ :: _ => false
  | p :: ps, cs =>
    match dropPrefix p.data cs with
    | some rest => matchPieces ps rest
    | none => false

/-- The markup of `contentBody` cut into consecutive pieces of 512 characters (the last one shorter). -/
def contentBodyPieces : List String := [
  "<p>Vue3 正式发布已经有一段时间了，前段时间写了一篇文章（<a href=\"https://blog.shenfq.com/2020/vue-%E6%A8%A1%E6%9D%BF%E7%BC%96%E8%AF%91%E5%8E%9F%E7%90%86/\">《Vue 模板编译原理》</a>）分析 Vue 的模板编译原理。今天的文章打算学习下 Vue3 下的模板编译与 Vue2 下的差异，以及 VDOM 下 Diff 算法的优化。</p>\n<h2 id=\"%E7%BC%96%E8%AF%91%E5%85%A5%E5%8F%A3\">编译入口<a class=\"anchor\" href=\"#%E7%BC%96%E8%AF%91%E5%85%A5%E5%8F%A3\">§</a></h2>\n<p>了解过 Vue3 的同学肯定知道 Vue3 引入了新的组合 Api，在组件 <code>mount</code> 阶段会调用 <code>setup</code> 方法，之后会判断 <code>render</code> 方法是否存在，如果不存在会调用 <code>compile</code> 方法将 <code>temp",
  "late</code> 转化为 <code>render</code>。</p>\n<pre class=\"language-js\"><code class=\"language-js\"><span class=\"token comment\">// packages/runtime-core/src/renderer.ts</span>\n<span class=\"token keyword\">const</span> <span class=\"token function-variable function\">mountComponent</span> <span class=\"token operator\">=</span> <span class=\"token punctuation\">(</span><span class=\"token parameter\">initialVNode<span class=\"token punctuation\">,</span> container</span><span class=\"token punctuation\">)</span> <span class=\"tok",
  "en arrow operator\">=></span> <span class=\"token punctuation\">\x7b</span>\n  <span class=\"token keyword\">const</span> instance <span class=\"token operator\">=</span> <span class=\"token punctuation\">(</span>\n    initialVNode<span class=\"token punctuation\">.</span><span class=\"token property-access\">component</span> <span class=\"token operator\">=</span> <span class=\"token function\">createComponentInstance</span><span class=\"token punctuation\">(</span>\n      <span class=\"token comment\">// ...params</span>\n    <span ",
  "class=\"token punctuation\">)</span>\n  <span class=\"token punctuation\">)</span>\n  <span class=\"token comment\">// 调用 setup</span>\n  <span class=\"token function\">setupComponent</span><span class=\"token punctuation\">(</span>instance<span class=\"token punctuation\">)</span>\n<span class=\"token punctuation\">\x7d</span>\n\n<span class=\"token comment\">// packages/runtime-core/src/component.ts</span>\n<span class=\"token keyword\">let</span> compile\n<span class=\"token keyword module\">export</span> <span class=\"token keyword\">f",
  "unction</span> <span class=\"token function\">registerRuntimeCompiler</span><span class=\"token punctuation\">(</span><span class=\"token parameter\">_compile</span><span class=\"token punctuation\">)</span> <span class=\"token punctuation\">\x7b</span>\n  compile <span class=\"token operator\">=</span> _compile\n<span class=\"token punctuation\">\x7d</span>\n<span class=\"token keyword module\">export</span> <span class=\"token keyword\">function</span> <span class=\"token function\">setupComponent</span><span class=\"token punctuation",
  "\">(</span><span class=\"token parameter\">instance</span><span class=\"token punctuation\">)</span> <span class=\"token punctuation\">\x7b</span>\n  <span class=\"token keyword\">const</span> <span class=\"token maybe-class-name\">Component</span> <span class=\"token operator\">=</span> instance<span class=\"token punctuation\">.</span><span class=\"token property-access\">type</span>\n  <span class=\"token keyword\">const</span> <span class=\"token punctuation\">\x7b</span> setup <span class=\"token punctuation\">\x7d</span> <span class=\"",
  "token operator\">=</span> <span class=\"token maybe-class-name\">Component</span>\n  <span class=\"token keyword control-flow\">if</span> <span class=\"token punctuation\">(</span>setup<span class=\"token punctuation\">)</span> <span class=\"token punctuation\">\x7b</span>\n    <span class=\"token comment\">// ...调用 setup</span>\n  <span class=\"token punctuation\">\x7d</span>\n  <span class=\"token keyword control-flow\">if</span> <span class=\"token punctuation\">(</span>compile <span class=\"token operator\">&amp;&amp;</span> <span cl",
  "ass=\"token maybe-class-name\">Component</span><span class=\"token punctuation\">.</span><span class=\"token property-access\">template</span> <span class=\"token operator\">&amp;&amp;</span> <span class=\"token operator\">!</span><span class=\"token maybe-class-name\">Component</span><span class=\"token punctuation\">.</span><span class=\"token property-access\">render</span><span class=\"token punctuation\">)</span> <span class=\"token punctuation\">\x7b</span>\n    <span class=\"token comment\">// 如果没有 render 方法</span>\n    <span ",
  "class=\"token comment\">// 调用 compile 将 template 转为 render 方法</span>\n    <span class=\"token maybe-class-name\">Component</span><span class=\"token punctuation\">.</span><span class=\"token property-access\">render</span> <span class=\"token operator\">=</span> <span class=\"token function\">compile</span><span class=\"token punctuation\">(</span><span class=\"token maybe-class-name\">Component</span><span class=\"token punctuation\">.</span><span class=\"token property-access\">template</span><span class=\"token punctuation\">,",
  "</span> <span class=\"token punctuation\">\x7b</span><span class=\"token spread operator\">...</span><span class=\"token punctuation\">\x7d</span><span class=\"token punctuation\">)</span>\n  <span class=\"token punctuation\">\x7d</span>\n<span class=\"token punctuation\">\x7d</span>\n</code></pre>\n<p>这部分都是 runtime-core 中的代码，之前的文章有讲过 Vue 分为完整版和 runtime 版本。如果使用 <code>vue-loader</code> 处理 <code>.vue</code> 文件，一般都会将 <code>.vue</code> 文件中的 <code>template</code> 直接处理成 <code>render</code> 方法。</p>\n<pre class=\"language-js\"><code class=\"langu",
  "age-js\"><span class=\"token comment\">//  需要编译器</span>\n<span class=\"token maybe-class-name\">Vue</span><span class=\"token punctuation\">.</span><span class=\"token method function property-access\">createApp</span><span class=\"token punctuation\">(</span><span class=\"token punctuation\">\x7b</span>\n  template<span class=\"token operator\">:</span> <span class=\"token string\">\x27&lt;div>\x7b\x7b hi \x7d\x7d&lt;/div>\x27</span>\n<span class=\"token punctuation\">\x7d</span><span class=\"token punctuation\">)</span>\n\n<span class=\"token comment\">// ",
  "不需要</span>\n<span class=\"token maybe-class-name\">Vue</span><span class=\"token punctuation\">.</span><span class=\"token method function property-access\">createApp</span><span class=\"token punctuation\">(</span><span class=\"token punctuation\">\x7b</span>\n  <span class=\"token function\">render</span><span class=\"token punctuation\">(</span><span class=\"token punctuation\">)</span> <span class=\"token punctuation\">\x7b</span>\n    <span class=\"token keyword control-flow\">return</span> <span class=\"token maybe-class-name\">Vue",
  "</span><span class=\"token punctuation\">.</span><span class=\"token method function property-access\">h</span><span class=\"token punctuation\">(</span><span class=\"token string\">\x27div\x27</span><span class=\"token punctuation\">,</span> <span class=\"token punctuation\">\x7b</span><span class=\"token punctuation\">\x7d</span><span class=\"token punctuation\">,</span> <span class=\"token keyword\">this</span><span class=\"token punctuation\">.</span><span class=\"token property-access\">hi</span><span class=\"token punctuation\">)</span>",
  "\n  <span class=\"token punctuation\">\x7d</span>\n<span class=\"token punctuation\">\x7d</span><span class=\"token punctuation\">)</span>\n</code></pre>\n<p>完整版与 runtime 版的差异就是，完整版会引入 <code>compile</code> 方法，如果是 vue-cli 生成的项目就会抹去这部分代码，将 compile 过程都放到打包的阶段，以此优化性能。runtime-dom 中提供了 <code>registerRuntimeCompiler</code> 方法用于注入 <code>compile</code> 方法。</p>\n<p><img src=\"https://file.shenfq.com/pic/20201109144930.png\" alt=\"\"></p>\n<h2 id=\"%E4%B8%BB%E6%B5%81%E7%A8%8B\">主流程<a class=\"anchor\" href=\"#%E4%B8%BB%E6%B5%81%E7%A8%8B\">§</a></",
  "h2>\n<p>在完整版的 <code>index.js</code> 中，调用了  <code>registerRuntimeCompiler</code> 将 <code>compile</code> 进行注入，接下来我们看看注入的 <code>compile</code> 方法主要做了什么。</p>\n<pre class=\"language-js\"><code class=\"language-js\"><span class=\"token comment\">// packages/vue/src/index.ts</span>\n<span class=\"token keyword module\">import</span> <span class=\"token imports\"><span class=\"token punctuation\">\x7b</span> compile <span class=\"token punctuation\">\x7d</span></span> <span class=\"token keyword module\">from</span> <span class=\"token stri",
  "ng\">\x27@vue/compiler-dom\x27</span>\n\n<span class=\"token comment\">// 编译缓存</span>\n<span class=\"token keyword\">const</span> compileCache <span class=\"token operator\">=</span> <span class=\"token known-class-name class-name\">Object</span><span class=\"token punctuation\">.</span><span class=\"token method function property-access\">create</span><span class=\"token punctuation\">(</span><span class=\"token keyword null nil\">null</span><span class=\"token punctuation\">)</span>\n\n<span class=\"token comment\">// 注入 compile 方法</spa",
  "n>\n<span class=\"token keyword\">function</span> <span class=\"token function\">compileToFunction</span><span class=\"token punctuation\">(</span>\n  <span class=\"token comment\">// 模板</span>\n  template<span class=\"token operator\">:</span> string <span class=\"token operator\">|</span> <span class=\"token maybe-class-name\">HTMLElement</span><span class=\"token punctuation\">,</span>\n  <span class=\"token comment\">// 编译配置</span>\n  options<span class=\"token operator\">?</span><span class=\"token operator\">:</span> <span clas",
  "s=\"token maybe-class-name\">CompilerOptions</span>\n<span class=\"token punctuation\">)</span><span class=\"token operator\">:</span> <span class=\"token maybe-class-name\">RenderFunction</span> <span class=\"token punctuation\">\x7b</span>\n  <span class=\"token keyword control-flow\">if</span> <span class=\"token punctuation\">(</span><span class=\"token operator\">!</span><span class=\"token function\">isString</span><span class=\"token punctuation\">(</span>template<span class=\"token punctuation\">)</span><span class=\"token pun",
  "ctuation\">)</span> <span class=\"token punctuation\">\x7b</span>\n    <span class=\"token comment\">// 如果 template 不是字符串</span>\n    <span class=\"token comment\">// 则认为是一个 DOM 节点，获取 innerHTML</span>\n    <span class=\"token keyword control-flow\">if</span> <span class=\"token punctuation\">(</span>template<span class=\"token punctuation\">.</span><span class=\"token property-access\">nodeType</span><span class=\"token punctuation\">)</span> <span class=\"token punctuation\">\x7b</span>\n      template <span class=\"token operator\">=</",
  "span> template<span class=\"token punctuation\">.</span><span class=\"token property-access\">innerHTML</span>\n    <span class=\"token punctuation\">\x7d</span> <span class=\"token keyword control-flow\">else</span> <span class=\"token punctuation\">\x7b</span>\n      <span class=\"token keyword control-flow\">return</span> <span class=\"token constant\">NOOP</span>\n    <span class=\"token punctuation\">\x7d</span>\n  <span class=\"token punctuation\">\x7d</span>\n\n  <span class=\"token comment\">// 如果缓存中存在，直接从缓存中获取</span>\n  <span class=\"tok",
  "en keyword\">const</span> key <span class=\"token operator\">=</span> template\n  <span class=\"token keyword\">const</span> cached <span class=\"token operator\">=</span> compileCache<span class=\"token punctuation\">[</span>key<span class=\"token punctuation\">]</span>\n  <span class=\"token keyword control-flow\">if</span> <span class=\"token punctuation\">(</span>cached<span class=\"token punctuation\">)</span> <span class=\"token punctuation\">\x7b</span>\n    <span class=\"token keyword control-flow\">return</span> cached\n  <sp",
  "an class=\"token punctuation\">\x7d</span>\n\n  <span class=\"token comment\">// 如果是 ID 选择器，这获取 DOM 元素后，取 innerHTML</span>\n  <span class=\"token keyword control-flow\">if</span> <span class=\"token punctuation\">(</span>template<span class=\"token punctuation\">[</span><span class=\"token number\">0</span><span class=\"token punctuation\">]</span> <span class=\"token operator\">===</span> <span class=\"token string\">\x27#\x27</span><span class=\"token punctuation\">)</span> <span class=\"token punctuation\">\x7b</span>\n    <span class=\"token",
  " keyword\">const</span> el <span class=\"token operator\">=</span> <span class=\"token dom variable\">document</span><span class=\"token punctuation\">.</span><span class=\"token method function property-access\">querySelector</span><span class=\"token punctuation\">(</span>template<span class=\"token punctuation\">)</span>\n    template <span class=\"token operator\">=</span> el <span class=\"token operator\">?</span> el<span class=\"token punctuation\">.</span><span class=\"token property-access\">innerHTML</span> <span class=",
  "\"token operator\">:</span> <span class=\"token string\">\x27\x27</span>\n  <span class=\"token punctuation\">\x7d</span>\n\n  <span class=\"token comment\">// 调用 compile 获取 render code</span>\n  <span class=\"token keyword\">const</span> <span class=\"token punctuation\">\x7b</span> code <span class=\"token punctuation\">\x7d</span> <span class=\"token operator\">=</span> <span class=\"token function\">compile</span><span class=\"token punctuation\">(</span>\n    template<span class=\"token punctuation\">,</span>\n    options\n  <span class=\"token p",
  "unctuation\">)</span>\n\n  <span class=\"token comment\">// 将 render code 转化为 function</span>\n  <span class=\"token keyword\">const</span> render <span class=\"token operator\">=</span> <span class=\"token keyword\">new</span> <span class=\"token class-name\">Function</span><span class=\"token punctuation\">(</span>code<span class=\"token punctuation\">)</span><span class=\"token punctuation\">(</span><span class=\"token punctuation\">)</span><span class=\"token punctuation\">;</span>\n\n  <span class=\"token comment\">// 返回 render 方",
  "法的同时，将其放入缓存</span>\n  <span class=\"token keyword control-flow\">return</span> <span class=\"token punctuation\">(</span>compileCache<span class=\"token punctuation\">[</span>key<span class=\"token punctuation\">]</span> <span class=\"token operator\">=</span> render<span class=\"token punctuation\">)</span>\n<span class=\"token punctuation\">\x7d</span>\n\n<span class=\"token comment\">// 注入 compile</span>\n<span class=\"token function\">registerRuntimeCompiler</span><span class=\"token punctuation\">(</span>compileToFunction<span cl",
  "ass=\"token punctuation\">)</span>\n</code></pre>\n<p>在讲 Vue2 模板编译的时候已经讲过，<code>compile</code> 方法主要分为三步，Vue3 的逻辑类似：</p>\n<ol>\n<li>模板编译，将模板代码转化为 AST；</li>\n<li>优化 AST，方便后续虚拟 DOM 更新；</li>\n<li>生成代码，将 AST 转化为可执行的代码；</li>\n</ol>\n<pre class=\"language-js\"><code class=\"language-js\"><span class=\"token comment\">// packages/compiler-dom/src/index.ts</span>\n<span class=\"token keyword module\">import</span> <span class=\"token imports\"><span class=\"token punctuation\">\x7b</span> baseCompile<span class=\"token punctuation\">,</span> b",
  "aseParse <span class=\"token punctuation\">\x7d</span></span> <span class=\"token keyword module\">from</span> <span class=\"token string\">\x27@vue/compiler-core\x27</span>\n<span class=\"token keyword module\">export</span> <span class=\"token keyword\">function</span> <span class=\"token function\">compile</span><span class=\"token punctuation\">(</span><span class=\"token parameter\">template<span class=\"token punctuation\">,</span> options</span><span class=\"token punctuation\">)</span> <span class=\"token punctuation\">\x7b</span>\n  ",
  "<span class=\"token keyword control-flow\">return</span> <span class=\"token function\">baseCompile</span><span class=\"token punctuation\">(</span>template<span class=\"token punctuation\">,</span> options<span class=\"token punctuation\">)</span>\n<span class=\"token punctuation\">\x7d</span>\n\n<span class=\"token comment\">// packages/compiler-core/src/compile.ts</span>\n<span class=\"token keyword module\">import</span> <span class=\"token imports\"><span class=\"token punctuation\">\x7b</span> baseParse <span class=\"token punctuat",
  "ion\">\x7d</span></span> <span class=\"token keyword module\">from</span> <span class=\"token string\">\x27./parse\x27</span>\n<span class=\"token keyword module\">import</span> <span class=\"token imports\"><span class=\"token punctuation\">\x7b</span> transform <span class=\"token punctuation\">\x7d</span></span> <span class=\"token keyword module\">from</span> <span class=\"token string\">\x27./transform\x27</span>\n\n<span class=\"token keyword module\">import</span> <span class=\"token imports\"><span class=\"token punctuation\">\x7b</span> transformI",
  "f <span class=\"token punctuation\">\x7d</span></span> <span class=\"token keyword module\">from</span> <span class=\"token string\">\x27./transforms/vIf\x27</span>\n<span class=\"token keyword module\">import</span> <span class=\"token imports\"><span class=\"token punctuation\">\x7b</span> transformFor <span class=\"token punctuation\">\x7d</span></span> <span class=\"token keyword module\">from</span> <span class=\"token string\">\x27./transforms/vFor\x27</span>\n<span class=\"token keyword module\">import</span> <span class=\"token imports\"><span",
  " class=\"token punctuation\">\x7b</span> transformText <span class=\"token punctuation\">\x7d</span></span> <span class=\"token keyword module\">from</span> <span class=\"token string\">\x27./transforms/transformText\x27</span>\n<span class=\"token keyword module\">import</span> <span class=\"token imports\"><span class=\"token punctuation\">\x7b</span> transformElement <span class=\"token punctuation\">\x7d</span></span> <span class=\"token keyword module\">from</span> <span class=\"token string\">\x27./transforms/transformElement\x27</span>\n\n<span c",
  "lass=\"token keyword module\">import</span> <span class=\"token imports\"><span class=\"token punctuation\">\x7b</span> transformOn <span class=\"token punctuation\">\x7d</span></span> <span class=\"token keyword module\">from</span> <span class=\"token string\">\x27./transforms/vOn\x27</span>\n<span class=\"token keyword module\">import</span> <span class=\"token imports\"><span class=\"token punctuation\">\x7b</span> transformBind <span class=\"token punctuation\">\x7d</span></span> <span class=\"token keyword module\">from</span> <span class=\"t",
  "oken string\">\x27./transforms/vBind\x27</span>\n<span class=\"token keyword module\">import</span> <span class=\"token imports\"><span class=\"token punctuation\">\x7b</span> transformModel <span class=\"token punctuation\">\x7d</span></span> <span class=\"token keyword module\">from</span> <span class=\"token string\">\x27./transforms/vModel\x27</span>\n\n<span class=\"token keyword module\">export</span> <span class=\"token keyword\">function</span> <span class=\"token function\">baseCompile</span><span class=\"token punctuation\">(</span><span ",
  "class=\"token parameter\">template<span class=\"token punctuation\">,</span> options</span><span class=\"token punctuation\">)</span> <span class=\"token punctuation\">\x7b</span>\n  <span class=\"token comment\">// 解析 html，转化为 ast</span>\n  <span class=\"token keyword\">const</span> ast <span class=\"token operator\">=</span> <span class=\"token function\">baseParse</span><span class=\"token punctuation\">(</span>template<span class=\"token punctuation\">,</span> options<span class=\"token punctuation\">)</span>\n  <span class=\"token",
  " comment\">// 优化 ast，标记静态节点</span>\n  <span class=\"token function\">transform</span><span class=\"token punctuation\">(</span>ast<span class=\"token punctuation\">,</span> <span class=\"token punctuation\">\x7b</span>\n    <span class=\"token spread operator\">...</span>options<span class=\"token punctuation\">,</span>\n    nodeTransforms<span class=\"token operator\">:</span> <span class=\"token punctuation\">[</span>\n      transformIf<span class=\"token punctuation\">,</span>\n      transformFor<span class=\"token punctuation\">,</",
  "span>\n      transformText<span class=\"token punctuation\">,</span>\n      transformElement<span class=\"token punctuation\">,</span>\n      <span class=\"token comment\">// ... 省略了部分 transform</span>\n    <span class=\"token punctuation\">]</span><span class=\"token punctuation\">,</span>\n    directiveTransforms<span class=\"token operator\">:</span> <span class=\"token punctuation\">\x7b</span>\n      on<span class=\"token operator\">:</span> transformOn<span class=\"token punctuation\">,</span>\n      bind<span class=\"token opera",
  "tor\">:</span> transformBind<span class=\"token punctuation\">,</span>\n      model<span class=\"token operator\">:</span> transformModel\n    <span class=\"token punctuation\">\x7d</span>\n  <span class=\"token punctuation\">\x7d</span><span class=\"token punctuation\">)</span>\n  <span class=\"token comment\">// 将 ast 转化为可执行代码</span>\n  <span class=\"token keyword control-flow\">return</span> <span class=\"token function\">generate</span><span class=\"token punctuation\">(</span>ast<span class=\"token punctuation\">,</span> options<span",
  " class=\"token punctuation\">)</span>\n<span class=\"token punctuation\">\x7d</span>\n</code></pre>\n<h2 id=\"%E8%AE%A1%E7%AE%97-patchflag\">计算 PatchFlag<a class=\"anchor\" href=\"#%E8%AE%A1%E7%AE%97-patchflag\">§</a></h2>\n<p>这里大致的逻辑与之前的并没有多大的差异，主要是 <code>optimize</code> 方法变成了  <code>transform</code> 方法，而且默认会对一些模板语法进行 <code>transform</code>。这些 <code>transform</code> 就是后续虚拟 DOM 优化的关键，我们先看看 <code>transform</code> 的代码 。</p>\n<pre class=\"language-js\"><code class=\"language-js\"><span class=\"token comment\">// packages/compiler-cor",
  "e/src/transform.ts</span>\n<span class=\"token keyword module\">export</span> <span class=\"token keyword\">function</span> <span class=\"token function\">transform</span><span class=\"token punctuation\">(</span><span class=\"token parameter\">root<span class=\"token punctuation\">,</span> options</span><span class=\"token punctuation\">)</span> <span class=\"token punctuation\">\x7b</span>\n  <span class=\"token keyword\">const</span> context <span class=\"token operator\">=</span> <span class=\"token function\">createTransformCont",
  "ext</span><span class=\"token punctuation\">(</span>root<span class=\"token punctuation\">,</span> options<span class=\"token punctuation\">)</span>\n  <span class=\"token function\">traverseNode</span><span class=\"token punctuation\">(</span>root<span class=\"token punctuation\">,</span> context<span class=\"token punctuation\">)</span>\n<span class=\"token punctuation\">\x7d</span>\n<span class=\"token keyword module\">export</span> <span class=\"token keyword\">function</span> <span class=\"token function\">traverseNode</span><spa",
  "n class=\"token punctuation\">(</span><span class=\"token parameter\">node<span class=\"token punctuation\">,</span> context</span><span class=\"token punctuation\">)</span> <span class=\"token punctuation\">\x7b</span>\n  context<span class=\"token punctuation\">.</span><span class=\"token property-access\">currentNode</span> <span class=\"token operator\">=</span> node\n  <span class=\"token keyword\">const</span> <span class=\"token punctuation\">\x7b</span> nodeTransforms <span class=\"token punctuation\">\x7d</span> <span class=\"token",
  " operator\">=</span> context\n  <span class=\"token keyword\">const</span> exitFns <span class=\"token operator\">=</span> <span class=\"token punctuation\">[</span><span class=\"token punctuation\">]</span>\n  <span class=\"token keyword control-flow\">for</span> <span class=\"token punctuation\">(</span><span class=\"token keyword\">let</span> i <span class=\"token operator\">=</span> <span class=\"token number\">0</span><span class=\"token punctuation\">;</span> i <span class=\"token operator\">&lt;</span> nodeTransforms<span cl",
  "ass=\"token punctuation\">.</span><span class=\"token property-access\">length</span><span class=\"token punctuation\">;</span> i<span class=\"token operator\">++</span><span class=\"token punctuation\">)</span> <span class=\"token punctuation\">\x7b</span>\n    <span class=\"token comment\">// Transform 会返回一个退出函数，在处理完所有的子节点后再执行</span>\n    <span class=\"token keyword\">const</span> onExit <span class=\"token operator\">=</span> nodeTransforms<span class=\"token punctuation\">[</span>i<span class=\"token punctuation\">]</span><span c",
  "lass=\"token punctuation\">(</span>node<span class=\"token punctuation\">,</span> context<span class=\"token punctuation\">)</span>\n    <span class=\"token keyword control-flow\">if</span> <span class=\"token punctuation\">(</span>onExit<span class=\"token punctuation\">)</span> <span class=\"token punctuation\">\x7b</span>\n      <span class=\"token keyword control-flow\">if</span> <span class=\"token punctuation\">(</span><span class=\"token function\">isArray</span><span class=\"token punctuation\">(</span>onExit<span class=\"toke",
  "n punctuation\">)</span><span class=\"token punctuation\">)</span> <span class=\"token punctuation\">\x7b</span>\n        exitFns<span class=\"token punctuation\">.</span><span class=\"token method function property-access\">push</span><span class=\"token punctuation\">(</span><span class=\"token spread operator\">...</span>onExit<span class=\"token punctuation\">)</span>\n      <span class=\"token punctuation\">\x7d</span> <span class=\"token keyword control-flow\">else</span> <span class=\"token punctuation\">\x7b</span>\n        exitFns",
  "<span class=\"token punctuation\">.</span><span class=\"token method function property-access\">push</span><span class=\"token punctuation\">(</span>onExit<span class=\"token punctuation\">)</span>\n      <span class=\"token punctuation\">\x7d</span>\n    <span class=\"token punctuation\">\x7d</span>\n  <span class=\"token punctuation\">\x7d</span>\n  <span class=\"token function\">traverseChildren</span><span class=\"token punctuation\">(</span>node<span class=\"token punctuation\">,</span> context<span class=\"token punctuation\">)</span>\n",
  "  context<span class=\"token punctuation\">.</span><span class=\"token property-access\">currentNode</span> <span class=\"token operator\">=</span> node\n  <span class=\"token comment\">// 执行所以 Transform 的退出函数</span>\n  <span class=\"token keyword\">let</span> i <span class=\"token operator\">=</span> exitFns<span class=\"token punctuation\">.</span><span class=\"token property-access\">length</span>\n  <span class=\"token keyword control-flow\">while</span> <span class=\"token punctuation\">(</span>i<span class=\"token operator\">",
  "--</span><span class=\"token punctuation\">)</span> <span class=\"token punctuation\">\x7b</span>\n    exitFns<span class=\"token punctuation\">[</span>i<span class=\"token punctuation\">]</span><span class=\"token punctuation\">(</span><span class=\"token punctuation\">)</span>\n  <span class=\"token punctuation\">\x7d</span>\n<span class=\"token punctuation\">\x7d</span>\n</code></pre>\n<p>我们重点看一下 <code>transformElement</code> 的逻辑：</p>\n<pre class=\"language-js\"><code class=\"language-js\"><span class=\"token comment\">// packages/compiler-",
  "core/src/transforms/transformElement.ts</span>\n<span class=\"token keyword module\">export</span> <span class=\"token keyword\">const</span> transformElement<span class=\"token operator\">:</span> <span class=\"token function-variable function\"><span class=\"token maybe-class-name\">NodeTransform</span></span> <span class=\"token operator\">=</span> <span class=\"token punctuation\">(</span><span class=\"token parameter\">node<span class=\"token punctuation\">,</span> context</span><span class=\"token punctuation\">)</span> <",
  "span class=\"token arrow operator\">=></span> <span class=\"token punctuation\">\x7b</span>\n  <span class=\"token comment\">// transformElement 没有执行任何逻辑，而是直接返回了一个退出函数</span>\n  <span class=\"token comment\">// 说明 transformElement 需要等所有的子节点处理完后才执行</span>\n  <span class=\"token keyword control-flow\">return</span> <span class=\"token keyword\">function</span> <span class=\"token function\">postTransformElement</span><span class=\"token punctuation\">(</span><span class=\"token punctuation\">)</span> <span class=\"token punctuation\">",
  "\x7b</span>\n    <span class=\"token keyword\">const</span> <span class=\"token punctuation\">\x7b</span> tag<span class=\"token punctuation\">,</span> props <span class=\"token punctuation\">\x7d</span> <span class=\"token operator\">=</span> node\n\n    <span class=\"token keyword\">let</span> vnodeProps\n    <span class=\"token keyword\">let</span> vnodePatchFlag\n    <span class=\"token keyword\">const</span> vnodeTag <span class=\"token operator\">=</span> node<span class=\"token punctuation\">.</span><span class=\"token property-access",
  "\">tagType</span> <span class=\"token operator\">===</span> <span class=\"token maybe-class-name\">ElementTypes</span><span class=\"token punctuation\">.</span><span class=\"token constant\">COMPONENT</span>\n      <span class=\"token operator\">?</span> <span class=\"token function\">resolveComponentType</span><span class=\"token punctuation\">(</span>node<span class=\"token punctuation\">,</span> context<span class=\"token punctuation\">)</span>\n      <span class=\"token operator\">:</span> <span class=\"token template-string\">",
  "<span class=\"token template-punctuation string\">\x60</span><span class=\"token string\">\"</span><span class=\"token interpolation\"><span class=\"token interpolation-punctuation punctuation\">$\x7b</span>tag<span class=\"token interpolation-punctuation punctuation\">\x7d</span></span><span class=\"token string\">\"</span><span class=\"token template-punctuation string\">\x60</span></span>\n    \n    <span class=\"token keyword\">let</span> patchFlag <span class=\"token operator\">=</span> <span class=\"token number\">0</span>\n    <span cla",
  "ss=\"token comment\">// 检测节点属性</span>\n    <span class=\"token keyword control-flow\">if</span> <span class=\"token punctuation\">(</span>props<span class=\"token punctuation\">.</span><span class=\"token property-access\">length</span> <span class=\"token operator\">></span> <span class=\"token number\">0</span><span class=\"token punctuation\">)</span> <span class=\"token punctuation\">\x7b</span>\n      <span class=\"token comment\">// 检测节点属性的动态部分</span>\n      <span class=\"token keyword\">const</span> propsBuildResult <span class",
  "=\"token operator\">=</span> <span class=\"token function\">buildProps</span><span class=\"token punctuation\">(</span>node<span class=\"token punctuation\">,</span> context<span class=\"token punctuation\">)</span>\n      vnodeProps <span class=\"token operator\">=</span> propsBuildResult<span class=\"token punctuation\">.</span><span class=\"token property-access\">props</span>\n      patchFlag <span class=\"token operator\">=</span> propsBuildResult<span class=\"token punctuation\">.</span><span class=\"token property-access\">",
  "patchFlag</span>\n    <span class=\"token punctuation\">\x7d</span>\n\n    <span class=\"token comment\">// 检测子节点</span>\n    <span class=\"token keyword control-flow\">if</span> <span class=\"token punctuation\">(</span>node<span class=\"token punctuation\">.</span><span class=\"token property-access\">children</span><span class=\"token punctuation\">.</span><span class=\"token property-access\">length</span> <span class=\"token operator\">></span> <span class=\"token number\">0</span><span class=\"token punctuation\">)</span> <span c",
  "lass=\"token punctuation\">\x7b</span>\n      <span class=\"token keyword control-flow\">if</span> <span class=\"token punctuation\">(</span>node<span class=\"token punctuation\">.</span><span class=\"token property-access\">children</span><span class=\"token punctuation\">.</span><span class=\"token property-access\">length</span> <span class=\"token operator\">===</span> <span class=\"token number\">1</span><span class=\"token punctuation\">)</span> <span class=\"token punctuation\">\x7b</span>\n        <span class=\"token keyword\">con",
  "st</span> child <span class=\"token operator\">=</span> node<span class=\"token punctuation\">.</span><span class=\"token property-access\">children</span><span class=\"token punctuation\">[</span><span class=\"token number\">0</span><span class=\"token punctuation\">]</span>\n        <span class=\"token comment\">// 检测子节点是否为动态文本</span>\n        <span class=\"token keyword control-flow\">if</span> <span class=\"token punctuation\">(</span><span class=\"token operator\">!</span><span class=\"token function\">getStaticType</span><sp",
  "an class=\"token punctuation\">(</span>child<span class=\"token punctuation\">)</span><span class=\"token punctuation\">)</span> <span class=\"token punctuation\">\x7b</span>\n          patchFlag <span class=\"token operator\">|=</span> <span class=\"token maybe-class-name\">PatchFlags</span><span class=\"token punctuation\">.</span><span class=\"token constant\">TEXT</span>\n        <span class=\"token punctuation\">\x7d</span>\n      <span class=\"token punctuation\">\x7d</span>\n    <span class=\"token punctuation\">\x7d</span>\n\n    <span cl",
  "ass=\"token comment\">// 格式化 patchFlag</span>\n    <span class=\"token keyword control-flow\">if</span> <span class=\"token punctuation\">(</span>patchFlag <span class=\"token operator\">!==</span> <span class=\"token number\">0</span><span class=\"token punctuation\">)</span> <span class=\"token punctuation\">\x7b</span>\n        vnodePatchFlag <span class=\"token operator\">=</span> <span class=\"token known-class-name class-name\">String</span><span class=\"token punctuation\">(</span>patchFlag<span class=\"token punctuation\">)</",
  "span>\n    <span class=\"token punctuation\">\x7d</span>\n\n    node<span class=\"token punctuation\">.</span><span class=\"token property-access\">codegenNode</span> <span class=\"token operator\">=</span> <span class=\"token function\">createVNodeCall</span><span class=\"token punctuation\">(</span>\n      context<span class=\"token punctuation\">,</span>\n      vnodeTag<span class=\"token punctuation\">,</span>\n      vnodeProps<span class=\"token punctuation\">,</span>\n      vnodeChildren<span class=\"token punctuation\">,</span>\n ",
  "     vnodePatchFlag\n    <span class=\"token punctuation\">)</span>\n  <span class=\"token punctuation\">\x7d</span>\n<span class=\"token punctuation\">\x7d</span>\n</code></pre>\n<p><code>buildProps</code> 会对节点的属性进行一次遍历，由于内部源码涉及很多其他的细节，这里的代码是经过简化之后的，只保留了 <code>patchFlag</code> 相关的逻辑。</p>\n<pre class=\"language-js\"><code class=\"language-js\"><span class=\"token keyword module\">export</span> <span class=\"token keyword\">function</span> <span class=\"token function\">buildProps</span><span class=\"token punctuation\">(</span>\n  node<s",
  "pan class=\"token operator\">:</span> <span class=\"token maybe-class-name\">ElementNode</span><span class=\"token punctuation\">,</span>\n  context<span class=\"token operator\">:</span> <span class=\"token maybe-class-name\">TransformContext</span><span class=\"token punctuation\">,</span>\n  props<span class=\"token operator\">:</span> <span class=\"token maybe-class-name\">ElementNode</span><span class=\"token punctuation\">[</span><span class=\"token string\">\x27props\x27</span><span class=\"token punctuation\">]</span> <span clas",
  "s=\"token operator\">=</span> node<span class=\"token punctuation\">.</span><span class=\"token property-access\">props</span>\n<span class=\"token punctuation\">)</span> <span class=\"token punctuation\">\x7b</span>\n  <span class=\"token keyword\">let</span> patchFlag <span class=\"token operator\">=</span> <span class=\"token number\">0</span>\n  <span class=\"token keyword control-flow\">for</span> <span class=\"token punctuation\">(</span><span class=\"token keyword\">let</span> i <span class=\"token operator\">=</span> <span class",
  "=\"token number\">0</span><span class=\"token punctuation\">;</span> i <span class=\"token operator\">&lt;</span> props<span class=\"token punctuation\">.</span><span class=\"token property-access\">length</span><span class=\"token punctuation\">;</span> i<span class=\"token operator\">++</span><span class=\"token punctuation\">)</span> <span class=\"token punctuation\">\x7b</span>\n    <span class=\"token keyword\">const</span> prop <span class=\"token operator\">=</span> props<span class=\"token punctuation\">[</span>i<span class=\"t",
  "oken punctuation\">]</span>\n    <span class=\"token keyword\">const</span> <span class=\"token punctuation\">[</span>key<span class=\"token punctuation\">,</span> name<span class=\"token punctuation\">]</span> <span class=\"token operator\">=</span> prop<span class=\"token punctuation\">.</span><span class=\"token property-access\">name</span><span class=\"token punctuation\">.</span><span class=\"token method function property-access\">split</span><span class=\"token punctuation\">(</span><span class=\"token string\">\x27:\x27</span><",
  "span class=\"token punctuation\">)</span>\n    <span class=\"token keyword control-flow\">if</span> <span class=\"token punctuation\">(</span>key <span class=\"token operator\">===</span> <span class=\"token string\">\x27v-bind\x27</span> <span class=\"token operator\">||</span> key <span class=\"token operator\">===</span> <span class=\"token string\">\x27\x27</span><span class=\"token punctuation\">)</span> <span class=\"token punctuation\">\x7b</span>\n      <span class=\"token keyword control-flow\">if</span> <span class=\"token punctuation\">",
  "(</span>name <span class=\"token operator\">===</span> <span class=\"token string\">\x27class\x27</span><span class=\"token punctuation\">)</span> <span class=\"token punctuation\">\x7b</span>\n        <span class=\"token comment\">// 如果包含 :class 属性，patchFlag | CLASS</span>\n        patchFlag <span class=\"token operator\">|=</span> <span class=\"token maybe-class-name\">PatchFlags</span><span class=\"token punctuation\">.</span><span class=\"token constant\">CLASS</span>\n      <span class=\"token punctuation\">\x7d</span> <span class=\"toke",
  "n keyword control-flow\">else</span> <span class=\"token keyword control-flow\">if</span> <span class=\"token punctuation\">(</span>name <span class=\"token operator\">===</span> <span class=\"token string\">\x27style\x27</span><span class=\"token punctuation\">)</span> <span class=\"token punctuation\">\x7b</span>\n        <span class=\"token comment\">// 如果包含 :style 属性，patchFlag | STYLE</span>\n        patchFlag <span class=\"token operator\">|=</span> <span class=\"token maybe-class-name\">PatchFlags</span><span class=\"token punctuat",
  "ion\">.</span><span class=\"token constant\">STYLE</span>\n      <span class=\"token punctuation\">\x7d</span>\n    <span class=\"token punctuation\">\x7d</span>\n  <span class=\"token punctuation\">\x7d</span>\n\n  <span class=\"token keyword control-flow\">return</span> <span class=\"token punctuation\">\x7b</span>\n    patchFlag\n  <span class=\"token punctuation\">\x7d</span>\n<span class=\"token punctuation\">\x7d</span>\n</code></pre>\n<p>上面的代码只展示了三种 <code>patchFlag</code> 的类型：</p>\n<ul>\n<li><strong>节点只有一个文本子节点，且该文本包含动态的数据</strong>（<code>TEXT = 1",
  "</code>）</li>\n</ul>\n<pre class=\"language-html\"><code class=\"language-html\"><span class=\"token tag\"><span class=\"token tag\"><span class=\"token punctuation\">&lt;</span>p</span><span class=\"token punctuation\">></span></span>name: \x7b\x7bname\x7d\x7d<span class=\"token tag\"><span class=\"token tag\"><span class=\"token punctuation\">&lt;/</span>p</span><span class=\"token punctuation\">></span></span>\n</code></pre>\n<ul>\n<li><strong>节点包含可变的 class 属性</strong>（<code>CLASS = 1 &lt;&lt; 1</code>）</li>\n</ul>\n<pre class=\"language-html\"",
  "><code class=\"language-html\"><span class=\"token tag\"><span class=\"token tag\"><span class=\"token punctuation\">&lt;</span>div</span> <span class=\"token attr-name\">:class</span><span class=\"token attr-value\"><span class=\"token punctuation attr-equals\">=</span><span class=\"token punctuation\">\"</span>\x7b active: isActive \x7d<span class=\"token punctuation\">\"</span></span><span class=\"token punctuation\">></span></span><span class=\"token tag\"><span class=\"token tag\"><span class=\"token punctuation\">&lt;/</span>div</span",
  "><span class=\"token punctuation\">></span></span>\n</code></pre>\n<ul>\n<li><strong>节点包含可变的 style 属性</strong>（<code>STYLE = 1 &lt;&lt; 2</code>）</li>\n</ul>\n<pre class=\"language-html\"><code class=\"language-html\"><span class=\"token tag\"><span class=\"token tag\"><span class=\"token punctuation\">&lt;</span>div</span> <span class=\"token attr-name\">:</span><span class=\"token style-attr language-css\"><span class=\"token attr-name\"><span class=\"token attr-name\">style</span></span><span class=\"token punctuation\">=\"</span><",
  "span class=\"token attr-value\"><span class=\"token punctuation\">\x7b</span> <span class=\"token property\">color</span><span class=\"token punctuation\">:</span> color <span class=\"token punctuation\">\x7d</span></span><span class=\"token punctuation\">\"</span></span><span class=\"token punctuation\">></span></span><span class=\"token tag\"><span class=\"token tag\"><span class=\"token punctuation\">&lt;/</span>div</span><span class=\"token punctuation\">></span></span>\n</code></pre>\n<p>可以看到 PatchFlags 都是数字 <code>1</code> 经过 <stron",
  "g>左移操作符</strong> 计算得到的。</p>\n<pre class=\"language-js\"><code class=\"language-js\"><span class=\"token keyword module\">export</span> <span class=\"token keyword\">const</span> <span class=\"token keyword\">enum</span> <span class=\"token maybe-class-name\">PatchFlags</span> <span class=\"token punctuation\">\x7b</span>\n  <span class=\"token constant\">TEXT</span> <span class=\"token operator\">=</span> <span class=\"token number\">1</span><span class=\"token punctuation\">,</span>             <span class=\"token comment\">// 1, 二进制 ",
  "0000 0001</span>\n  <span class=\"token constant\">CLASS</span> <span class=\"token operator\">=</span> <span class=\"token number\">1</span> <span class=\"token operator\">&lt;&lt;</span> <span class=\"token number\">1</span><span class=\"token punctuation\">,</span>       <span class=\"token comment\">// 2, 二进制 0000 0010</span>\n  <span class=\"token constant\">STYLE</span> <span class=\"token operator\">=</span> <span class=\"token number\">1</span> <span class=\"token operator\">&lt;&lt;</span> <span class=\"token number\">2</sp",
  "an><span class=\"token punctuation\">,</span>       <span class=\"token comment\">// 4, 二进制 0000 0100</span>\n  <span class=\"token constant\">PROPS</span> <span class=\"token operator\">=</span> <span class=\"token number\">1</span> <span class=\"token operator\">&lt;&lt;</span> <span class=\"token number\">3</span><span class=\"token punctuation\">,</span>       <span class=\"token comment\">// 8, 二进制 0000 1000</span>\n  <span class=\"token spread operator\">...</span>\n<span class=\"token punctuation\">\x7d</span>\n</code></pre>\n<p>",
  "从上面的代码能看出来，<code>patchFlag</code> 的初始值为 0，每次对 <code>patchFlag</code> 都是执行 <code>|</code> （或）操作。如果当前节点是一个只有动态文本子节点且同时具有动态 style 属性，最后得到的 <code>patchFlag</code> 为 5（<code>二进制：0000 0101</code>）。</p>\n<pre class=\"language-js\"><code class=\"language-js\"><span class=\"token operator\">&lt;</span>p <span class=\"token operator\">:</span>style<span class=\"token operator\">=</span><span class=\"token string\">\"\x7b color: color \x7d\"</span><span class=\"token operator\">></span>name<span class=\"token operator\">:</span> <span class=\"",
  "token punctuation\">\x7b</span><span class=\"token punctuation\">\x7b</span>name<span class=\"token punctuation\">\x7d</span><span class=\"token punctuation\">\x7d</span><span class=\"token operator\">&lt;</span><span class=\"token operator\">/</span>p<span class=\"token operator\">></span>\n</code></pre>\n<pre class=\"language-js\"><code class=\"language-js\">patchFlag <span class=\"token operator\">=</span> <span class=\"token number\">0</span>\npatchFlag <span class=\"token operator\">|=</span> <span class=\"token maybe-class-name\">PatchFlags",
  "</span><span class=\"token punctuation\">.</span><span class=\"token constant\">STYLE</span>\npatchFlag <span class=\"token operator\">|=</span> <span class=\"token maybe-class-name\">PatchFlags</span><span class=\"token punctuation\">.</span><span class=\"token constant\">TEXT</span>\n<span class=\"token comment\">// 或运算：两个对应的二进制位中只要一个是1，结果对应位就是1。</span>\n<span class=\"token comment\">// 0000 0001</span>\n<span class=\"token comment\">// 0000 0100</span>\n<span class=\"token comment\">// ------------</span>\n<span class=\"token comm",
  "ent\">// 0000 0101  =>  十进制 5</span>\n</code></pre>\n<p><img src=\"https://file.shenfq.com/pic/20201111135121.png\" alt=\"patchFlag\"></p>\n<p>我们将上面的代码放到 Vue3 中运行：</p>\n<pre class=\"language-js\"><code class=\"language-js\"><span class=\"token keyword\">const</span> app <span class=\"token operator\">=</span> <span class=\"token maybe-class-name\">Vue</span><span class=\"token punctuation\">.</span><span class=\"token method function property-access\">createApp</span><span class=\"token punctuation\">(</span><span class=\"token punc",
  "tuation\">\x7b</span>\n  <span class=\"token function\">data</span><span class=\"token punctuation\">(</span><span class=\"token punctuation\">)</span> <span class=\"token punctuation\">\x7b</span>\n    <span class=\"token keyword control-flow\">return</span> <span class=\"token punctuation\">\x7b</span>\n      color<span class=\"token operator\">:</span> <span class=\"token string\">\x27red\x27</span><span class=\"token punctuation\">,</span>\n      name<span class=\"token operator\">:</span> <span class=\"token string\">\x27shenfq\x27</span>\n    <span ",
  "class=\"token punctuation\">\x7d</span>\n  <span class=\"token punctuation\">\x7d</span><span class=\"token punctuation\">,</span>\n  template<span class=\"token operator\">:</span> <span class=\"token template-string\"><span class=\"token template-punctuation string\">\x60</span><span class=\"token string\">&lt;div>\n    &lt;p :style=\"\x7b color: color \x7d\">name: \x7b\x7bname\x7d\x7d&lt;/p>\n  &lt;/div></span><span class=\"token template-punctuation string\">\x60</span></span>\n<span class=\"token punctuation\">\x7d</span><span class=\"token punctuation\">)</spa",
  "n>\n\napp<span class=\"token punctuation\">.</span><span class=\"token method function property-access\">mount</span><span class=\"token punctuation\">(</span><span class=\"token string\">\x27#app\x27</span><span class=\"token punctuation\">)</span>\n</code></pre>\n<p>最后生成的 <code>render</code> 方法如下，和我们之前的描述基本一致。</p>\n<p><img src=\"https://file.shenfq.com/pic/20201111135707.png\" alt=\"function render() \x7b\x7d\"></p>\n<h2 id=\"render-%E4%BC%98%E5%8C%96\">render 优化<a class=\"anchor\" href=\"#render-%E4%BC%98%E5%8C%96\">§</a></h2>\n<p>Vue3 在虚拟 DO",
  "M Diff 时，会取出 <code>patchFlag</code> 和需要进行的 diff 类型进行 <code>&amp;</code>（与）操作，如果结果为 true 才进入对应的 diff。</p>\n<p><img src=\"https://file.shenfq.com/pic/20201111140613.png\" alt=\"patchFlag 判断\"></p>\n<p>还是拿之前的模板举例：</p>\n<pre class=\"language-html\"><code class=\"language-html\"><span class=\"token tag\"><span class=\"token tag\"><span class=\"token punctuation\">&lt;</span>p</span> <span class=\"token attr-name\">:</span><span class=\"token style-attr language-css\"><span class=\"token attr-name\"><span class=\"token attr-name\">style<",
  "/span></span><span class=\"token punctuation\">=\"</span><span class=\"token attr-value\"><span class=\"token punctuation\">\x7b</span> <span class=\"token property\">color</span><span class=\"token punctuation\">:</span> color <span class=\"token punctuation\">\x7d</span></span><span class=\"token punctuation\">\"</span></span><span class=\"token punctuation\">></span></span>name: \x7b\x7bname\x7d\x7d<span class=\"token tag\"><span class=\"token tag\"><span class=\"token punctuation\">&lt;/</span>p</span><span class=\"token punctuation\">></span></s",
  "pan>\n</code></pre>\n<p>如果此时的 name 发生了修改，p 节点进入了 diff 阶段，此时会将判断 <code>patchFlag &amp; PatchFlags.TEXT</code> ，这个时候结果为真，表明 p 节点存在文本修改的情况。</p>\n<p><img src=\"https://file.shenfq.com/pic/20201111141501.png\" alt=\"patchFlag\"></p>\n<pre class=\"language-js\"><code class=\"language-js\">patchFlag <span class=\"token operator\">=</span> <span class=\"token number\">5</span>\npatchFlag <span class=\"token operator\">&amp;</span> <span class=\"token maybe-class-name\">PatchFlags</span><span class=\"token punctuation\">.</span><span clas",
  "s=\"token constant\">TEXT</span>\n<span class=\"token comment\">// 或运算：只有对应的两个二进位都为1时，结果位才为1。</span>\n<span class=\"token comment\">// 0000 0101</span>\n<span class=\"token comment\">// 0000 0001</span>\n<span class=\"token comment\">// ------------</span>\n<span class=\"token comment\">// 0000 0001  =>  十进制 1</span>\n</code></pre>\n<pre class=\"language-js\"><code class=\"language-js\"><span class=\"token keyword control-flow\">if</span> <span class=\"token punctuation\">(</span>patchFlag <span class=\"token operator\">&amp;</span> <s",
  "pan class=\"token maybe-class-name\">PatchFlags</span><span class=\"token punctuation\">.</span><span class=\"token constant\">TEXT</span><span class=\"token punctuation\">)</span> <span class=\"token punctuation\">\x7b</span>\n  <span class=\"token keyword control-flow\">if</span> <span class=\"token punctuation\">(</span>oldNode<span class=\"token punctuation\">.</span><span class=\"token property-access\">children</span> <span class=\"token operator\">!==</span> newNode<span class=\"token punctuation\">.</span><span class=\"token ",
  "property-access\">children</span><span class=\"token punctuation\">)</span> <span class=\"token punctuation\">\x7b</span>\n    <span class=\"token comment\">// 修改文本</span>\n    <span class=\"token function\">hostSetElementText</span><span class=\"token punctuation\">(</span>el<span class=\"token punctuation\">,</span> newNode<span class=\"token punctuation\">.</span><span class=\"token property-access\">children</span><span class=\"token punctuation\">)</span>\n  <span class=\"token punctuation\">\x7d</span>\n<span class=\"token punctuati",
  "on\">\x7d</span>\n</code></pre>\n<p>但是进行  <code>patchFlag &amp; PatchFlags.CLASS</code> 判断时，由于节点并没有动态 Class，返回值为 0，所以就不会对该节点的 class 属性进行 diff，以此来优化性能。</p>\n<p><img src=\"https://file.shenfq.com/pic/20201111141957.png\" alt=\"patchFlag\"></p>\n<pre class=\"language-js\"><code class=\"language-js\">patchFlag <span class=\"token operator\">=</span> <span class=\"token number\">5</span>\npatchFlag <span class=\"token operator\">&amp;</span> <span class=\"token maybe-class-name\">PatchFlags</span><span class=\"token punctuation\">.</span>",
  "<span class=\"token constant\">CLASS</span>\n<span class=\"token comment\">// 或运算：只有对应的两个二进位都为1时，结果位才为1。</span>\n<span class=\"token comment\">// 0000 0101</span>\n<span class=\"token comment\">// 0000 0010</span>\n<span class=\"token comment\">// ------------</span>\n<span class=\"token comment\">// 0000 0000  =>  十进制 0</span>\n</code></pre>\n<h2 id=\"%E6%80%BB%E7%BB%93\">总结<a class=\"anchor\" href=\"#%E6%80%BB%E7%BB%93\">§</a></h2>\n<p>其实 Vue3 相关的性能优化有很多，这里只单独将 patchFlag 的十分之一的内容拿出来讲了，Vue3 还没正式发布的时候就有看到说 Diff 过程会通过 patchFlag 来进行性能",
  "优化，所以打算看看他的优化逻辑，总的来说还是有所收获。</p>"]

/-! ## Reading the record: date shape, filing year -/

/-- The string has the shape year/month/day with numeric parts, the month and the day
written with one or two digits, and names a day of the calendar. -/
def isCalendarDate (s : String) : Bool :=
  match splitSlash s.data with
  | [_, m, d] =>
    decide (1 ≤ m.length ∧ m.length ≤ 2 ∧ 1 ≤ d.length ∧ d.length ≤ 2) &&
      (match parseDate s with
       | some c => c.valid
       | none => false)
  | _ => false

/-- The path has the form `posts/<year>/<file>.md`, with a numeric `<year>` that is the
year part of the date string and a non-empty `<file>`. -/
def filedUnderYear (path date : String) : Bool :=
  match splitSlash path.data, splitSlash date.data with
  | [root, year, file], dateYear :: _ =>
    decide (root = ['p', 'o', 's', 't', 's'] ∧ year = dateYear) &&
      (parseNat year).isSome &&
      (match stripMd file with
       | some stem => !stem.isEmpty
       | none => false)
  | _, _ => false

/-! ## The object spread -/

theorem getProp_setProp (o : JSObject) (k : String) (v : JSValue) (k2 : String) :
    getProp (setProp o k v) k2 = if k2 = k then some v else getProp o k2 := by
  induction o with
  | nil => simp [setProp, getProp]
  | cons kv rest ih =>
    obtain ⟨k1, v1⟩ := kv
    by_cases h : k = k1
    · subst h
      by_cases h2 : k2 = k <;> simp [setProp, getProp, h2]
    · by_cases h2 : k2 = k1
      · subst h2
        have h3 : ¬ k2 = k := fun e => h e.symm
        simp [setProp, getProp, h, h3]
      · simp [setProp, getProp, h, h2, ih]

theorem mem_keys_setProp (o : JSObject) (k : String) (v : JSValue) (k2 : String) :
    k2 ∈ keys (setProp o k v) ↔ k2 = k ∨ k2 ∈ keys o := by
  induction o with
  | nil => simp [setProp, keys]
  | cons kv rest ih =>
    obtain ⟨k1, v1⟩ := kv
    by_cases h : k = k1
    · subst h
      simp [setProp, keys]
    · have ih2 : k2 ∈ List.map Prod.fst (setProp rest k v) ↔ k2 = k ∨ k2 ∈ List.map Prod.fst rest := ih
      simp only [setProp, h, if_false, keys, List.map_cons, List.mem_cons, ih2]
      tauto

theorem getProp_eq_none_of_not_mem (o : JSObject) (k : String) (h : k ∉ keys o) :
    getProp o k = none := by
  induction o with
  | nil => rfl
  | cons kv rest ih =>
    obtain ⟨k1, v1⟩ := kv
    simp only [keys, List.map_cons, List.mem_cons, not_or] at h
    simp only [getProp, h.1, if_false]
    exact ih h.2

theorem getProp_isSome_of_mem (o : JSObject) (k : String) (h : k ∈ keys o) :
    ∃ v, getProp o k = some v := by
  induction o with
  | nil => simp [keys] at h
  | cons kv rest ih =>
    obtain ⟨k1, v1⟩ := kv
    by_cases h1 : k = k1
    · exact ⟨v1, by simp [getProp, h1]⟩
    · simp only [keys, List.map_cons, List.mem_cons, h1, false_or] at h
      obtain ⟨v, hv⟩ := ih h
      exact ⟨v, by simp [getProp, h1, hv]⟩

theorem mem_keys_spread (src : JSObject) : ∀ (o : JSObject) (k : String),
    k ∈ keys (spread o src) ↔ k ∈ keys o ∨ k ∈ keys src := by
  induction src with
  | nil => intro o k; simp [spread, keys]
  | cons kv rest ih =>
    intro o k
    obtain ⟨k1, v1⟩ := kv
    have h := ih (setProp o k1 v1) k
    simp only [spread, List.foldl_cons] at h ⊢
    rw [h, mem_keys_setProp]
    simp only [keys, List.map_cons, List.mem_cons]
    tauto

theorem getProp_spread (src : JSObject) : ∀ (o : JSObject) (k : String), (keys src).Nodup →
    getProp (spread o src) k = (getProp src k).orElse (fun _ => getProp o k) := by
  induction src with
  | nil => intro o k _; simp [spread, getProp]
  | cons kv rest ih =>
    intro o k hnd
    obtain ⟨k1, v1⟩ := kv
    simp only [keys, List.map_cons, List.nodup_cons] at hnd
    have h := ih (setProp o k1 v1) k hnd.2
    simp only [spread, List.foldl_cons] at h ⊢
    rw [h, getProp_setProp]
    by_cases hk : k = k1
    · subst hk
      rw [getProp_eq_none_of_not_mem rest k hnd.1]
      simp [getProp]
    · simp [getProp, hk]

/-! ## Adjacent pairs -/

theorem chain_of_adjacentAll {α : Type} (r : α → α → Bool) :
    ∀ l : List α, adjacentAll r l = true → List.Chain' (fun a b => r a b = true) l := by
  intro l
  induction l with
  | nil => intro _; exact List.chain'_nil
  | cons a tl ih =>
    intro h
    cases tl with
    | nil => exact List.chain'_singleton a
    | cons b rest =>
      simp only [adjacentAll, Bool.and_eq_true] at h
      exact List.chain'_cons.mpr ⟨h.1, ih h.2⟩

/-! ## Chunked evaluation of `collect` -/

theorem collectChunk_spec {α : Type} (f : List Char → Option α) (k : Nat) :
    ∀ (cs : List Char) (acc : List α),
      (collectChunk f k cs acc).1.reverse ++ collect f (collectChunk f k cs acc).2 =
        acc.reverse ++ collect f cs := by
  induction k with
  | zero => intro cs acc; rfl
  | succ k ih =>
    intro cs acc
    cases cs with
    | nil => rfl
    | cons c rest =>
      simp only [collectChunk, collect]
      cases hf : f (c :: rest) with
      | none => simpa using ih rest acc
      | some v => simpa using ih rest (v :: acc)

theorem collectChunks_sound {α : Type} (f : List Char → Option α) (chunk n : Nat) :
    ∀ (cs : List Char) (acc out : List α),
      collectChunks f chunk n cs acc = some out → acc.reverse ++ collect f cs = out := by
  induction n with
  | zero => intro cs acc out h; simp [collectChunks] at h
  | succ n ih =>
    intro cs acc out h
    have hs := collectChunk_spec f chunk cs acc
    rw [collectChunks] at h
    rcases hc : collectChunk f chunk cs acc with ⟨acc1, rest⟩
    rw [hc] at h hs
    cases rest with
    | nil =>
      simp only [Option.some.injEq] at h
      simpa [collect, h] using hs.symm
    | cons c tl =>
      simp only at h hs
      rw [← hs]
      exact ih _ _ _ h

/-- The heading ids of `content`, in document order. -/
theorem headingIds_content :
    headingIds content =
      ["%E7%BC%96%E8%AF%91%E5%85%A5%E5%8F%A3", "%E4%B8%BB%E6%B5%81%E7%A8%8B",
       "%E8%AE%A1%E7%AE%97-patchflag", "render-%E4%BC%98%E5%8C%96", "%E6%80%BB%E7%BB%93"] := by
  have h : collectChunks headingIdAt 256 256 content.html.data [] =
      some ["%E7%BC%96%E8%AF%91%E5%85%A5%E5%8F%A3", "%E4%B8%BB%E6%B5%81%E7%A8%8B",
       "%E8%AE%A1%E7%AE%97-patchflag", "render-%E4%BC%98%E5%8C%96", "%E6%80%BB%E7%BB%93"] := by
    decide!
  simpa [headingIds] using collectChunks_sound headingIdAt 256 256 _ [] _ h

/-- The hrefs of the anchors of `toc`, in document order. -/
theorem anchorHrefs_toc :
    anchorHrefs toc =
      ["#%E7%BC%96%E8%AF%91%E5%85%A5%E5%8F%A3", "#%E4%B8%BB%E6%B5%81%E7%A8%8B",
       "#%E8%AE%A1%E7%AE%97-patchflag", "#render-%E4%BC%98%E5%8C%96", "#%E6%80%BB%E7%BB%93"] := by
  decide!

/-! ## Comparison of a text with its pieces -/

theorem dropPrefix_spec : ∀ (pre cs rest : List Char),
    dropPrefix pre cs = some rest → cs = pre ++ rest := by
  intro pre
  induction pre with
  | nil => intro cs rest h; simp only [dropPrefix, Option.some.injEq] at h; simp [h]
  | cons p ps ih =>
    intro cs rest h
    cases cs with
    | nil => simp [dropPrefix] at h
    | cons c cs =>
      by_cases hpc : p = c
      · subst hpc
        simp only [dropPrefix, if_true] at h
        simp [ih cs rest h]
      · simp [dropPrefix, hpc] at h

theorem matchPieces_sound : ∀ (ps : List String) (cs : List Char),
    matchPieces ps cs = true → cs = joinPieces ps := by
  intro ps
  induction ps with
  | nil =>
    intro cs h
    cases cs with
    | nil => rfl
    | cons c cs => simp [matchPieces] at h
  | cons p ps ih =>
    intro cs h
    rw [matchPieces] at h
    cases hd : dropPrefix p.data cs with
    | none => rw [hd] at h; simp at h
    | some rest =>
      rw [hd] at h
      rw [dropPrefix_spec _ _ _ hd, ih rest h]
      rfl

/-- The characters of `contentBody` are those of its pieces. -/
theorem contentBody_data_eq : contentBody.html.data = joinPieces contentBodyPieces := by
  have h : matchPieces contentBodyPieces contentBody.html.data = true := by decide!
  exact matchPieces_sound _ _ h

/-- The characters of `content` are those of the title heading followed by the pieces of
`contentBody`. -/
theorem content_data_eq_pieces :
    content.html.data = ("<h1>" ++ title ++ "</h1>\n").data ++ joinPieces contentBodyPieces := by
  have h : matchPieces (("<h1>" ++ title ++ "</h1>\n") :: contentBodyPieces) content.html.data =
      true := by decide!
  exact matchPieces_sound _ _ h

/-- The characters of `content` are those of the title heading followed by `contentBody`. -/
theorem content_data_eq :
    content.html.data = ("<h1>" ++ title ++ "</h1>\n" ++ contentBody.html).data := by
  rw [String.data_append, content_data_eq_pieces, contentBody_data_eq]

/-! ## The markup fragments, read once -/

/-- The `h2` headings with an id of `content`, in document order. -/
theorem h2Headings_content :
    h2Headings content =
      [⟨"%E7%BC%96%E8%AF%91%E5%85%A5%E5%8F%A3", "编译入口",
          permalink "%E7%BC%96%E8%AF%91%E5%85%A5%E5%8F%A3"⟩,
       ⟨"%E4%B8%BB%E6%B5%81%E7%A8%8B", "主流程", permalink "%E4%B8%BB%E6%B5%81%E7%A8%8B"⟩,
       ⟨"%E8%AE%A1%E7%AE%97-patchflag", "计算 PatchFlag",
          permalink "%E8%AE%A1%E7%AE%97-patchflag"⟩,
       ⟨"render-%E4%BC%98%E5%8C%96", "render 优化", permalink "render-%E4%BC%98%E5%8C%96"⟩,
       ⟨"%E6%80%BB%E7%BB%93", "总结", permalink "%E6%80%BB%E7%BB%93"⟩] := by
  have h : collectChunks h2At 256 256 content.html.data [] =
      some [⟨"%E7%BC%96%E8%AF%91%E5%85%A5%E5%8F%A3", "编译入口",
          permalink "%E7%BC%96%E8%AF%91%E5%85%A5%E5%8F%A3"⟩,
       ⟨"%E4%B8%BB%E6%B5%81%E7%A8%8B", "主流程", permalink "%E4%B8%BB%E6%B5%81%E7%A8%8B"⟩,
       ⟨"%E8%AE%A1%E7%AE%97-patchflag", "计算 PatchFlag",
          permalink "%E8%AE%A1%E7%AE%97-patchflag"⟩,
       ⟨"render-%E4%BC%98%E5%8C%96", "render 优化", permalink "render-%E4%BC%98%E5%8C%96"⟩,
       ⟨"%E6%80%BB%E7%BB%93", "总结", permalink "%E6%80%BB%E7%BB%93"⟩] := by
    decide!
  simpa [h2Headings] using collectChunks_sound h2At 256 256 _ [] _ h

/-- The (href, link text) pairs of the anchors of `toc`, in document order. -/
theorem anchors_toc :
    anchors toc =
      [("#%E7%BC%96%E8%AF%91%E5%85%A5%E5%8F%A3", "编译入口"),
       ("#%E4%B8%BB%E6%B5%81%E7%A8%8B", "主流程"),
       ("#%E8%AE%A1%E7%AE%97-patchflag", "计算 PatchFlag"),
       ("#render-%E4%BC%98%E5%8C%96", "render 优化"),
       ("#%E6%80%BB%E7%BB%93", "总结")] := by
  decide!

/-- The heading ids of `contentBody`, in document order. -/
theorem headingIds_contentBody :
    headingIds contentBody =
      ["%E7%BC%96%E8%AF%91%E5%85%A5%E5%8F%A3", "%E4%B8%BB%E6%B5%81%E7%A8%8B",
       "%E8%AE%A1%E7%AE%97-patchflag", "render-%E4%BC%98%E5%8C%96", "%E6%80%BB%E7%BB%93"] := by
  have h : collectChunks headingIdAt 256 256 contentBody.html.data [] =
      some ["%E7%BC%96%E8%AF%91%E5%85%A5%E5%8F%A3", "%E4%B8%BB%E6%B5%81%E7%A8%8B",
       "%E8%AE%A1%E7%AE%97-patchflag", "render-%E4%BC%98%E5%8C%96", "%E6%80%BB%E7%BB%93"] := by
    decide!
  simpa [headingIds] using collectChunks_sound headingIdAt 256 256 _ [] _ h

/-! ## Claims on `config` -/

/-- C6: the config field obeys shallow-merge precedence with later keys overriding earlier
ones: for every projectConfig object, the keys of `{root: "/", ...projectConfig}` are `root`
together with the keys of projectConfig, every key of projectConfig has in config the value
it has in projectConfig, and `config.root` is `"/"` when projectConfig has no root key. -/
theorem config_shallow_merge (projectConfig : JSObject)
    (hwf : (keys projectConfig).Nodup) :
    (∀ k, k ∈ keys (config projectConfig) ↔ k = "root" ∨ k ∈ keys projectConfig) ∧
    (∀ k ∈ keys projectConfig, getProp (config projectConfig) k = getProp projectConfig k) ∧
    ("root" ∉ keys projectConfig →
      getProp (config projectConfig) "root" = some (JSValue.str "/")) := by
  refine ⟨?_, ?_, ?_⟩
  · intro k
    rw [config, mem_keys_spread, mem_keys_setProp]
    simp [keys]
  · intro k hk
    obtain ⟨v, hv⟩ := getProp_isSome_of_mem projectConfig k hk
    rw [config, getProp_spread projectConfig _ k hwf, hv]
    rfl
  · intro hk
    rw [config, getProp_spread projectConfig _ "root" hwf,
      getProp_eq_none_of_not_mem projectConfig "root" hk, getProp_setProp]
    simp

/-- Witness of C6 at a projectConfig with two keys and no `root`. -/
theorem config_shallow_merge_witness :
    (keys [("title", JSValue.str "Blog"), ("port", JSValue.num 8000)]).Nodup ∧
    ((∀ k, k ∈ keys (config [("title", JSValue.str "Blog"), ("port", JSValue.num 8000)]) ↔
        k = "root" ∨ k ∈ keys [("title", JSValue.str "Blog"), ("port", JSValue.num 8000)]) ∧
     (∀ k ∈ keys [("title", JSValue.str "Blog"), ("port", JSValue.num 8000)],
        getProp (config [("title", JSValue.str "Blog"), ("port", JSValue.num 8000)]) k =
          getProp [("title", JSValue.str "Blog"), ("port", JSValue.num 8000)] k) ∧
     ("root" ∉ keys [("title", JSValue.str "Blog"), ("port", JSValue.num 8000)] →
        getProp (config [("title", JSValue.str "Blog"), ("port", JSValue.num 8000)]) "root" =
          some (JSValue.str "/"))) :=
  ⟨by decide, config_shallow_merge _ (by decide)⟩

/-- C7, as stated, fails: a projectConfig that defines its own `root` key replaces the
`"/"` written before the spread, so `config.root` is not `"/"`. -/
theorem config_root_not_forced :
    getProp (config [("root", JSValue.str "/blog/")]) "root" = some (JSValue.str "/blog/") ∧
    getProp (config [("root", JSValue.str "/blog/")]) "root" ≠ some (JSValue.str "/") := by
  have h : getProp (config [("root", JSValue.str "/blog/")]) "root" =
      some (JSValue.str "/blog/") := by
    simp [config, spread, setProp, getProp]
  refine ⟨h, ?_⟩
  rw [h]
  intro e
  have e2 : "/blog/" = "/" := JSValue.str.inj (Option.some.inj e)
  exact absurd e2 (by decide)

/-- C7, amended: the `root` entry written in the literal is a default; `config.root` is
projectConfig's own `root` when projectConfig defines one, and `"/"` otherwise. -/
theorem config_root_default (projectConfig : JSObject)
    (hwf : (keys projectConfig).Nodup) :
    getProp (config projectConfig) "root" =
      some ((getProp projectConfig "root").getD (JSValue.str "/")) := by
  rw [config, getProp_spread projectConfig _ "root" hwf, getProp_setProp]
  cases getProp projectConfig "root" <;> simp

/-- Witness of the amended C7 at a projectConfig with its own `root`. -/
theorem config_root_default_witness :
    (keys [("root", JSValue.str "/blog/"), ("port", JSValue.num 8000)]).Nodup ∧
    getProp (config [("root", JSValue.str "/blog/"), ("port", JSValue.num 8000)]) "root" =
      some ((getProp [("root", JSValue.str "/blog/"), ("port", JSValue.num 8000)] "root").getD
        (JSValue.str "/")) :=
  ⟨by decide, config_root_default _ (by decide)⟩

/-- C8, as stated, fails: with a number where the base has the string `"/"`, evaluating the
config expression yields the merged configuration and no error. -/
theorem evalConfig_number_root_ok :
    evalConfig (JSValue.obj [("root", JSValue.num 8080)]) = Except.ok [("root", JSValue.num 8080)] ∧
    ∀ e, evalConfig (JSValue.obj [("root", JSValue.num 8080)]) ≠ Except.error e := by
  have h : evalConfig (JSValue.obj [("root", JSValue.num 8080)]) =
      Except.ok [("root", JSValue.num 8080)] := by
    simp [evalConfig, spreadSource, config, spread, setProp]
  refine ⟨h, ?_⟩
  intro e he
  rw [h] at he
  cases he

/-- C8, amended: building config signals no error on a type mismatch; for a projectConfig
whose `root` value is not a string, evaluating the config expression yields the merged
configuration, and its `root` is projectConfig's value. -/
theorem evalConfig_type_mismatch_ok (projectConfig : JSObject) (v : JSValue)
    (hwf : (keys projectConfig).Nodup)
    (hroot : getProp projectConfig "root" = some v) (hty : v.isStr = false) :
    ∃ o, evalConfig (JSValue.obj projectConfig) = Except.ok o ∧ getProp o "root" = some v ∧
      getProp o "root" ≠ some (JSValue.str "/") := by
  refine ⟨config projectConfig, rfl, ?_, ?_⟩
  · rw [config, getProp_spread projectConfig _ "root" hwf, hroot]
    rfl
  · rw [config, getProp_spread projectConfig _ "root" hwf, hroot]
    intro e
    have e2 : v = JSValue.str "/" := Option.some.inj e
    rw [e2] at hty
    exact absurd hty (by decide)

/-- Witness of the amended C8 at a projectConfig whose `root` is an object. -/
theorem evalConfig_type_mismatch_ok_witness :
    (keys [("root", JSValue.obj [("path", JSValue.str "/")])]).Nodup ∧
    getProp [("root", JSValue.obj [("path", JSValue.str "/")])] "root" =
      some (JSValue.obj [("path", JSValue.str "/")]) ∧
    (JSValue.obj [("path", JSValue.str "/")]).isStr = false ∧
    ∃ o, evalConfig (JSValue.obj [("root", JSValue.obj [("path", JSValue.str "/")])]) =
        Except.ok o ∧
      getProp o "root" = some (JSValue.obj [("path", JSValue.str "/")]) ∧
      getProp o "root" ≠ some (JSValue.str "/") :=
  ⟨by decide, by simp [getProp], rfl,
    evalConfig_type_mismatch_ok _ _ (by decide) (by simp [getProp]) rfl⟩

/-! ## Claims on the record's data -/

/-- C1: for every entry of `blog.categories`, `count` equals the number of entries of
`blog.posts` whose `categories` list contains exactly that name. -/
theorem categories_count_eq_posts :
    ∀ e ∈ blog.categories,
      e.count = blog.posts.countP (fun p => decide (e.name ∈ p.categories)) := by
  decide!

/-- Witness of C1 at the first entry of `blog.categories`. -/
theorem categories_count_eq_posts_witness :
    (IndexEntry.mk "前端" 18) ∈ blog.categories ∧
    (IndexEntry.mk "前端" 18).count =
      blog.posts.countP (fun p => decide ((IndexEntry.mk "前端" 18).name ∈ p.categories)) :=
  ⟨by decide!, categories_count_eq_posts (IndexEntry.mk "前端" 18) (by decide!)⟩

/-- C2: for every entry of `blog.tags`, `count` equals the number of entries of `blog.posts`
whose `tags` list contains exactly that name; names that differ in case or spacing are
different tags, each with its own count. -/
theorem tags_count_eq_posts :
    (∀ e ∈ blog.tags,
      e.count = blog.posts.countP (fun p => decide (e.name ∈ p.tags))) ∧
    (⟨"React", 5⟩ ∈ blog.tags ∧ ⟨"react", 2⟩ ∈ blog.tags) ∧
    (⟨"Node", 6⟩ ∈ blog.tags ∧ ⟨"node", 1⟩ ∈ blog.tags) ∧
    (⟨"webpack", 2⟩ ∈ blog.tags ∧ ⟨"Webpack", 1⟩ ∈ blog.tags) ∧
    (⟨"虚拟DOM", 1⟩ ∈ blog.tags ∧ ⟨"虚拟 DOM", 1⟩ ∈ blog.tags) := by
  decide!

/-- C3: every anchor href of `toc` has the form `#x` and matches exactly one heading id of
`content`: the heading elements of `content` whose `id` equals `x` number one. -/
theorem toc_hrefs_match_one_heading :
    anchorHrefs toc ≠ [] ∧
    ∀ h ∈ anchorHrefs toc,
      ∃ x, fragmentOf h = some x ∧ (headingIds content).count x = 1 := by
  rw [anchorHrefs_toc, headingIds_content]
  refine ⟨by decide, ?_⟩
  intro h hh
  simp only [List.mem_cons, List.mem_singleton, List.not_mem_nil, or_false] at hh
  rcases hh with rfl | rfl | rfl | rfl | rfl
  · exact ⟨_, rfl, by decide⟩
  · exact ⟨_, rfl, by decide⟩
  · exact ⟨_, rfl, by decide⟩
  · exact ⟨_, rfl, by decide⟩
  · exact ⟨_, rfl, by decide⟩

/-- C4: `outputPath` is `pagePath` with the trailing `.md` replaced by `.html` and nothing
else changed, the derivation that takes `posts/2020/x.md` to `posts/2020/x.html`. -/
theorem outputPath_eq_htmlPathOf_pagePath :
    htmlPathOf pagePath = some outputPath ∧
    htmlPathOf "posts/2020/x.md" = some "posts/2020/x.html" := by
  decide!

/-- C5: `blog.posts` is in reverse-chronological order: every date string reads as a
calendar date and, for adjacent entries, the earlier entry's date is not before the later
entry's date; the comparison is numeric, so `2020/12/13` precedes `2020/12/7`. -/
theorem posts_reverse_chronological :
    List.Chain' (fun s t => dateNotBefore s t = true) (blog.posts.map PostSummary.date) ∧
    dateNotBefore "2020/12/13" "2020/12/7" = true ∧
    dateNotBefore "2020/12/7" "2020/12/1" = true ∧
    dateNotBefore "2020/12/7" "2020/12/13" = false :=
  ⟨chain_of_adjacentAll _ _ (by decide!), by decide!, by decide!, by decide!⟩

/-- C9: entries of the aggregated indexes are unique by name: no two entries of
`blog.categories` and no two entries of `blog.tags` have the same name. -/
theorem index_names_nodup :
    (blog.categories.map IndexEntry.name).Nodup ∧ (blog.tags.map IndexEntry.name).Nodup := by
  decide!

/-- C10: `contributors`, `categories` and `tags` are non-empty sets, in the page record and
in every entry of `blog.posts`: each list has an element and holds no string twice. -/
theorem contributors_categories_tags_nonempty_sets :
    ((contributors ≠ [] ∧ contributors.Nodup) ∧ (categories ≠ [] ∧ categories.Nodup) ∧
      (tags ≠ [] ∧ tags.Nodup)) ∧
    ∀ p ∈ blog.posts,
      (p.contributors ≠ [] ∧ p.contributors.Nodup) ∧
      (p.categories ≠ [] ∧ p.categories.Nodup) ∧ (p.tags ≠ [] ∧ p.tags.Nodup) := by
  decide!

/-! ## Claims on dates, paths, elements and markup -/

/-- C11: for the page record and for every entry of `blog.posts`, `updated` is either null or
a valid date string that is not earlier than the same record's `date`. -/
theorem updated_null_or_not_before_date :
    updatedOk date updated = true ∧
    ∀ p ∈ blog.posts, updatedOk p.date p.updated = true := by
  decide!

/-- C12: `contentTitle` wraps `title` as a heading element: it is an `h1` element whose
single text child, the source literal with its `\uXXXX` escapes decoded, is the string in
`title`. -/
theorem contentTitle_wraps_title :
    contentTitle.type = "h1" ∧
    contentTitle.children = [String.mk (decodeEscapes contentTitleSource.data)] ∧
    String.mk (decodeEscapes contentTitleSource.data) = title ∧
    title = "Vue3 模板编译优化" := by
  decide!

/-- C13: `pagePath`, `layoutPath` and `outputPath` are non-empty relative paths (not the
empty string, not beginning with `/`), and so are the `pagePath` and `link` of every entry
of `blog.posts`. -/
theorem paths_nonempty_relative :
    (isRelativePath pagePath = true ∧ isRelativePath layoutPath = true ∧
      isRelativePath outputPath = true) ∧
    ∀ p ∈ blog.posts, isRelativePath p.pagePath = true ∧ isRelativePath p.link = true := by
  decide!

/-- C15: for every entry of `blog.posts`, `link` is that entry's `pagePath` with the trailing
`.md` replaced by `.html` and nothing else changed; spaces and non-ASCII characters are kept,
as in the listed post `posts/2020/手把手教你实现 Promise .md`. -/
theorem post_links_eq_htmlPathOf_pagePath :
    (∀ p ∈ blog.posts, htmlPathOf p.pagePath = some p.link) ∧
    "posts/2020/手把手教你实现 Promise .md" ∈ blog.posts.map PostSummary.pagePath ∧
    htmlPathOf "posts/2020/手把手教你实现 Promise .md" =
      some "posts/2020/手把手教你实现 Promise .html" := by
  decide!

/-- C16: the page's own entry is a faithful reduction of the record: `blog.posts` has exactly
one entry whose `pagePath` is the record's `pagePath`, the entry at index 4, and its title,
link (the record's `outputPath`), date, updated, author, contributors, categories, tags,
excerpt and cover are the record's. -/
theorem own_summary_is_reduction_of_page :
    blog.posts.filter (fun q => decide (q.pagePath = pagePath)) = [summaryOfPage] ∧
    blog.posts[4]? = some summaryOfPage := by
  decide!

/-- C17: `script` consists of exactly three `script` elements in load order, the React
library, then the ReactDOM library, then the module script `/index.js`; `head` consists of
exactly one stylesheet `link` element. -/
theorem script_load_order_and_head :
    script.map Element.type = ["script", "script", "script"] ∧
    script.map (fun e => e.attr "src") =
      [some "https://cdn.pagic.org/react@16.13.1/umd/react.production.min.js",
       some "https://cdn.pagic.org/react-dom@16.13.1/umd/react-dom.production.min.js",
       some "/index.js"] ∧
    script.map (fun e => e.attr "type") = [none, none, some "module"] ∧
    head.map Element.type = ["link"] ∧
    head.map (fun e => e.attr "rel") = [some "stylesheet"] := by
  decide!

/-- C18: the markup of `content` is `<h1>`, the title, `</h1>`, a newline, then the markup
of `contentBody`; so `contentBody` is a suffix of `content` and the two have the same
sequence of heading ids. -/
theorem content_eq_title_heading_then_body :
    content.html = "<h1>" ++ title ++ "</h1>\n" ++ contentBody.html ∧
    List.IsSuffix contentBody.html.data content.html.data ∧
    headingIds contentBody = headingIds content := by
  refine ⟨String.ext content_data_eq, ?_, ?_⟩
  · rw [content_data_eq, String.data_append]
    exact List.suffix_append _ _
  · rw [headingIds_contentBody, headingIds_content]

/-- C19: the toc is complete and ordered: the (href, link text) pairs of its anchors are, in
document order, the (`#` followed by the id, heading text) pairs of the `h2` headings with an
id of `content`; these are all the headings with an id, and no href occurs twice.  The
heading text is the text of the heading before the permalink anchor that ends it. -/
theorem toc_lists_headings_in_order :
    anchors toc = (h2Headings content).map (fun h => ("#" ++ h.id, h.text)) ∧
    (h2Headings content).map Heading.id = headingIds content ∧
    ((anchors toc).map Prod.fst).Nodup ∧
    ∀ h ∈ h2Headings content, h.rest = permalink h.id := by
  rw [anchors_toc, h2Headings_content, headingIds_content]
  decide

/-- C20: the aggregated indexes are complete: every category of a post has an entry in
`blog.categories`, every tag of a post has an entry in `blog.tags`, and no index entry has
count 0. -/
theorem indexes_complete :
    (∀ p ∈ blog.posts, ∀ c ∈ p.categories, c ∈ blog.categories.map IndexEntry.name) ∧
    (∀ p ∈ blog.posts, ∀ t ∈ p.tags, t ∈ blog.tags.map IndexEntry.name) ∧
    (∀ e ∈ blog.categories, e.count ≠ 0) ∧
    (∀ e ∈ blog.tags, e.count ≠ 0) := by
  decide!

/-! ## Claims on the listing as a whole -/

/-- C21: every entry of `blog.posts` has exactly one category, and the sum of the `count`
fields over `blog.categories` equals the number of entries of `blog.posts`, which is 51. -/
theorem one_category_per_post_and_counts_sum :
    (∀ p ∈ blog.posts, p.categories.length = 1) ∧
    (blog.categories.map IndexEntry.count).sum = blog.posts.length ∧
    blog.posts.length = 51 := by
  decide!

/-- C22: both aggregated indexes are ordered by popularity: in `blog.categories` and in
`blog.tags` the count of each entry is greater than or equal to the count of the entry
that follows it. -/
theorem indexes_ordered_by_count :
    List.Chain' (fun a b : IndexEntry => b.count ≤ a.count) blog.categories ∧
    List.Chain' (fun a b : IndexEntry => b.count ≤ a.count) blog.tags :=
  ⟨(chain_of_adjacentAll (fun a b : IndexEntry => decide (b.count ≤ a.count)) _
      (by decide!)).imp (fun _ _ h => of_decide_eq_true h),
   (chain_of_adjacentAll (fun a b : IndexEntry => decide (b.count ≤ a.count)) _
      (by decide!)).imp (fun _ _ h => of_decide_eq_true h)⟩

/-- C23: posts are identified uniquely by their paths: no two entries of `blog.posts` have
the same `pagePath`, no two have the same `link`, and so two entries with the same link are
the same post. -/
theorem posts_unique_by_path_and_link :
    (blog.posts.map PostSummary.pagePath).Nodup ∧
    (blog.posts.map PostSummary.link).Nodup ∧
    ∀ p ∈ blog.posts, ∀ q ∈ blog.posts, p.link = q.link → p = q := by
  have hl : (blog.posts.map PostSummary.link).Nodup := by decide!
  refine ⟨by decide!, hl, ?_⟩
  intro p hp q hq h
  exact List.inj_on_of_nodup_map hl hp hq h

/-- C24: every date in the record is a valid calendar date: the page's `date` and the `date`
of every entry of `blog.posts` has the shape year/month/day with numeric parts, month and
day written with one or two digits, with 1 ≤ month ≤ 12 and 1 ≤ day ≤ the number of days of
that month in that year. -/
theorem dates_are_calendar_dates :
    isCalendarDate date = true ∧ ∀ p ∈ blog.posts, isCalendarDate p.date = true := by
  decide!

/-- C25: each post is filed under the year it is dated: for every entry of `blog.posts`,
`pagePath` has the form `posts/<year>/<file>.md` and `<year>` is the year part of that
entry's `date`. -/
theorem posts_filed_under_their_year :
    ∀ p ∈ blog.posts, filedUnderYear p.pagePath p.date = true := by
  decide!

/-- Witness of C25 at the page's own entry of `blog.posts`. -/
theorem posts_filed_under_their_year_witness :
    summaryOfPage ∈ blog.posts ∧
    filedUnderYear summaryOfPage.pagePath summaryOfPage.date = true :=
  ⟨by decide!, posts_filed_under_their_year summaryOfPage (by decide!)⟩

end Pagic
